import Mathlib

/-!
# gpufilter: a verification development

A shallow embedding of `gpufilter.c` / `gpufilter.h`.  Every function of the
library is a short sequence of OpenGL calls guarded by validity flags, so the
embedding makes the sequence of calls explicit: each embedded function maps
the history of calls issued so far to its result and to the list of calls it
issues itself.  Values returned by the OpenGL implementation (generated object
names, status queries, uniform locations) are supplied by a `Driver`, which
answers each query as an arbitrary function of the history.

C pointers to handles become values: a function that may write through a
handle pointer returns the handle state it leaves behind.
-/

namespace GPUFilter

/-! ## Status codes and handle records (gpufilter.h) -/

/-- Status codes of `enum GPUStatus`, in declaration order (values 0 to 7). -/
inductive GPUStatus where
  | GPUStatusOK
  | GPUStatusUnknownError
  | GPUStatusFailedToMakeFramebufferObjectError
  | GPUStatusNoSuchParameter
  | GPUStatusOutOfMemory
  | GPUStatusInvalidTexture
  | GPUStatusInvalidFramebuffer
  | GPUStatusInvalidProgram
deriving DecidableEq, Repr

open GPUStatus

/-- Numeric value of a status code, as assigned in `enum GPUStatus`. -/
def GPUStatus.toNat : GPUStatus → Nat
  | GPUStatusOK => 0
  | GPUStatusUnknownError => 1
  | GPUStatusFailedToMakeFramebufferObjectError => 2
  | GPUStatusNoSuchParameter => 3
  | GPUStatusOutOfMemory => 4
  | GPUStatusInvalidTexture => 5
  | GPUStatusInvalidFramebuffer => 6
  | GPUStatusInvalidProgram => 7

/-- Values of `enum GPUColorFormat`.  A C enum argument can carry any integer,
so the colour format is an `Int` and these are the three named values. -/
def GPUColorFormatRGB : Int := 0

/-- The colour format RGBA, value 1 of `enum GPUColorFormat`. -/
def GPUColorFormatRGBA : Int := 1

/-- The colour format BGRA, value 2 of `enum GPUColorFormat`. -/
def GPUColorFormatBGRA : Int := 2

/-- Record `struct GPUTexture`: four `uint32_t` fields. -/
structure GPUTexture where
  valid : Nat
  textureId : Nat
  width : Nat
  height : Nat
deriving DecidableEq, Repr

/-- Record `struct GPUFramebuffer`; the texture is embedded by value. -/
structure GPUFramebuffer where
  valid : Nat
  framebufferId : Nat
  texture : GPUTexture
deriving DecidableEq, Repr

/-- One element of the anonymous struct array `additionalTextures[7]`. -/
structure AdditionalTexture where
  textureShouldBeUsed : Int
  texture : GPUTexture
  uniformLocation : Int
deriving DecidableEq, Repr

/-- Record `struct GPUProgram`; the array of 7 slots is a function on `Fin 7`. -/
structure GPUProgram where
  valid : Nat
  programId : Nat
  textureUniformLocation : Int
  additionalTextures : Fin 7 → AdditionalTexture

/-- Result of `memset(texture, 0, sizeof(GPUTexture))`. -/
def GPUTexture.zero : GPUTexture :=
  { valid := 0, textureId := 0, width := 0, height := 0 }

/-- Result of `memset(framebuffer, 0, sizeof(GPUFramebuffer))`. -/
def GPUFramebuffer.zero : GPUFramebuffer :=
  { valid := 0, framebufferId := 0, texture := GPUTexture.zero }

/-- A zero-filled additional-texture slot. -/
def AdditionalTexture.zero : AdditionalTexture :=
  { textureShouldBeUsed := 0, texture := GPUTexture.zero, uniformLocation := 0 }

/-- Result of `memset(program, 0, sizeof(GPUProgram))`. -/
def GPUProgram.zero : GPUProgram :=
  { valid := 0, programId := 0, textureUniformLocation := 0,
    additionalTextures := fun _ => AdditionalTexture.zero }

/-- A C `float`, carried as its bit pattern.  The library never computes with
floats; it only hands them to the driver unchanged. -/
structure GLfloat where
  bits : Nat
deriving DecidableEq, Repr

/-! ## OpenGL enumerants

The numeric values are those of the OpenGL headers which `gpufilter.h`
includes (`OpenGL/gl3.h`, `OpenGLES/ES2/gl.h`, `OpenGLES/ES2/glext.h`). -/

def GL_FALSE : Nat := 0
def GL_NO_ERROR : Nat := 0
def GL_TRIANGLE_STRIP : Nat := 0x0005
def GL_TEXTURE_2D : Nat := 0x0DE1
def GL_UNSIGNED_BYTE : Nat := 0x1401
def GL_RGB : Nat := 0x1907
def GL_RGBA : Nat := 0x1908
def GL_BGRA : Nat := 0x80E1
def GL_NEAREST : Nat := 0x2600
def GL_TEXTURE_MAG_FILTER : Nat := 0x2800
def GL_TEXTURE_MIN_FILTER : Nat := 0x2801
def GL_TEXTURE_WRAP_S : Nat := 0x2802
def GL_TEXTURE_WRAP_T : Nat := 0x2803
def GL_CLAMP_TO_EDGE : Nat := 0x812F
def GL_TEXTURE0 : Nat := 0x84C0
def GL_FRAGMENT_SHADER : Nat := 0x8B30
def GL_VERTEX_SHADER : Nat := 0x8B31
def GL_COMPILE_STATUS : Nat := 0x8B81
def GL_LINK_STATUS : Nat := 0x8B82
def GL_INFO_LOG_LENGTH : Nat := 0x8B84
def GL_FRAMEBUFFER_COMPLETE : Nat := 0x8CD5
def GL_COLOR_ATTACHMENT0 : Nat := 0x8CE0
def GL_FRAMEBUFFER : Nat := 0x8D40
def GL_RENDERBUFFER : Nat := 0x8D41

/-! ## Observable events -/

/-- One observable step of the library: an OpenGL call with its arguments (and,
for a query, the value the driver returned), or a use of the C runtime
(`printf`, `fprintf(stderr, ..)`, `malloc`, the caller-supplied log callback).
Pointer arguments are recorded by the data they point to; `none` is `NULL`. -/
inductive Event where
  | glBindFramebuffer (target framebuffer : Nat)
  | glViewport (x y : Int) (width height : Nat)
  | glUseProgram (program : Nat)
  | glActiveTexture (unit : Nat)
  | glBindTexture (target texture : Nat)
  | glDrawArrays (mode : Nat) (first : Int) (count : Nat)
  | glGenFramebuffers (n : Nat) (result : Nat)
  | glGenTextures (n : Nat) (result : Nat)
  | glTexParameteri (target pname param : Nat)
  | glTexParameterf (target pname param : Nat)
  | glTexImage2D (target : Nat) (level : Int) (internalformat : Nat)
      (width height : Nat) (border : Int) (format type : Nat)
      (data : Option (List Nat))
  | glBindRenderbuffer (target renderbuffer : Nat)
  | glFramebufferTexture2D (target attachment textarget texture : Nat) (level : Int)
  | glCheckFramebufferStatus (target : Nat) (result : Nat)
  | glDeleteFramebuffers (n : Nat) (framebuffer : Nat)
  | glDeleteTextures (n : Nat) (texture : Nat)
  | glFlush
  | glFinish
  | glReadPixels (x y : Int) (width height : Nat) (format type : Nat)
      (result : List Nat)
  | glGetError (result : Nat)
  | glCreateProgram (result : Nat)
  | glCreateShader (type : Nat) (result : Nat)
  | glShaderSource (shader : Nat) (count : Nat) (source : String)
  | glCompileShader (shader : Nat)
  | glGetShaderiv (shader pname : Nat) (result : Int)
  | glGetShaderInfoLog (shader : Nat) (bufSize : Int) (result : String)
  | glDeleteShader (shader : Nat)
  | glDeleteProgram (program : Nat)
  | glAttachShader (program shader : Nat)
  | glDetachShader (program shader : Nat)
  | glBindAttribLocation (program index : Nat) (name : String)
  | glLinkProgram (program : Nat)
  | glGetProgramiv (program pname : Nat) (result : Int)
  | glGetProgramInfoLog (program : Nat) (bufSize : Int) (result : String)
  | glGetUniformLocation (program : Nat) (name : String) (result : Int)
  | glUniform1f (location : Int) (v0 : GLfloat)
  | glUniform2f (location : Int) (v0 v1 : GLfloat)
  | glUniform3f (location : Int) (v0 v1 v2 : GLfloat)
  | glUniform4f (location : Int) (v0 v1 v2 v3 : GLfloat)
  | glUniform1i (location : Int) (v0 : Int)
  | glUniform2i (location : Int) (v0 v1 : Int)
  | glUniform3i (location : Int) (v0 v1 v2 : Int)
  | glUniform4i (location : Int) (v0 v1 v2 v3 : Int)
  | glUniform1fv (location : Int) (count : Nat) (value : List GLfloat)
  | glUniform2fv (location : Int) (count : Nat) (value : List GLfloat)
  | glUniform3fv (location : Int) (count : Nat) (value : List GLfloat)
  | glUniform4fv (location : Int) (count : Nat) (value : List GLfloat)
  | glUniform1iv (location : Int) (count : Nat) (value : List Int)
  | glUniform2iv (location : Int) (count : Nat) (value : List Int)
  | glUniform3iv (location : Int) (count : Nat) (value : List Int)
  | glUniform4iv (location : Int) (count : Nat) (value : List Int)
  | glUniformMatrix2fv (location : Int) (count : Nat) (transpose : Nat)
      (value : List GLfloat)
  | glUniformMatrix3fv (location : Int) (count : Nat) (transpose : Nat)
      (value : List GLfloat)
  | glUniformMatrix4fv (location : Int) (count : Nat) (transpose : Nat)
      (value : List GLfloat)
  | printf (format : String) (arg : String)
  | fprintf_stderr (format : String) (args : List Nat)
  | logFunc (callback : Nat) (log : String)
  | malloc (size : Nat) (succeeded : Bool)
  | free

/-- The OpenGL implementation and C runtime, as seen by the library: what each
query returns, given the events that happened before it. -/
structure Driver where
  glGenFramebuffers : List Event → Nat
  glGenTextures : List Event → Nat
  glCheckFramebufferStatus : List Event → Nat
  glGetError : List Event → Nat
  glReadPixels : List Event → List Nat
  glCreateProgram : List Event → Nat
  glCreateShader : List Event → Nat → Nat
  glGetShaderiv : List Event → Nat → Nat → Int
  glGetShaderInfoLog : List Event → Nat → String
  glGetProgramiv : List Event → Nat → Nat → Int
  glGetProgramInfoLog : List Event → Nat → String
  glGetUniformLocation : List Event → Nat → String → Int
  malloc : List Event → Nat → Bool

/-! ## Computations that issue events -/

/-- A computation run after the events `h`: its result and the events it
issues itself, oldest first. -/
def GLM (α : Type) : Type := List Event → α × List Event

/-- A computation that issues nothing. -/
def GLM.pure {α : Type} (a : α) : GLM α := fun _ => (a, [])

/-- Put `events` in front of the events of an outcome. -/
def after {α : Type} (events : List Event) (r : α × List Event) : α × List Event :=
  (r.1, events ++ r.2)

/-- Sequencing: the second computation runs after the events of the first. -/
def GLM.bind {α β : Type} (m : GLM α) (f : α → GLM β) : GLM β := fun h =>
  after (m h).2 (f (m h).1 (h ++ (m h).2))

instance : Monad GLM where
  pure := GLM.pure
  bind := GLM.bind

/-- Issue one event that returns nothing. -/
def emit (e : Event) : GLM Unit := fun _ => ((), [e])

/-- Ask the driver a question and record the call together with its answer. -/
def query {α : Type} (answer : List Event → α) (e : α → Event) : GLM α :=
  fun h => (answer h, [e (answer h)])

/-! ## Colour formats -/

/-- The function `gpuColorFormatToGLFormat`, gpufilter.c lines 311-319. -/
def gpuColorFormatToGLFormat (colorFormat : Int) : Nat :=
  if colorFormat = GPUColorFormatRGB then GL_RGB
  else if colorFormat = GPUColorFormatRGBA then GL_RGBA
  else if colorFormat = GPUColorFormatBGRA then GL_BGRA
  else GL_RGBA

/-! ## Render Image -/

/-- Outcome of a render call: the status and the three handles as the call
leaves them. -/
structure RenderResult where
  status : GPUStatus
  texture : GPUTexture
  framebuffer : GPUFramebuffer
  program : GPUProgram

/-- Body of the loop `for (int i = 0; i < 7; i++)` of
`gpuRenderTextureToFramebufferUsingProgram`, lines 141-145. -/
def renderAdditionalTexture (program : GPUProgram) (i : Fin 7) : GLM Unit :=
  if (program.additionalTextures i).textureShouldBeUsed ≠ 0 then do
    emit (.glUniform1i (program.additionalTextures i).uniformLocation (i.val + 1))
    emit (.glActiveTexture (GL_TEXTURE0 + i.val + 1))
    emit (.glBindTexture GL_TEXTURE_2D (program.additionalTextures i).texture.textureId)
  else
    pure ()

/-- The function `gpuRenderTextureToFramebufferUsingProgram`, lines 118-152. -/
def gpuRenderTextureToFramebufferUsingProgram (texture : GPUTexture)
    (framebuffer : GPUFramebuffer) (program : GPUProgram) : GLM RenderResult :=
  if texture.valid = 0 then
    pure ⟨GPUStatusInvalidTexture, texture, framebuffer, program⟩
  else if framebuffer.valid = 0 then
    pure ⟨GPUStatusInvalidFramebuffer, texture, framebuffer, program⟩
  else if program.valid = 0 then
    pure ⟨GPUStatusInvalidProgram, texture, framebuffer, program⟩
  else do
    emit (.glBindFramebuffer GL_FRAMEBUFFER framebuffer.framebufferId)
    emit (.glViewport 0 0 framebuffer.texture.width framebuffer.texture.height)
    emit (.glUseProgram program.programId)
    emit (.glUniform1i program.textureUniformLocation 0)
    emit (.glActiveTexture GL_TEXTURE0)
    emit (.glBindTexture GL_TEXTURE_2D texture.textureId)
    renderAdditionalTexture program 0
    renderAdditionalTexture program 1
    renderAdditionalTexture program 2
    renderAdditionalTexture program 3
    renderAdditionalTexture program 4
    renderAdditionalTexture program 5
    renderAdditionalTexture program 6
    emit (.glActiveTexture GL_TEXTURE0)
    emit (.glDrawArrays GL_TRIANGLE_STRIP 0 4)
    pure ⟨GPUStatusOK, texture, framebuffer, program⟩

/-- The function `gpuRenderFramebufferToFramebufferUsingProgram`, lines 154-159.
The source texture is the `texture` field of `source`, so a handle state that
the callee leaves for its texture argument is stored back into that field. -/
def gpuRenderFramebufferToFramebufferUsingProgram (source target : GPUFramebuffer)
    (program : GPUProgram) : GLM (GPUStatus × GPUFramebuffer × GPUFramebuffer × GPUProgram) :=
  do
    let r ← gpuRenderTextureToFramebufferUsingProgram source.texture target program
    pure (r.status, { source with texture := r.texture }, r.framebuffer, r.program)

/-! ## Framebuffer -/

/-- The function `gpuCreateFramebuffer`, lines 163-196.  The first statement is
the `memset` that clears whatever the handle held before. -/
def gpuCreateFramebuffer (d : Driver) (width height : Nat) (framebuffer : GPUFramebuffer) :
    GLM (GPUStatus × GPUFramebuffer) := do
  let framebuffer : GPUFramebuffer :=
    { framebuffer with valid := 0, framebufferId := 0, texture := GPUTexture.zero }
  let framebuffer : GPUFramebuffer :=
    { framebuffer with texture := { framebuffer.texture with width := width } }
  let framebuffer : GPUFramebuffer :=
    { framebuffer with texture := { framebuffer.texture with height := height } }
  let framebufferId ← query d.glGenFramebuffers (.glGenFramebuffers 1)
  let framebuffer : GPUFramebuffer := { framebuffer with framebufferId := framebufferId }
  emit (.glBindFramebuffer GL_FRAMEBUFFER framebuffer.framebufferId)
  let textureId ← query d.glGenTextures (.glGenTextures 1)
  let framebuffer : GPUFramebuffer :=
    { framebuffer with texture := { framebuffer.texture with textureId := textureId } }
  emit (.glBindTexture GL_TEXTURE_2D framebuffer.texture.textureId)
  emit (.glTexParameteri GL_TEXTURE_2D GL_TEXTURE_MIN_FILTER GL_NEAREST)
  emit (.glTexParameteri GL_TEXTURE_2D GL_TEXTURE_MAG_FILTER GL_NEAREST)
  emit (.glTexParameterf GL_TEXTURE_2D GL_TEXTURE_WRAP_S GL_CLAMP_TO_EDGE)
  emit (.glTexParameterf GL_TEXTURE_2D GL_TEXTURE_WRAP_T GL_CLAMP_TO_EDGE)
  emit (.glTexImage2D GL_TEXTURE_2D 0 GL_RGBA width height 0 GL_RGBA GL_UNSIGNED_BYTE none)
  emit (.glBindRenderbuffer GL_RENDERBUFFER 0)
  emit (.glBindTexture GL_TEXTURE_2D 0)
  emit (.glFramebufferTexture2D GL_FRAMEBUFFER GL_COLOR_ATTACHMENT0 GL_TEXTURE_2D
    framebuffer.texture.textureId 0)
  let status ← query d.glCheckFramebufferStatus (.glCheckFramebufferStatus GL_FRAMEBUFFER)
  if status ≠ GL_FRAMEBUFFER_COMPLETE then do
    let again ← query d.glCheckFramebufferStatus (.glCheckFramebufferStatus GL_FRAMEBUFFER)
    emit (.fprintf_stderr "Failed to make complete framebuffer object %x\n" [again])
    pure (GPUStatusFailedToMakeFramebufferObjectError, framebuffer)
  else
    let framebuffer : GPUFramebuffer := { framebuffer with valid := 1 }
    let framebuffer : GPUFramebuffer :=
      { framebuffer with texture := { framebuffer.texture with valid := 1 } }
    pure (GPUStatusOK, framebuffer)

/-- The function `gpuDestroyFramebuffer`, lines 198-206. -/
def gpuDestroyFramebuffer (framebuffer : GPUFramebuffer) : GLM GPUFramebuffer :=
  if framebuffer.valid ≠ 0 then do
    let framebuffer : GPUFramebuffer := { framebuffer with valid := 0 }
    let framebuffer : GPUFramebuffer :=
      { framebuffer with texture := { framebuffer.texture with valid := 0 } }
    emit (.glDeleteFramebuffers 1 framebuffer.framebufferId)
    emit (.glDeleteTextures 1 framebuffer.texture.textureId)
    pure framebuffer
  else
    pure framebuffer

/-- The function `gpuGetFramebufferSizeInBytes`, lines 208-211: a product of
`uint32_t` values, so each multiplication wraps at 2^32. -/
def gpuGetFramebufferSizeInBytes (framebuffer : GPUFramebuffer) : GLM (Nat × GPUFramebuffer) :=
  pure (((4 * framebuffer.texture.width) % 2 ^ 32 * framebuffer.texture.height) % 2 ^ 32,
    framebuffer)

/-- The function `gpuGetFramebufferContents`, lines 213-232.  The buffer
`rgbaData` is returned as the call leaves it: on the read path it holds what
the driver wrote. -/
def gpuGetFramebufferContents (d : Driver) (framebuffer : GPUFramebuffer)
    (rgbaData : List Nat) (colorFormat : Int) :
    GLM (GPUStatus × GPUFramebuffer × List Nat) :=
  if framebuffer.valid = 0 then
    pure (GPUStatusInvalidFramebuffer, framebuffer, rgbaData)
  else do
    let pixelFormat := gpuColorFormatToGLFormat colorFormat
    emit .glFlush
    emit .glFinish
    emit (.glBindFramebuffer GL_FRAMEBUFFER framebuffer.framebufferId)
    let rgbaData ← query d.glReadPixels
      (.glReadPixels 0 0 framebuffer.texture.width framebuffer.texture.height pixelFormat
        GL_UNSIGNED_BYTE)
    let error ← query d.glGetError .glGetError
    if error ≠ GL_NO_ERROR then
      pure (GPUStatusUnknownError, framebuffer, rgbaData)
    else
      pure (GPUStatusOK, framebuffer, rgbaData)

/-! ## Texture -/

/-- The function `gpuCreateTexture`, lines 236-254. -/
def gpuCreateTexture (d : Driver) (texture : GPUTexture) : GLM (GPUStatus × GPUTexture) := do
  let texture : GPUTexture :=
    { texture with valid := 0, textureId := 0, width := 0, height := 0 }
  emit (.glActiveTexture GL_TEXTURE0)
  let textureId ← query d.glGenTextures (.glGenTextures 1)
  let texture : GPUTexture := { texture with textureId := textureId }
  emit (.glBindTexture GL_TEXTURE_2D texture.textureId)
  emit (.glTexParameteri GL_TEXTURE_2D GL_TEXTURE_MIN_FILTER GL_NEAREST)
  emit (.glTexParameteri GL_TEXTURE_2D GL_TEXTURE_MAG_FILTER GL_NEAREST)
  emit (.glTexParameterf GL_TEXTURE_2D GL_TEXTURE_WRAP_S GL_CLAMP_TO_EDGE)
  emit (.glTexParameterf GL_TEXTURE_2D GL_TEXTURE_WRAP_T GL_CLAMP_TO_EDGE)
  let texture : GPUTexture := { texture with valid := 1 }
  let texture : GPUTexture := { texture with width := 0 }
  let texture : GPUTexture := { texture with height := 0 }
  pure (GPUStatusOK, texture)

/-- The function `gpuDestroyTexture`, lines 256-262. -/
def gpuDestroyTexture (texture : GPUTexture) : GLM GPUTexture :=
  if texture.valid ≠ 0 then do
    let texture : GPUTexture := { texture with valid := 0 }
    emit (.glDeleteTextures 1 texture.textureId)
    pure texture
  else
    pure texture

/-- The function `gpuUploadImageToTexture`, lines 265-284.  In the call
`glTexImage2D(GL_TEXTURE_2D, 0, pixelFormat, width, height, 0, GL_RGBA,
GL_UNSIGNED_BYTE, pixelData)` the third argument is the internal format and
the seventh is the layout of the source pixels. -/
def gpuUploadImageToTexture (d : Driver) (width height : Nat) (colorFormat : Int)
    (pixelData : Option (List Nat)) (texture : GPUTexture) : GLM (GPUStatus × GPUTexture) :=
  if texture.valid = 0 then
    pure (GPUStatusInvalidTexture, texture)
  else do
    let texture : GPUTexture := { texture with width := width }
    let texture : GPUTexture := { texture with height := height }
    let pixelFormat := gpuColorFormatToGLFormat colorFormat
    emit (.glActiveTexture GL_TEXTURE0)
    emit (.glBindTexture GL_TEXTURE_2D texture.textureId)
    emit (.glTexImage2D GL_TEXTURE_2D 0 pixelFormat width height 0 GL_RGBA GL_UNSIGNED_BYTE
      pixelData)
    let error ← query d.glGetError .glGetError
    if error ≠ GL_NO_ERROR then
      pure (GPUStatusUnknownError, texture)
    else
      pure (GPUStatusOK, texture)

/-- The function `gpuCreateTextureFromImage`, lines 286-297. -/
def gpuCreateTextureFromImage (d : Driver) (width height : Nat) (colorFormat : Int)
    (pixelData : Option (List Nat)) (texture : GPUTexture) : GLM (GPUStatus × GPUTexture) := do
  let created ← gpuCreateTexture d texture
  if created.1 = GPUStatusOK then
    gpuUploadImageToTexture d width height colorFormat pixelData created.2
  else
    pure created

/-- The function `gpuCreateBlankTexture`, lines 299-309.  The size
`width * height * 4` is computed in `uint32_t`, wrapping at 2^32. -/
def gpuCreateBlankTexture (d : Driver) (width height : Nat) (texture : GPUTexture) :
    GLM (GPUStatus × GPUTexture) := do
  let size := ((width * height) % 2 ^ 32 * 4) % 2 ^ 32
  let allocated ← query (fun h => d.malloc h size) (.malloc size)
  if allocated = false then
    pure (GPUStatusOutOfMemory, texture)
  else do
    let dummyBuffer : List Nat := List.replicate size 0xff
    let result ← gpuCreateTextureFromImage d width height GPUColorFormatRGBA
      (some dummyBuffer) texture
    emit .free
    pure result

/-! ## Shader Program -/

/-- The function `gpuCompileShader`, lines 402-429, returning the success flag
and the shader name stored through the pointer `shader`.  The buffer for the
diagnostic text comes from a `malloc` whose result the source does not test;
the embedding covers the executions in which that allocation succeeds.  The
callback `logFunc` is `none` for `NULL`; calling it is recorded as an event. -/
def gpuCompileShader (d : Driver) (type : Nat) (sourceCode : String) (logFunc : Option Nat) :
    GLM (Int × Nat) := do
  let shader ← query (fun h => d.glCreateShader h type) (.glCreateShader type)
  emit (.glShaderSource shader 1 sourceCode)
  emit (.glCompileShader shader)
  let status ← query (fun h => d.glGetShaderiv h shader GL_COMPILE_STATUS)
    (.glGetShaderiv shader GL_COMPILE_STATUS)
  if status = 0 then do
    let logLength ← query (fun h => d.glGetShaderiv h shader GL_INFO_LOG_LENGTH)
      (.glGetShaderiv shader GL_INFO_LOG_LENGTH)
    if logLength > 0 then do
      let log ← query (fun h => d.glGetShaderInfoLog h shader)
        (.glGetShaderInfoLog shader logLength)
      emit (.printf "Shader compile log:\n%s\n" log)
      match logFunc with
      | some callback => emit (.logFunc callback log)
      | none => pure ()
    else
      pure ()
    emit (.glDeleteShader shader)
    pure (0, shader)
  else
    pure (1, shader)

/-- The function `gpuLinkProgram`, lines 431-451, with the same treatment of
the diagnostic buffer as in `gpuCompileShader`. -/
def gpuLinkProgram (d : Driver) (program : Nat) : GLM Int := do
  emit (.glLinkProgram program)
  let status ← query (fun h => d.glGetProgramiv h program GL_LINK_STATUS)
    (.glGetProgramiv program GL_LINK_STATUS)
  if status = 0 then do
    let logLength ← query (fun h => d.glGetProgramiv h program GL_INFO_LOG_LENGTH)
      (.glGetProgramiv program GL_INFO_LOG_LENGTH)
    if logLength > 0 then do
      let log ← query (fun h => d.glGetProgramInfoLog h program)
        (.glGetProgramInfoLog program logLength)
      emit (.printf "Program link log:\n%s\n" log)
    else
      pure ()
    pure 0
  else
    pure 1

/-- Assignment `program->additionalTextures[i].uniformLocation = location`. -/
def GPUProgram.setUniformLocation (program : GPUProgram) (i : Fin 7) (location : Int) :
    GPUProgram :=
  { program with
    additionalTextures := Function.update program.additionalTextures i
      { program.additionalTextures i with uniformLocation := location } }

/-- The function `gpuCompileProgram`, lines 323-392. -/
def gpuCompileProgram (d : Driver) (vertexShaderCode fragmentShaderCode : String)
    (program : GPUProgram) (logFunc : Option Nat) : GLM (GPUStatus × GPUProgram) := do
  let program : GPUProgram :=
    { program with valid := 0, programId := 0, textureUniformLocation := 0,
                   additionalTextures := fun _ => AdditionalTexture.zero }
  let programId ← query d.glCreateProgram .glCreateProgram
  let vertex ← gpuCompileShader d GL_VERTEX_SHADER vertexShaderCode logFunc
  let vertexShader := vertex.2
  if vertex.1 = 0 then do
    emit (.glDeleteProgram programId)
    emit (.fprintf_stderr "Failed to compile vertex shader.\n" [])
    pure (GPUStatusUnknownError, program)
  else do
    let fragment ← gpuCompileShader d GL_FRAGMENT_SHADER fragmentShaderCode logFunc
    let fragmentShader := fragment.2
    if fragment.1 = 0 then do
      emit (.glDeleteShader vertexShader)
      emit (.glDeleteProgram programId)
      emit (.fprintf_stderr "Failed to compile fragment shader.\n" [])
      pure (GPUStatusUnknownError, program)
    else do
      emit (.glAttachShader programId vertexShader)
      emit (.glAttachShader programId fragmentShader)
      emit (.glBindAttribLocation programId 0 "inputPosition")
      emit (.glBindAttribLocation programId 1 "inputUV")
      let linked ← gpuLinkProgram d programId
      if linked = 0 then do
        emit (.glDetachShader programId vertexShader)
        emit (.glDeleteShader vertexShader)
        emit (.glDetachShader programId fragmentShader)
        emit (.glDeleteShader fragmentShader)
        emit (.glDeleteProgram programId)
        emit (.fprintf_stderr "Failed to compile shader program.\n" [])
        pure (GPUStatusUnknownError, program)
      else do
        emit (.glDetachShader programId vertexShader)
        emit (.glDeleteShader vertexShader)
        emit (.glDetachShader programId fragmentShader)
        emit (.glDeleteShader fragmentShader)
        let program : GPUProgram := { program with programId := programId }
        let location ← query (fun h => d.glGetUniformLocation h program.programId "texture")
          (.glGetUniformLocation program.programId "texture")
        let program : GPUProgram := { program with textureUniformLocation := location }
        let location ← query (fun h => d.glGetUniformLocation h program.programId "texture2")
          (.glGetUniformLocation program.programId "texture2")
        let program := program.setUniformLocation 0 location
        let location ← query (fun h => d.glGetUniformLocation h program.programId "texture3")
          (.glGetUniformLocation program.programId "texture3")
        let program := program.setUniformLocation 1 location
        let location ← query (fun h => d.glGetUniformLocation h program.programId "texture4")
          (.glGetUniformLocation program.programId "texture4")
        let program := program.setUniformLocation 2 location
        let location ← query (fun h => d.glGetUniformLocation h program.programId "texture5")
          (.glGetUniformLocation program.programId "texture5")
        let program := program.setUniformLocation 3 location
        let location ← query (fun h => d.glGetUniformLocation h program.programId "texture6")
          (.glGetUniformLocation program.programId "texture6")
        let program := program.setUniformLocation 4 location
        let location ← query (fun h => d.glGetUniformLocation h program.programId "texture7")
          (.glGetUniformLocation program.programId "texture7")
        let program := program.setUniformLocation 5 location
        let location ← query (fun h => d.glGetUniformLocation h program.programId "texture8")
          (.glGetUniformLocation program.programId "texture8")
        let program := program.setUniformLocation 6 location
        let program : GPUProgram := { program with valid := 1 }
        pure (GPUStatusOK, program)

/-- The function `gpuDestroyProgram`, lines 394-400. -/
def gpuDestroyProgram (program : GPUProgram) : GLM GPUProgram :=
  if program.valid ≠ 0 then do
    let program : GPUProgram := { program with valid := 0 }
    emit (.glDeleteProgram program.programId)
    pure program
  else
    pure program

/-! ## Additional textures -/

/-- Assignment `program->additionalTextures[i].textureShouldBeUsed = 1`. -/
def GPUProgram.setTextureShouldBeUsed (program : GPUProgram) (i : Fin 7) : GPUProgram :=
  { program with
    additionalTextures := Function.update program.additionalTextures i
      { program.additionalTextures i with textureShouldBeUsed := 1 } }

/-- Assignment `program->additionalTextures[i].texture = *texture`. -/
def GPUProgram.setTexture (program : GPUProgram) (i : Fin 7) (texture : GPUTexture) :
    GPUProgram :=
  { program with
    additionalTextures := Function.update program.additionalTextures i
      { program.additionalTextures i with texture := texture } }

/-- The function `gpuSetSecondTextureForProgram`, lines 453-457. -/
def gpuSetSecondTextureForProgram (texture : GPUTexture) (program : GPUProgram) :
    GLM (GPUTexture × GPUProgram) := do
  let program := program.setTextureShouldBeUsed 0
  let program := program.setTexture 0 texture
  pure (texture, program)

/-- The function `gpuSetThirdTextureForProgram`, lines 459-463. -/
def gpuSetThirdTextureForProgram (texture : GPUTexture) (program : GPUProgram) :
    GLM (GPUTexture × GPUProgram) := do
  let program := program.setTextureShouldBeUsed 1
  let program := program.setTexture 1 texture
  pure (texture, program)

/-- The function `gpuSetFourthTextureForProgram`, lines 465-469. -/
def gpuSetFourthTextureForProgram (texture : GPUTexture) (program : GPUProgram) :
    GLM (GPUTexture × GPUProgram) := do
  let program := program.setTextureShouldBeUsed 2
  let program := program.setTexture 2 texture
  pure (texture, program)

/-- The function `gpuSsetFifthTextureForProgram`, lines 471-475.  The header declares
`gpuSetFifthTextureForProgram`; the definition in gpufilter.c carries this name. -/
def gpuSsetFifthTextureForProgram (texture : GPUTexture) (program : GPUProgram) :
    GLM (GPUTexture × GPUProgram) := do
  let program := program.setTextureShouldBeUsed 3
  let program := program.setTexture 3 texture
  pure (texture, program)

/-- The function `gpuSetSixthTextureForProgram`, lines 477-481. -/
def gpuSetSixthTextureForProgram (texture : GPUTexture) (program : GPUProgram) :
    GLM (GPUTexture × GPUProgram) := do
  let program := program.setTextureShouldBeUsed 4
  let program := program.setTexture 4 texture
  pure (texture, program)

/-- The function `gpuSetSeventhTextureForProgram`, lines 483-487. -/
def gpuSetSeventhTextureForProgram (texture : GPUTexture) (program : GPUProgram) :
    GLM (GPUTexture × GPUProgram) := do
  let program := program.setTextureShouldBeUsed 5
  let program := program.setTexture 5 texture
  pure (texture, program)

/-- The function `gpuSetEigthTextureForProgram`, lines 489-493. -/
def gpuSetEigthTextureForProgram (texture : GPUTexture) (program : GPUProgram) :
    GLM (GPUTexture × GPUProgram) := do
  let program := program.setTextureShouldBeUsed 6
  let program := program.setTexture 6 texture
  pure (texture, program)

/-! ## Uniform setters -/

/-- The function `gpuSetFloatForProgram`, lines 495-507. -/
def gpuSetFloatForProgram (d : Driver) (name : String) (value : GLfloat)
    (program : GPUProgram) : GLM (GPUStatus × GPUProgram) :=
  if program.valid = 0 then
    pure (GPUStatusInvalidProgram, program)
  else do
    let location ← query (fun h => d.glGetUniformLocation h program.programId name)
      (.glGetUniformLocation program.programId name)
    if location = -1 then
      pure (GPUStatusNoSuchParameter, program)
    else do
      emit (.glUniform1f location value)
      pure (GPUStatusOK, program)

/-- The function `gpuSset2FloatsForProgram`, lines 509-521.  The header declares
`gpuSet2FloatsForProgram`; the definition in gpufilter.c carries this name. -/
def gpuSset2FloatsForProgram (d : Driver) (name : String) (value0 : GLfloat) (value1 : GLfloat)
    (program : GPUProgram) : GLM (GPUStatus × GPUProgram) :=
  if program.valid = 0 then
    pure (GPUStatusInvalidProgram, program)
  else do
    let location ← query (fun h => d.glGetUniformLocation h program.programId name)
      (.glGetUniformLocation program.programId name)
    if location = -1 then
      pure (GPUStatusNoSuchParameter, program)
    else do
      emit (.glUniform2f location value0 value1)
      pure (GPUStatusOK, program)

/-- The function `gpuSet3FloatsForProgram`, lines 523-535. -/
def gpuSet3FloatsForProgram (d : Driver) (name : String) (value0 : GLfloat) (value1 : GLfloat) (value2 : GLfloat)
    (program : GPUProgram) : GLM (GPUStatus × GPUProgram) :=
  if program.valid = 0 then
    pure (GPUStatusInvalidProgram, program)
  else do
    let location ← query (fun h => d.glGetUniformLocation h program.programId name)
      (.glGetUniformLocation program.programId name)
    if location = -1 then
      pure (GPUStatusNoSuchParameter, program)
    else do
      emit (.glUniform3f location value0 value1 value2)
      pure (GPUStatusOK, program)

/-- The function `gpuSet4FloatsForProgram`, lines 537-549. -/
def gpuSet4FloatsForProgram (d : Driver) (name : String) (value0 : GLfloat) (value1 : GLfloat) (value2 : GLfloat) (value3 : GLfloat)
    (program : GPUProgram) : GLM (GPUStatus × GPUProgram) :=
  if program.valid = 0 then
    pure (GPUStatusInvalidProgram, program)
  else do
    let location ← query (fun h => d.glGetUniformLocation h program.programId name)
      (.glGetUniformLocation program.programId name)
    if location = -1 then
      pure (GPUStatusNoSuchParameter, program)
    else do
      emit (.glUniform4f location value0 value1 value2 value3)
      pure (GPUStatusOK, program)

/-- The function `gpuSetIntForProgram`, lines 551-563. -/
def gpuSetIntForProgram (d : Driver) (name : String) (value : Int)
    (program : GPUProgram) : GLM (GPUStatus × GPUProgram) :=
  if program.valid = 0 then
    pure (GPUStatusInvalidProgram, program)
  else do
    let location ← query (fun h => d.glGetUniformLocation h program.programId name)
      (.glGetUniformLocation program.programId name)
    if location = -1 then
      pure (GPUStatusNoSuchParameter, program)
    else do
      emit (.glUniform1i location value)
      pure (GPUStatusOK, program)

/-- The function `gpuSet2IntsForProgram`, lines 565-577. -/
def gpuSet2IntsForProgram (d : Driver) (name : String) (value0 : Int) (value1 : Int)
    (program : GPUProgram) : GLM (GPUStatus × GPUProgram) :=
  if program.valid = 0 then
    pure (GPUStatusInvalidProgram, program)
  else do
    let location ← query (fun h => d.glGetUniformLocation h program.programId name)
      (.glGetUniformLocation program.programId name)
    if location = -1 then
      pure (GPUStatusNoSuchParameter, program)
    else do
      emit (.glUniform2i location value0 value1)
      pure (GPUStatusOK, program)

/-- The function `gpuSet3IntsForProgram`, lines 579-591. -/
def gpuSet3IntsForProgram (d : Driver) (name : String) (value0 : Int) (value1 : Int) (value2 : Int)
    (program : GPUProgram) : GLM (GPUStatus × GPUProgram) :=
  if program.valid = 0 then
    pure (GPUStatusInvalidProgram, program)
  else do
    let location ← query (fun h => d.glGetUniformLocation h program.programId name)
      (.glGetUniformLocation program.programId name)
    if location = -1 then
      pure (GPUStatusNoSuchParameter, program)
    else do
      emit (.glUniform3i location value0 value1 value2)
      pure (GPUStatusOK, program)

/-- The function `gpuSet4IntsForProgram`, lines 593-605. -/
def gpuSet4IntsForProgram (d : Driver) (name : String) (value0 : Int) (value1 : Int) (value2 : Int) (value3 : Int)
    (program : GPUProgram) : GLM (GPUStatus × GPUProgram) :=
  if program.valid = 0 then
    pure (GPUStatusInvalidProgram, program)
  else do
    let location ← query (fun h => d.glGetUniformLocation h program.programId name)
      (.glGetUniformLocation program.programId name)
    if location = -1 then
      pure (GPUStatusNoSuchParameter, program)
    else do
      emit (.glUniform4i location value0 value1 value2 value3)
      pure (GPUStatusOK, program)

/-- The function `gpuSetVector2ForProgram`, lines 607-619. -/
def gpuSetVector2ForProgram (d : Driver) (name : String) (values : List GLfloat)
    (program : GPUProgram) : GLM (GPUStatus × GPUProgram) :=
  if program.valid = 0 then
    pure (GPUStatusInvalidProgram, program)
  else do
    let location ← query (fun h => d.glGetUniformLocation h program.programId name)
      (.glGetUniformLocation program.programId name)
    if location = -1 then
      pure (GPUStatusNoSuchParameter, program)
    else do
      emit (.glUniform2fv location 1 values)
      pure (GPUStatusOK, program)

/-- The function `gpuSetVector3ForProgram`, lines 621-633. -/
def gpuSetVector3ForProgram (d : Driver) (name : String) (values : List GLfloat)
    (program : GPUProgram) : GLM (GPUStatus × GPUProgram) :=
  if program.valid = 0 then
    pure (GPUStatusInvalidProgram, program)
  else do
    let location ← query (fun h => d.glGetUniformLocation h program.programId name)
      (.glGetUniformLocation program.programId name)
    if location = -1 then
      pure (GPUStatusNoSuchParameter, program)
    else do
      emit (.glUniform3fv location 1 values)
      pure (GPUStatusOK, program)

/-- The function `gpuSetVector4ForProgram`, lines 635-647. -/
def gpuSetVector4ForProgram (d : Driver) (name : String) (values : List GLfloat)
    (program : GPUProgram) : GLM (GPUStatus × GPUProgram) :=
  if program.valid = 0 then
    pure (GPUStatusInvalidProgram, program)
  else do
    let location ← query (fun h => d.glGetUniformLocation h program.programId name)
      (.glGetUniformLocation program.programId name)
    if location = -1 then
      pure (GPUStatusNoSuchParameter, program)
    else do
      emit (.glUniform4fv location 1 values)
      pure (GPUStatusOK, program)

/-- The function `gpuSetFloatArrayForProgram`, lines 649-661. -/
def gpuSetFloatArrayForProgram (d : Driver) (name : String) (count : Nat) (values : List GLfloat)
    (program : GPUProgram) : GLM (GPUStatus × GPUProgram) :=
  if program.valid = 0 then
    pure (GPUStatusInvalidProgram, program)
  else do
    let location ← query (fun h => d.glGetUniformLocation h program.programId name)
      (.glGetUniformLocation program.programId name)
    if location = -1 then
      pure (GPUStatusNoSuchParameter, program)
    else do
      emit (.glUniform1fv location count values)
      pure (GPUStatusOK, program)

/-- The function `gpuSetVector2ArrayForProgram`, lines 663-675. -/
def gpuSetVector2ArrayForProgram (d : Driver) (name : String) (count : Nat) (values : List GLfloat)
    (program : GPUProgram) : GLM (GPUStatus × GPUProgram) :=
  if program.valid = 0 then
    pure (GPUStatusInvalidProgram, program)
  else do
    let location ← query (fun h => d.glGetUniformLocation h program.programId name)
      (.glGetUniformLocation program.programId name)
    if location = -1 then
      pure (GPUStatusNoSuchParameter, program)
    else do
      emit (.glUniform2fv location count values)
      pure (GPUStatusOK, program)

/-- The function `gpuSetVector3ArrayForProgram`, lines 677-689. -/
def gpuSetVector3ArrayForProgram (d : Driver) (name : String) (count : Nat) (values : List GLfloat)
    (program : GPUProgram) : GLM (GPUStatus × GPUProgram) :=
  if program.valid = 0 then
    pure (GPUStatusInvalidProgram, program)
  else do
    let location ← query (fun h => d.glGetUniformLocation h program.programId name)
      (.glGetUniformLocation program.programId name)
    if location = -1 then
      pure (GPUStatusNoSuchParameter, program)
    else do
      emit (.glUniform3fv location count values)
      pure (GPUStatusOK, program)

/-- The function `gpuSetVector4ArrayForProgram`, lines 691-703. -/
def gpuSetVector4ArrayForProgram (d : Driver) (name : String) (count : Nat) (values : List GLfloat)
    (program : GPUProgram) : GLM (GPUStatus × GPUProgram) :=
  if program.valid = 0 then
    pure (GPUStatusInvalidProgram, program)
  else do
    let location ← query (fun h => d.glGetUniformLocation h program.programId name)
      (.glGetUniformLocation program.programId name)
    if location = -1 then
      pure (GPUStatusNoSuchParameter, program)
    else do
      emit (.glUniform4fv location count values)
      pure (GPUStatusOK, program)

/-- The function `gpuSetIntArrayForProgram`, lines 705-717. -/
def gpuSetIntArrayForProgram (d : Driver) (name : String) (count : Nat) (values : List Int)
    (program : GPUProgram) : GLM (GPUStatus × GPUProgram) :=
  if program.valid = 0 then
    pure (GPUStatusInvalidProgram, program)
  else do
    let location ← query (fun h => d.glGetUniformLocation h program.programId name)
      (.glGetUniformLocation program.programId name)
    if location = -1 then
      pure (GPUStatusNoSuchParameter, program)
    else do
      emit (.glUniform1iv location count values)
      pure (GPUStatusOK, program)

/-- The function `gpuSetIntVector2ArrayForProgram`, lines 719-731. -/
def gpuSetIntVector2ArrayForProgram (d : Driver) (name : String) (count : Nat) (values : List Int)
    (program : GPUProgram) : GLM (GPUStatus × GPUProgram) :=
  if program.valid = 0 then
    pure (GPUStatusInvalidProgram, program)
  else do
    let location ← query (fun h => d.glGetUniformLocation h program.programId name)
      (.glGetUniformLocation program.programId name)
    if location = -1 then
      pure (GPUStatusNoSuchParameter, program)
    else do
      emit (.glUniform2iv location count values)
      pure (GPUStatusOK, program)

/-- The function `gpuSetIntVector3ArrayForProgram`, lines 733-745. -/
def gpuSetIntVector3ArrayForProgram (d : Driver) (name : String) (count : Nat) (values : List Int)
    (program : GPUProgram) : GLM (GPUStatus × GPUProgram) :=
  if program.valid = 0 then
    pure (GPUStatusInvalidProgram, program)
  else do
    let location ← query (fun h => d.glGetUniformLocation h program.programId name)
      (.glGetUniformLocation program.programId name)
    if location = -1 then
      pure (GPUStatusNoSuchParameter, program)
    else do
      emit (.glUniform3iv location count values)
      pure (GPUStatusOK, program)

/-- The function `gpuSetIntVector4ArrayForProgram`, lines 747-759. -/
def gpuSetIntVector4ArrayForProgram (d : Driver) (name : String) (count : Nat) (values : List Int)
    (program : GPUProgram) : GLM (GPUStatus × GPUProgram) :=
  if program.valid = 0 then
    pure (GPUStatusInvalidProgram, program)
  else do
    let location ← query (fun h => d.glGetUniformLocation h program.programId name)
      (.glGetUniformLocation program.programId name)
    if location = -1 then
      pure (GPUStatusNoSuchParameter, program)
    else do
      emit (.glUniform4iv location count values)
      pure (GPUStatusOK, program)

/-- The function `gpuSsetMatrix2x2ForProgram`, lines 761-773.  The header declares
`gpuSetMatrix2x2ForProgram`; the definition in gpufilter.c carries this name. -/
def gpuSsetMatrix2x2ForProgram (d : Driver) (name : String) (values : List GLfloat)
    (program : GPUProgram) : GLM (GPUStatus × GPUProgram) :=
  if program.valid = 0 then
    pure (GPUStatusInvalidProgram, program)
  else do
    let location ← query (fun h => d.glGetUniformLocation h program.programId name)
      (.glGetUniformLocation program.programId name)
    if location = -1 then
      pure (GPUStatusNoSuchParameter, program)
    else do
      emit (.glUniformMatrix2fv location 1 GL_FALSE values)
      pure (GPUStatusOK, program)

/-- The function `gpuSetMatrix3x3ForProgram`, lines 775-787. -/
def gpuSetMatrix3x3ForProgram (d : Driver) (name : String) (values : List GLfloat)
    (program : GPUProgram) : GLM (GPUStatus × GPUProgram) :=
  if program.valid = 0 then
    pure (GPUStatusInvalidProgram, program)
  else do
    let location ← query (fun h => d.glGetUniformLocation h program.programId name)
      (.glGetUniformLocation program.programId name)
    if location = -1 then
      pure (GPUStatusNoSuchParameter, program)
    else do
      emit (.glUniformMatrix3fv location 1 GL_FALSE values)
      pure (GPUStatusOK, program)

/-- The function `gpuSetMatrix4x4ForProgram`, lines 789-801. -/
def gpuSetMatrix4x4ForProgram (d : Driver) (name : String) (values : List GLfloat)
    (program : GPUProgram) : GLM (GPUStatus × GPUProgram) :=
  if program.valid = 0 then
    pure (GPUStatusInvalidProgram, program)
  else do
    let location ← query (fun h => d.glGetUniformLocation h program.programId name)
      (.glGetUniformLocation program.programId name)
    if location = -1 then
      pure (GPUStatusNoSuchParameter, program)
    else do
      emit (.glUniformMatrix4fv location 1 GL_FALSE values)
      pure (GPUStatusOK, program)

/-- The function `gpuSetMatrix2x2ArrayForProgram`, lines 803-815. -/
def gpuSetMatrix2x2ArrayForProgram (d : Driver) (name : String) (count : Nat) (values : List GLfloat)
    (program : GPUProgram) : GLM (GPUStatus × GPUProgram) :=
  if program.valid = 0 then
    pure (GPUStatusInvalidProgram, program)
  else do
    let location ← query (fun h => d.glGetUniformLocation h program.programId name)
      (.glGetUniformLocation program.programId name)
    if location = -1 then
      pure (GPUStatusNoSuchParameter, program)
    else do
      emit (.glUniformMatrix2fv location count GL_FALSE values)
      pure (GPUStatusOK, program)

/-- The function `gpuSetMatrix3x3ArrayForProgram`, lines 817-829. -/
def gpuSetMatrix3x3ArrayForProgram (d : Driver) (name : String) (count : Nat) (values : List GLfloat)
    (program : GPUProgram) : GLM (GPUStatus × GPUProgram) :=
  if program.valid = 0 then
    pure (GPUStatusInvalidProgram, program)
  else do
    let location ← query (fun h => d.glGetUniformLocation h program.programId name)
      (.glGetUniformLocation program.programId name)
    if location = -1 then
      pure (GPUStatusNoSuchParameter, program)
    else do
      emit (.glUniformMatrix3fv location count GL_FALSE values)
      pure (GPUStatusOK, program)

/-- The function `gpuSetMatrix4x4ArrayForProgram`, lines 831-843. -/
def gpuSetMatrix4x4ArrayForProgram (d : Driver) (name : String) (count : Nat) (values : List GLfloat)
    (program : GPUProgram) : GLM (GPUStatus × GPUProgram) :=
  if program.valid = 0 then
    pure (GPUStatusInvalidProgram, program)
  else do
    let location ← query (fun h => d.glGetUniformLocation h program.programId name)
      (.glGetUniformLocation program.programId name)
    if location = -1 then
      pure (GPUStatusNoSuchParameter, program)
    else do
      emit (.glUniformMatrix4fv location count GL_FALSE values)
      pure (GPUStatusOK, program)

/-! ## The public operations as data

The claims quantify over families of functions; these types name one call of
a family member together with its arguments, and `run` dispatches to the
embedded function. -/

/-- The values handed to one uniform-setter call: the element count and the
float or integer payload, in argument order. -/
structure UniformData where
  count : Nat
  floats : List GLfloat
  ints : List Int
deriving DecidableEq, Repr

/-- One call of a member of the uniform-setter family, with its value
arguments; the constructor is the function name without the `gpu` prefix. -/
inductive UniformCall where
  | SetFloatForProgram (value : GLfloat)
  | Sset2FloatsForProgram (value0 : GLfloat) (value1 : GLfloat)
  | Set3FloatsForProgram (value0 : GLfloat) (value1 : GLfloat) (value2 : GLfloat)
  | Set4FloatsForProgram (value0 : GLfloat) (value1 : GLfloat) (value2 : GLfloat) (value3 : GLfloat)
  | SetIntForProgram (value : Int)
  | Set2IntsForProgram (value0 : Int) (value1 : Int)
  | Set3IntsForProgram (value0 : Int) (value1 : Int) (value2 : Int)
  | Set4IntsForProgram (value0 : Int) (value1 : Int) (value2 : Int) (value3 : Int)
  | SetVector2ForProgram (values : List GLfloat)
  | SetVector3ForProgram (values : List GLfloat)
  | SetVector4ForProgram (values : List GLfloat)
  | SetFloatArrayForProgram (count : Nat) (values : List GLfloat)
  | SetVector2ArrayForProgram (count : Nat) (values : List GLfloat)
  | SetVector3ArrayForProgram (count : Nat) (values : List GLfloat)
  | SetVector4ArrayForProgram (count : Nat) (values : List GLfloat)
  | SetIntArrayForProgram (count : Nat) (values : List Int)
  | SetIntVector2ArrayForProgram (count : Nat) (values : List Int)
  | SetIntVector3ArrayForProgram (count : Nat) (values : List Int)
  | SetIntVector4ArrayForProgram (count : Nat) (values : List Int)
  | SsetMatrix2x2ForProgram (values : List GLfloat)
  | SetMatrix3x3ForProgram (values : List GLfloat)
  | SetMatrix4x4ForProgram (values : List GLfloat)
  | SetMatrix2x2ArrayForProgram (count : Nat) (values : List GLfloat)
  | SetMatrix3x3ArrayForProgram (count : Nat) (values : List GLfloat)
  | SetMatrix4x4ArrayForProgram (count : Nat) (values : List GLfloat)

/-- Run the embedded function that a `UniformCall` names. -/
def UniformCall.run (d : Driver) (name : String) (program : GPUProgram) :
    UniformCall → GLM (GPUStatus × GPUProgram)
  | .SetFloatForProgram value => gpuSetFloatForProgram d name value program
  | .Sset2FloatsForProgram value0 value1 => gpuSset2FloatsForProgram d name value0 value1 program
  | .Set3FloatsForProgram value0 value1 value2 => gpuSet3FloatsForProgram d name value0 value1 value2 program
  | .Set4FloatsForProgram value0 value1 value2 value3 => gpuSet4FloatsForProgram d name value0 value1 value2 value3 program
  | .SetIntForProgram value => gpuSetIntForProgram d name value program
  | .Set2IntsForProgram value0 value1 => gpuSet2IntsForProgram d name value0 value1 program
  | .Set3IntsForProgram value0 value1 value2 => gpuSet3IntsForProgram d name value0 value1 value2 program
  | .Set4IntsForProgram value0 value1 value2 value3 => gpuSet4IntsForProgram d name value0 value1 value2 value3 program
  | .SetVector2ForProgram values => gpuSetVector2ForProgram d name values program
  | .SetVector3ForProgram values => gpuSetVector3ForProgram d name values program
  | .SetVector4ForProgram values => gpuSetVector4ForProgram d name values program
  | .SetFloatArrayForProgram count values => gpuSetFloatArrayForProgram d name count values program
  | .SetVector2ArrayForProgram count values => gpuSetVector2ArrayForProgram d name count values program
  | .SetVector3ArrayForProgram count values => gpuSetVector3ArrayForProgram d name count values program
  | .SetVector4ArrayForProgram count values => gpuSetVector4ArrayForProgram d name count values program
  | .SetIntArrayForProgram count values => gpuSetIntArrayForProgram d name count values program
  | .SetIntVector2ArrayForProgram count values => gpuSetIntVector2ArrayForProgram d name count values program
  | .SetIntVector3ArrayForProgram count values => gpuSetIntVector3ArrayForProgram d name count values program
  | .SetIntVector4ArrayForProgram count values => gpuSetIntVector4ArrayForProgram d name count values program
  | .SsetMatrix2x2ForProgram values => gpuSsetMatrix2x2ForProgram d name values program
  | .SetMatrix3x3ForProgram values => gpuSetMatrix3x3ForProgram d name values program
  | .SetMatrix4x4ForProgram values => gpuSetMatrix4x4ForProgram d name values program
  | .SetMatrix2x2ArrayForProgram count values => gpuSetMatrix2x2ArrayForProgram d name count values program
  | .SetMatrix3x3ArrayForProgram count values => gpuSetMatrix3x3ArrayForProgram d name count values program
  | .SetMatrix4x4ArrayForProgram count values => gpuSetMatrix4x4ArrayForProgram d name count values program

/-- The values the caller passed to a uniform-setter call.  A setter without a
`count` argument sets one element. -/
def UniformCall.values : UniformCall → UniformData
  | .SetFloatForProgram value => ⟨1, [value], []⟩
  | .Sset2FloatsForProgram value0 value1 => ⟨1, [value0, value1], []⟩
  | .Set3FloatsForProgram value0 value1 value2 => ⟨1, [value0, value1, value2], []⟩
  | .Set4FloatsForProgram value0 value1 value2 value3 => ⟨1, [value0, value1, value2, value3], []⟩
  | .SetIntForProgram value => ⟨1, [], [value]⟩
  | .Set2IntsForProgram value0 value1 => ⟨1, [], [value0, value1]⟩
  | .Set3IntsForProgram value0 value1 value2 => ⟨1, [], [value0, value1, value2]⟩
  | .Set4IntsForProgram value0 value1 value2 value3 => ⟨1, [], [value0, value1, value2, value3]⟩
  | .SetVector2ForProgram values => ⟨1, values, []⟩
  | .SetVector3ForProgram values => ⟨1, values, []⟩
  | .SetVector4ForProgram values => ⟨1, values, []⟩
  | .SetFloatArrayForProgram count values => ⟨count, values, []⟩
  | .SetVector2ArrayForProgram count values => ⟨count, values, []⟩
  | .SetVector3ArrayForProgram count values => ⟨count, values, []⟩
  | .SetVector4ArrayForProgram count values => ⟨count, values, []⟩
  | .SetIntArrayForProgram count values => ⟨count, [], values⟩
  | .SetIntVector2ArrayForProgram count values => ⟨count, [], values⟩
  | .SetIntVector3ArrayForProgram count values => ⟨count, [], values⟩
  | .SetIntVector4ArrayForProgram count values => ⟨count, [], values⟩
  | .SsetMatrix2x2ForProgram values => ⟨1, values, []⟩
  | .SetMatrix3x3ForProgram values => ⟨1, values, []⟩
  | .SetMatrix4x4ForProgram values => ⟨1, values, []⟩
  | .SetMatrix2x2ArrayForProgram count values => ⟨count, values, []⟩
  | .SetMatrix3x3ArrayForProgram count values => ⟨count, values, []⟩
  | .SetMatrix4x4ArrayForProgram count values => ⟨count, values, []⟩

/-- The uniform location and the values of a `glUniform*` call; `none` for
every other event. -/
def Event.uniformPush : Event → Option (Int × UniformData)
  | .glUniform1f location v0 => some (location, ⟨1, [v0], []⟩)
  | .glUniform2f location v0 v1 => some (location, ⟨1, [v0, v1], []⟩)
  | .glUniform3f location v0 v1 v2 => some (location, ⟨1, [v0, v1, v2], []⟩)
  | .glUniform4f location v0 v1 v2 v3 => some (location, ⟨1, [v0, v1, v2, v3], []⟩)
  | .glUniform1i location v0 => some (location, ⟨1, [], [v0]⟩)
  | .glUniform2i location v0 v1 => some (location, ⟨1, [], [v0, v1]⟩)
  | .glUniform3i location v0 v1 v2 => some (location, ⟨1, [], [v0, v1, v2]⟩)
  | .glUniform4i location v0 v1 v2 v3 => some (location, ⟨1, [], [v0, v1, v2, v3]⟩)
  | .glUniform1fv location count value => some (location, ⟨count, value, []⟩)
  | .glUniform2fv location count value => some (location, ⟨count, value, []⟩)
  | .glUniform3fv location count value => some (location, ⟨count, value, []⟩)
  | .glUniform4fv location count value => some (location, ⟨count, value, []⟩)
  | .glUniform1iv location count value => some (location, ⟨count, [], value⟩)
  | .glUniform2iv location count value => some (location, ⟨count, [], value⟩)
  | .glUniform3iv location count value => some (location, ⟨count, [], value⟩)
  | .glUniform4iv location count value => some (location, ⟨count, [], value⟩)
  | .glUniformMatrix2fv location count _ value => some (location, ⟨count, value, []⟩)
  | .glUniformMatrix3fv location count _ value => some (location, ⟨count, value, []⟩)
  | .glUniformMatrix4fv location count _ value => some (location, ⟨count, value, []⟩)
  | _ => none

/-- The set-Nth-texture function that fills slot `k`: Second for 0 up to
Eigth for 6. -/
def setNthTexture (k : Fin 7) (texture : GPUTexture) (program : GPUProgram) :
    GLM (GPUTexture × GPUProgram) :=
  match k with
  | 0 => gpuSetSecondTextureForProgram texture program
  | 1 => gpuSetThirdTextureForProgram texture program
  | 2 => gpuSetFourthTextureForProgram texture program
  | 3 => gpuSsetFifthTextureForProgram texture program
  | 4 => gpuSetSixthTextureForProgram texture program
  | 5 => gpuSetSeventhTextureForProgram texture program
  | 6 => gpuSetEigthTextureForProgram texture program

/-- One call of a public operation other than the create and destroy
operations, with its arguments. -/
inductive Op where
  | render (texture : GPUTexture) (framebuffer : GPUFramebuffer) (program : GPUProgram)
  | renderFramebuffer (source target : GPUFramebuffer) (program : GPUProgram)
  | upload (width height : Nat) (colorFormat : Int) (pixelData : Option (List Nat))
      (texture : GPUTexture)
  | getContents (framebuffer : GPUFramebuffer) (rgbaData : List Nat) (colorFormat : Int)
  | getSize (framebuffer : GPUFramebuffer)
  | setUniform (call : UniformCall) (name : String) (program : GPUProgram)
  | setTexture (k : Fin 7) (texture : GPUTexture) (program : GPUProgram)

/-- Run an operation after the events `h`: the `GPUStatus` it returns (`none`
when the C function does not return a `GPUStatus`: the size query returns a
`uint32_t` and the set-Nth-texture functions return `void`) and the events it
issues. -/
def Op.run (d : Driver) (h : List Event) : Op → Option GPUStatus × List Event
  | .render texture framebuffer program =>
      (some (gpuRenderTextureToFramebufferUsingProgram texture framebuffer program h).1.status,
       (gpuRenderTextureToFramebufferUsingProgram texture framebuffer program h).2)
  | .renderFramebuffer source target program =>
      (some (gpuRenderFramebufferToFramebufferUsingProgram source target program h).1.1,
       (gpuRenderFramebufferToFramebufferUsingProgram source target program h).2)
  | .upload width height colorFormat pixelData texture =>
      (some (gpuUploadImageToTexture d width height colorFormat pixelData texture h).1.1,
       (gpuUploadImageToTexture d width height colorFormat pixelData texture h).2)
  | .getContents framebuffer rgbaData colorFormat =>
      (some (gpuGetFramebufferContents d framebuffer rgbaData colorFormat h).1.1,
       (gpuGetFramebufferContents d framebuffer rgbaData colorFormat h).2)
  | .getSize framebuffer => (none, (gpuGetFramebufferSizeInBytes framebuffer h).2)
  | .setUniform call name program =>
      (some (call.run d name program h).1.1, (call.run d name program h).2)
  | .setTexture k texture program => (none, (setNthTexture k texture program h).2)

/-- The first status in a list of (status, valid flag) pairs whose flag is 0. -/
def firstInvalid : List (GPUStatus × Nat) → Option GPUStatus
  | [] => none
  | (status, valid) :: rest => if valid = 0 then some status else firstInvalid rest

/-- The handle arguments of an operation in argument order, each as the
Invalid status of its handle type paired with the valid flag of the handle. -/
def Op.handles : Op → List (GPUStatus × Nat)
  | .render texture framebuffer program =>
      [(GPUStatusInvalidTexture, texture.valid), (GPUStatusInvalidFramebuffer, framebuffer.valid),
       (GPUStatusInvalidProgram, program.valid)]
  | .renderFramebuffer source target program =>
      [(GPUStatusInvalidFramebuffer, source.valid), (GPUStatusInvalidFramebuffer, target.valid),
       (GPUStatusInvalidProgram, program.valid)]
  | .upload _ _ _ _ texture => [(GPUStatusInvalidTexture, texture.valid)]
  | .getContents framebuffer _ _ => [(GPUStatusInvalidFramebuffer, framebuffer.valid)]
  | .getSize framebuffer => [(GPUStatusInvalidFramebuffer, framebuffer.valid)]
  | .setUniform _ _ program => [(GPUStatusInvalidProgram, program.valid)]
  | .setTexture _ texture program =>
      [(GPUStatusInvalidTexture, texture.valid), (GPUStatusInvalidProgram, program.valid)]

/-- The valid flags that the code of an operation tests, in the order of the
tests, each with the status returned when the flag is 0. -/
def Op.tested : Op → List (GPUStatus × Nat)
  | .render texture framebuffer program =>
      [(GPUStatusInvalidTexture, texture.valid), (GPUStatusInvalidFramebuffer, framebuffer.valid),
       (GPUStatusInvalidProgram, program.valid)]
  | .renderFramebuffer source target program =>
      [(GPUStatusInvalidTexture, source.texture.valid),
       (GPUStatusInvalidFramebuffer, target.valid), (GPUStatusInvalidProgram, program.valid)]
  | .upload _ _ _ _ texture => [(GPUStatusInvalidTexture, texture.valid)]
  | .getContents framebuffer _ _ => [(GPUStatusInvalidFramebuffer, framebuffer.valid)]
  | .getSize _ => []
  | .setUniform _ _ program => [(GPUStatusInvalidProgram, program.valid)]
  | .setTexture _ _ _ => []

/-- The three behaviours shared by the uniform setters, as a function of the
valid flag, the resolved location and the push call. -/
def setterOutcome (program : GPUProgram) (name : String) (location : Int) (push : Event) :
    (GPUStatus × GPUProgram) × List Event :=
  if program.valid = 0 then ((GPUStatusInvalidProgram, program), [])
  else if location = -1 then
    ((GPUStatusNoSuchParameter, program), [.glGetUniformLocation program.programId name (-1)])
  else
    ((GPUStatusOK, program), [.glGetUniformLocation program.programId name location, push])


/-! ## Reading event lists -/

/-- The result recorded in a `glCheckFramebufferStatus` call. -/
def Event.framebufferStatus : Event → Option Nat
  | .glCheckFramebufferStatus _ result => some result
  | _ => none

/-- The shader name returned by a `glCreateShader` call. -/
def Event.createdShader : Event → Option Nat
  | .glCreateShader _ result => some result
  | _ => none

/-- The shader name passed to a `glDeleteShader` call. -/
def Event.deletedShader : Event → Option Nat
  | .glDeleteShader shader => some shader
  | _ => none

/-- The program name returned by a `glCreateProgram` call. -/
def Event.createdProgram : Event → Option Nat
  | .glCreateProgram result => some result
  | _ => none

/-- The program name passed to a `glDeleteProgram` call. -/
def Event.deletedProgram : Event → Option Nat
  | .glDeleteProgram program => some program
  | _ => none

/-- Whether an event is a `glLinkProgram` call. -/
def Event.isLink : Event → Bool
  | .glLinkProgram _ => true
  | _ => false

/-- Whether an event is a compile-status query that the driver answered 0,
which is the condition under which `gpuCompileShader` reports failure. -/
def Event.compileFailed : Event → Bool
  | .glGetShaderiv _ pname result => pname = GL_COMPILE_STATUS && result = 0
  | _ => false

/-- Whether an event is a link-status query that the driver answered 0, which
is the condition under which `gpuLinkProgram` reports failure. -/
def Event.linkFailed : Event → Bool
  | .glGetProgramiv _ pname result => pname = GL_LINK_STATUS && result = 0
  | _ => false

/-- The (shader, answer) pair of a `glGetShaderiv` query for
`GL_COMPILE_STATUS`. -/
def Event.compileStatus : Event → Option (Nat × Int)
  | .glGetShaderiv shader pname result =>
      if pname = GL_COMPILE_STATUS then some (shader, result) else none
  | _ => none

/-- The (program, answer) pair of a `glGetProgramiv` query for
`GL_LINK_STATUS`. -/
def Event.linkStatus : Event → Option (Nat × Int)
  | .glGetProgramiv program pname result =>
      if pname = GL_LINK_STATUS then some (program, result) else none
  | _ => none

/-- The texture unit selected after an event, given the unit selected before
it: `glActiveTexture` selects its argument, every other event keeps the unit. -/
def Event.unitAfter (unit : Nat) : Event → Nat
  | .glActiveTexture selected => selected
  | _ => unit

/-- The (unit, texture) pair that a `glBindTexture` call binds while `unit` is
the selected texture unit. -/
def Event.bindingAt (unit : Nat) : Event → Option (Nat × Nat)
  | .glBindTexture _ texture => some (unit, texture)
  | _ => none

/-- The texture bindings made by a list of events, in order, each with the
texture unit that is selected when it is made; `unit` is the unit selected
before the first event. -/
def textureBindings (unit : Nat) : List Event → List (Nat × Nat)
  | [] => []
  | e :: rest => (e.bindingAt unit).toList ++ textureBindings (e.unitAfter unit) rest

/-- The arguments of a `glDrawArrays` call, with the texture unit that is
selected when it is issued. -/
def Event.drawAt (unit : Nat) : Event → Option (Nat × Int × Nat × Nat)
  | .glDrawArrays mode first count => some (mode, first, count, unit)
  | _ => none

/-- The draw calls in a list of events, each with the texture unit selected at
that moment. -/
def drawCalls (unit : Nat) : List Event → List (Nat × Int × Nat × Nat)
  | [] => []
  | e :: rest => (e.drawAt unit).toList ++ drawCalls (e.unitAfter unit) rest

/-- The location and value of a `glUniform1i` call. -/
def Event.samplerUniform : Event → Option (Int × Int)
  | .glUniform1i location v0 => some (location, v0)
  | _ => none

/-- The additional-texture slots of a program that are marked in use, in
increasing order. -/
def usedSlots (program : GPUProgram) : List (Fin 7) :=
  [0, 1, 2, 3, 4, 5, 6].filter
    (fun i => decide ((program.additionalTextures i).textureShouldBeUsed ≠ 0))

/-- The width, height, internal format, source format and pixel buffer of a
`glTexImage2D` call. -/
def Event.uploadedImage : Event → Option (Nat × Nat × Nat × Nat × Option (List Nat))
  | .glTexImage2D _ _ internalformat width height _ format _ data =>
      some (width, height, internalformat, format, data)
  | _ => none

/-- The arguments of a `glBindAttribLocation` call. -/
def Event.boundAttribute : Event → Option (Nat × Nat × String)
  | .glBindAttribLocation program index name => some (program, index, name)
  | _ => none

/-- The arguments of a `glDetachShader` call. -/
def Event.detachedShader : Event → Option (Nat × Nat)
  | .glDetachShader program shader => some (program, shader)
  | _ => none

/-- The program passed to a `glLinkProgram` call. -/
def Event.linkedProgram : Event → Option Nat
  | .glLinkProgram program => some program
  | _ => none

/-- Split an event list at its first `glLinkProgram` call: the events before
that call and the events after it. -/
def splitAtLink : List Event → List Event × List Event
  | [] => ([], [])
  | e :: rest =>
      if e.isLink then ([], rest) else (e :: (splitAtLink rest).1, (splitAtLink rest).2)

/-- The name returned by a `glGenFramebuffers` call. -/
def Event.generatedFramebuffer : Event → Option Nat
  | .glGenFramebuffers _ result => some result
  | _ => none

/-- The name returned by a `glGenTextures` call. -/
def Event.generatedTexture : Event → Option Nat
  | .glGenTextures _ result => some result
  | _ => none

/-- The name passed to a `glDeleteFramebuffers` call. -/
def Event.deletedFramebuffer : Event → Option Nat
  | .glDeleteFramebuffers _ framebuffer => some framebuffer
  | _ => none

/-- The name passed to a `glDeleteTextures` call. -/
def Event.deletedTexture : Event → Option Nat
  | .glDeleteTextures _ texture => some texture
  | _ => none

/-- Components per pixel of a pixel format, as OpenGL defines them: three for
`GL_RGB`, four for `GL_RGBA` and `GL_BGRA`, the only values that
`gpuColorFormatToGLFormat` returns. -/
def componentsOf (format : Nat) : Nat := if format = GL_RGB then 3 else 4

/-- The value a `uint32_t` argument takes in a `GLsizei` parameter, a signed
32-bit integer: values below `2 ^ 31` are kept, values from `2 ^ 31` on become
negative. -/
def toGLsizei (n : Nat) : Int :=
  if n % 2 ^ 32 < 2 ^ 31 then (n % 2 ^ 32 : Nat) else ((n % 2 ^ 32 : Nat) : Int) - 2 ^ 32

/-- Bytes that a `glReadPixels` call asks the driver to write for tightly
packed rows of `GL_UNSIGNED_BYTE` components (row padding can only add to
it).  The width and height reach the driver as `GLsizei`; when either is
negative there the driver rejects the call and writes nothing.  The value is 0
for every other event. -/
def Event.readPixelsBytes : Event → Nat
  | .glReadPixels _ _ width height format _ _ =>
      if toGLsizei width < 0 ∨ toGLsizei height < 0 then 0
      else width * height * componentsOf format
  | _ => 0

/-- Bytes that a list of events asks the driver to write through
`glReadPixels`. -/
def requestedBytes (events : List Event) : Nat := (events.map Event.readPixelsBytes).sum

/-! ## Sequences of calls -/

/-- One create or destroy call on a framebuffer handle. -/
inductive LifecycleCall where
  | create (width height : Nat)
  | destroy

/-- Run one lifecycle call on a framebuffer handle and return the handle as
the call leaves it. -/
def LifecycleCall.run (d : Driver) (framebuffer : GPUFramebuffer) :
    LifecycleCall → GLM GPUFramebuffer
  | .create width height => do
      let r ← gpuCreateFramebuffer d width height framebuffer
      pure r.2
  | .destroy => gpuDestroyFramebuffer framebuffer

/-- Run a sequence of lifecycle calls on one framebuffer handle. -/
def runLifecycle (d : Driver) : List LifecycleCall → GPUFramebuffer → GLM GPUFramebuffer
  | [], framebuffer => pure framebuffer
  | call :: rest, framebuffer => do
      let next ← call.run d framebuffer
      runLifecycle d rest next

/-- Fill slot `i` of `program` from `bound`, destroy `bound`, then render
`texture` to `framebuffer` with the program; returns the destroyed texture
handle and the outcome of the render. -/
def bindDestroyRender (i : Fin 7) (bound texture : GPUTexture) (framebuffer : GPUFramebuffer)
    (program : GPUProgram) : GLM (GPUTexture × RenderResult) := do
  let filled ← setNthTexture i bound program
  let destroyed ← gpuDestroyTexture filled.1
  let rendered ← gpuRenderTextureToFramebufferUsingProgram texture framebuffer filled.2
  pure (destroyed, rendered)

/-! ## Properties stated once -/

/-- An operation rejects invalid handles with respect to a list of (status,
valid flag) pairs: when some flag in the list is 0, the operation returns the
status paired with the first such flag and issues no event. -/
def Op.rejectsInvalid (d : Driver) (h : List Event) (op : Op)
    (flags : List (GPUStatus × Nat)) : Prop :=
  ∀ s : GPUStatus, firstInvalid flags = some s → op.run d h = (some s, [])

/-- The failure contract of `gpuCompileProgram` for an outcome `r`.  The status
is OK or UnknownError, and it is UnknownError exactly when a compile-status or
link-status query was answered 0.  On UnknownError the program handle has
`valid = 0`; the one created program name is the one deleted; the deleted
shader names are, as a multiset, the created shader names (one delete for each
create); and when a stage failed to compile no `glLinkProgram` was issued. -/
def ReleasesOnFailure (r : (GPUStatus × GPUProgram) × List Event) : Prop :=
  (r.1.1 = GPUStatusOK ∨ r.1.1 = GPUStatusUnknownError)
  ∧ (r.1.1 = GPUStatusUnknownError
      ↔ (r.2.any Event.compileFailed = true ∨ r.2.any Event.linkFailed = true))
  ∧ (r.1.1 = GPUStatusUnknownError →
      r.1.2.valid = 0
      ∧ r.2.filterMap Event.deletedProgram = r.2.filterMap Event.createdProgram
      ∧ (r.2.filterMap Event.createdProgram).length = 1
      ∧ (r.2.filterMap Event.deletedShader).Perm (r.2.filterMap Event.createdShader)
      ∧ (r.2.any Event.compileFailed = true → r.2.any Event.isLink = false))

/-- The names and status answers that a driver gives along the call sequence
of `gpuCompileProgram` (lines 323-392) started after some history: the result
of `glCreateProgram` (line 328); for each of the two stages the result of
`glCreateShader` (line 406) and the answer to the `GL_COMPILE_STATUS` query
(line 410); and the answer to the `GL_LINK_STATUS` query (line 436). -/
structure CompileAnswers where
  programId : Nat
  vertexShader : Nat
  vertexStatus : Int
  fragmentShader : Nat
  fragmentStatus : Int
  linkStatus : Int

/-- The answers of driver `d` to the creation calls and status queries of
`gpuCompileProgram` after history `h`, each taken at the history in which the
source issues the call: `glCreateProgram` first; for each stage
`glCreateShader`, `glShaderSource`, `glCompileShader` and the
`GL_COMPILE_STATUS` query; then the two `glAttachShader` calls, the two
`glBindAttribLocation` calls, `glLinkProgram` and the `GL_LINK_STATUS` query.
The fragment answers are those given after a vertex stage that compiled, and
the link answer is the one given after two stages that compiled. -/
def compileAnswers (d : Driver) (h : List Event) (vertexShaderCode fragmentShaderCode : String) :
    CompileAnswers :=
  let programId := d.glCreateProgram h
  let created := h ++ [Event.glCreateProgram programId]
  let vertexShader := d.glCreateShader created GL_VERTEX_SHADER
  let vertexStatus := d.glGetShaderiv
    (created ++ [Event.glCreateShader GL_VERTEX_SHADER vertexShader,
      Event.glShaderSource vertexShader 1 vertexShaderCode,
      Event.glCompileShader vertexShader])
    vertexShader GL_COMPILE_STATUS
  let vertexDone := created ++ [Event.glCreateShader GL_VERTEX_SHADER vertexShader,
      Event.glShaderSource vertexShader 1 vertexShaderCode,
      Event.glCompileShader vertexShader,
      Event.glGetShaderiv vertexShader GL_COMPILE_STATUS vertexStatus]
  let fragmentShader := d.glCreateShader vertexDone GL_FRAGMENT_SHADER
  let fragmentStatus := d.glGetShaderiv
    (vertexDone ++ [Event.glCreateShader GL_FRAGMENT_SHADER fragmentShader,
      Event.glShaderSource fragmentShader 1 fragmentShaderCode,
      Event.glCompileShader fragmentShader])
    fragmentShader GL_COMPILE_STATUS
  let fragmentDone := vertexDone ++ [Event.glCreateShader GL_FRAGMENT_SHADER fragmentShader,
      Event.glShaderSource fragmentShader 1 fragmentShaderCode,
      Event.glCompileShader fragmentShader,
      Event.glGetShaderiv fragmentShader GL_COMPILE_STATUS fragmentStatus]
  let linkStatus := d.glGetProgramiv
    (fragmentDone ++ [Event.glAttachShader programId vertexShader]
      ++ [Event.glAttachShader programId fragmentShader]
      ++ [Event.glBindAttribLocation programId 0 "inputPosition"]
      ++ [Event.glBindAttribLocation programId 1 "inputUV"]
      ++ [Event.glLinkProgram programId])
    programId GL_LINK_STATUS
  { programId := programId, vertexShader := vertexShader, vertexStatus := vertexStatus,
    fragmentShader := fragmentShader, fragmentStatus := fragmentStatus,
    linkStatus := linkStatus }

/-- The failure contract of `gpuCompileProgram` for an outcome `r`, stated
against the answers `a` of the driver.  In each of the three failure cases
(the vertex stage is answered 0; the vertex stage compiles and the fragment
stage is answered 0; both stages compile and the link is answered 0) the
status is UnknownError and the handle has `valid = 0`; the trace creates
exactly the program `a.programId` and deletes exactly that program, once; it
creates exactly the listed shaders and deletes exactly those, each once; it
holds the status queries with the answers of `a`; and `glLinkProgram` is issued
only in the third case.  When no answer is 0 the status is OK and the handle
has `valid = 1`. -/
def FailsWithDriver (a : CompileAnswers)
    (r : (GPUStatus × GPUProgram) × List Event) : Prop :=
  (a.vertexStatus = 0 →
      r.1.1 = GPUStatusUnknownError ∧ r.1.2.valid = 0
      ∧ r.2.filterMap Event.createdProgram = [a.programId]
      ∧ r.2.filterMap Event.deletedProgram = [a.programId]
      ∧ r.2.filterMap Event.createdShader = [a.vertexShader]
      ∧ r.2.filterMap Event.deletedShader = [a.vertexShader]
      ∧ r.2.filterMap Event.compileStatus = [(a.vertexShader, 0)]
      ∧ r.2.filterMap Event.linkedProgram = []
      ∧ r.2.filterMap Event.linkStatus = [])
  ∧ (a.vertexStatus ≠ 0 → a.fragmentStatus = 0 →
      r.1.1 = GPUStatusUnknownError ∧ r.1.2.valid = 0
      ∧ r.2.filterMap Event.createdProgram = [a.programId]
      ∧ r.2.filterMap Event.deletedProgram = [a.programId]
      ∧ r.2.filterMap Event.createdShader = [a.vertexShader, a.fragmentShader]
      ∧ r.2.filterMap Event.deletedShader = [a.fragmentShader, a.vertexShader]
      ∧ r.2.filterMap Event.compileStatus
          = [(a.vertexShader, a.vertexStatus), (a.fragmentShader, 0)]
      ∧ r.2.filterMap Event.linkedProgram = []
      ∧ r.2.filterMap Event.linkStatus = [])
  ∧ (a.vertexStatus ≠ 0 → a.fragmentStatus ≠ 0 → a.linkStatus = 0 →
      r.1.1 = GPUStatusUnknownError ∧ r.1.2.valid = 0
      ∧ r.2.filterMap Event.createdProgram = [a.programId]
      ∧ r.2.filterMap Event.deletedProgram = [a.programId]
      ∧ r.2.filterMap Event.createdShader = [a.vertexShader, a.fragmentShader]
      ∧ r.2.filterMap Event.deletedShader = [a.vertexShader, a.fragmentShader]
      ∧ r.2.filterMap Event.compileStatus
          = [(a.vertexShader, a.vertexStatus), (a.fragmentShader, a.fragmentStatus)]
      ∧ r.2.filterMap Event.linkedProgram = [a.programId]
      ∧ r.2.filterMap Event.linkStatus = [(a.programId, 0)])
  ∧ (a.vertexStatus ≠ 0 → a.fragmentStatus ≠ 0 → a.linkStatus ≠ 0 →
      r.1.1 = GPUStatusOK ∧ r.1.2.valid = 1)

/-- The success contract of `gpuCompileProgram` for an outcome `r`.  There is
one `glLinkProgram` call, on the program that was created and that the handle
holds.  Before it the two attributes `inputPosition` (index 0) and `inputUV`
(index 1) are bound on that program and no shader is detached or deleted.
After it each of the two created shaders is detached from the program and
deleted, in creation order.  The program is never deleted, the handle has
`valid = 1`, and no additional-texture slot is marked in use. -/
def LinksThenReleases (r : (GPUStatus × GPUProgram) × List Event) : Prop :=
  r.2.filterMap Event.linkedProgram = [r.1.2.programId]
  ∧ r.2.filterMap Event.createdProgram = [r.1.2.programId]
  ∧ (r.2.filterMap Event.createdShader).length = 2
  ∧ (splitAtLink r.2).1.filterMap Event.boundAttribute
      = [(r.1.2.programId, 0, "inputPosition"), (r.1.2.programId, 1, "inputUV")]
  ∧ (splitAtLink r.2).1.filterMap Event.detachedShader = []
  ∧ (splitAtLink r.2).1.filterMap Event.deletedShader = []
  ∧ (splitAtLink r.2).2.filterMap Event.detachedShader
      = (r.2.filterMap Event.createdShader).map (fun shader => (r.1.2.programId, shader))
  ∧ (splitAtLink r.2).2.filterMap Event.deletedShader = r.2.filterMap Event.createdShader
  ∧ r.2.filterMap Event.deletedProgram = []
  ∧ r.1.2.valid = 1
  ∧ ∀ i : Fin 7, (r.1.2.additionalTextures i).textureShouldBeUsed = 0

/-! ## Sample inputs -/

/-- A texture handle as `gpuCreateTexture` leaves it, with driver name 5. -/
def sampleTexture : GPUTexture := { valid := 1, textureId := 5, width := 2, height := 3 }

/-- A framebuffer handle as a successful `gpuCreateFramebuffer` leaves it. -/
def sampleFramebuffer : GPUFramebuffer :=
  { valid := 1, framebufferId := 9,
    texture := { valid := 1, textureId := 6, width := 4, height := 4 } }

/-- A program handle as a successful `gpuCompileProgram` leaves it. -/
def sampleProgram : GPUProgram :=
  { valid := 1, programId := 11, textureUniformLocation := 0,
    additionalTextures := fun _ =>
      { textureShouldBeUsed := 0, texture := GPUTexture.zero, uniformLocation := -1 } }

/-- A driver on which every call succeeds: fresh object names, a complete
framebuffer, no pending error, shaders that compile and link, and a program
whose only uniform besides the samplers is `radius`, at location 3. -/
def sampleDriver : Driver :=
  { glGenFramebuffers := fun h => h.length + 1
    glGenTextures := fun h => h.length + 1
    glCheckFramebufferStatus := fun _ => GL_FRAMEBUFFER_COMPLETE
    glGetError := fun _ => GL_NO_ERROR
    glReadPixels := fun _ => []
    glCreateProgram := fun h => h.length + 1
    glCreateShader := fun h _ => h.length + 1
    glGetShaderiv := fun _ _ pname => if pname = GL_COMPILE_STATUS then 1 else 0
    glGetShaderInfoLog := fun _ _ => ""
    glGetProgramiv := fun _ _ pname => if pname = GL_LINK_STATUS then 1 else 0
    glGetProgramInfoLog := fun _ _ => ""
    glGetUniformLocation := fun _ _ name => if name = "radius" then 3 else -1
    malloc := fun _ _ => true }

/-- A driver that reports every framebuffer incomplete
(`GL_FRAMEBUFFER_INCOMPLETE_ATTACHMENT`) and answers every `glGetError` with
`GL_INVALID_OPERATION`. -/
def rejectingDriver : Driver :=
  { sampleDriver with
    glCheckFramebufferStatus := fun _ => 0x8CD6
    glGetError := fun _ => 0x0502 }

/-- A driver on which the first shader of a history compiles and any later one
does not; the diagnostic text has 12 characters. -/
def fragmentFailDriver : Driver :=
  { sampleDriver with
    glGetShaderiv := fun _ shader pname =>
      if pname = GL_COMPILE_STATUS then (if shader = 2 then 1 else 0) else 12
    glGetShaderInfoLog := fun _ _ => "syntax error" }

/-- A framebuffer handle whose own flag is 0 while its embedded texture is
valid, as left by `gpuCreateTexture` applied to the texture field of a cleared
framebuffer handle. -/
def halfValidFramebuffer : GPUFramebuffer :=
  { valid := 0, framebufferId := 0, texture := sampleTexture }

/-- A program handle with all seven additional-texture slots in use: slot `i`
holds texture name `21 + i` and sampler location `i + 1`. -/
def fullProgram : GPUProgram :=
  { valid := 1, programId := 11, textureUniformLocation := 0,
    additionalTextures := fun i =>
      { textureShouldBeUsed := 1,
        texture := { valid := 1, textureId := 21 + i.val, width := 2, height := 2 },
        uniformLocation := i.val + 1 } }

/-- A texture handle that was never created: its flag is 0, its name field
holds 7. -/
def staleTexture : GPUTexture := { valid := 0, textureId := 7, width := 2, height := 2 }

/-- A valid framebuffer handle of 32768 x 32769 pixels, for which
`4 * width * height` is `2 ^ 32 + 131072`. -/
def largeFramebuffer : GPUFramebuffer :=
  { valid := 1, framebufferId := 9,
    texture := { valid := 1, textureId := 6, width := 32768, height := 32769 } }

/-- The handle `largeFramebuffer` after `gpuDestroyFramebuffer`. -/
def destroyedLargeFramebuffer : GPUFramebuffer :=
  { valid := 0, framebufferId := 9,
    texture := { valid := 0, textureId := 6, width := 32768, height := 32769 } }

/-- A valid framebuffer handle whose texture width is `2 ^ 31`, as left by
`gpuUploadImageToTexture` with that width on the embedded texture. -/
def wideFramebuffer : GPUFramebuffer :=
  { valid := 1, framebufferId := 9,
    texture := { valid := 1, textureId := 6, width := 2147483648, height := 1 } }

/-- A driver that reports a framebuffer incomplete while fewer than 20 events
have happened and complete afterwards. -/
def flakyDriver : Driver :=
  { sampleDriver with
    glCheckFramebufferStatus := fun h =>
      if h.length < 20 then 0x8CD6 else GL_FRAMEBUFFER_COMPLETE }

/-! ## Evaluation rules for computations -/

@[simp] theorem pure_run {α : Type} (a : α) (h : List Event) :
    (pure a : GLM α) h = (a, []) := rfl

@[simp] theorem after_mk {α : Type} (events rest : List Event) (a : α) :
    after events (a, rest) = (a, events ++ rest) := rfl

@[simp] theorem after_fst {α : Type} (events : List Event) (r : α × List Event) :
    (after events r).1 = r.1 := rfl

@[simp] theorem after_snd {α : Type} (events : List Event) (r : α × List Event) :
    (after events r).2 = events ++ r.2 := rfl

@[simp] theorem after_ite {α : Type} (c : Prop) [Decidable c] (events : List Event)
    (x y : α × List Event) :
    after events (if c then x else y) = if c then after events x else after events y := by
  split <;> rfl

@[simp] theorem bind_run {α β : Type} (m : GLM α) (f : α → GLM β) (h : List Event) :
    (m >>= f) h = after (m h).2 (f (m h).1 (h ++ (m h).2)) := rfl

@[simp] theorem ite_run {α : Type} (c : Prop) [Decidable c] (m n : GLM α) (h : List Event) :
    (if c then m else n) h = if c then m h else n h := by
  split <;> rfl

@[simp] theorem emit_run (e : Event) (h : List Event) : emit e h = ((), [e]) := rfl

@[simp] theorem query_run {α : Type} (answer : List Event → α) (e : α → Event)
    (h : List Event) : query answer e h = (answer h, [e (answer h)]) := rfl

/-! ## Render: validity checks -/

/-- C1: `gpuRenderTextureToFramebufferUsingProgram` checks the texture, then the
framebuffer, then the program, and reports the first invalid one with its own
status (OK when all three are valid); whenever the status is not OK the call
issues no event at all and returns the three handles as it received them. -/
theorem render_checks_validity_in_order (texture : GPUTexture)
    (framebuffer : GPUFramebuffer) (program : GPUProgram) (h : List Event) :
    ((gpuRenderTextureToFramebufferUsingProgram texture framebuffer program h).1.status
        = if texture.valid = 0 then GPUStatusInvalidTexture
          else if framebuffer.valid = 0 then GPUStatusInvalidFramebuffer
          else if program.valid = 0 then GPUStatusInvalidProgram
          else GPUStatusOK)
    ∧ ((gpuRenderTextureToFramebufferUsingProgram texture framebuffer program h).1.status
          ≠ GPUStatusOK →
        (gpuRenderTextureToFramebufferUsingProgram texture framebuffer program h).2 = []
        ∧ (gpuRenderTextureToFramebufferUsingProgram texture framebuffer program h).1.texture
            = texture
        ∧ (gpuRenderTextureToFramebufferUsingProgram texture framebuffer program h).1.framebuffer
            = framebuffer
        ∧ (gpuRenderTextureToFramebufferUsingProgram texture framebuffer program h).1.program
            = program) := by
  unfold gpuRenderTextureToFramebufferUsingProgram
  by_cases ht : texture.valid = 0
  · simp [ht]
  · by_cases hf : framebuffer.valid = 0
    · simp [ht, hf]
    · by_cases hp : program.valid = 0
      · simp [ht, hf, hp]
      · simp [ht, hf, hp]

/-- Witness for C1: a cleared texture handle is rejected before any call. -/
theorem render_checks_validity_in_order_witness :
    (gpuRenderTextureToFramebufferUsingProgram GPUTexture.zero sampleFramebuffer
        sampleProgram []).2 = [] :=
  ((render_checks_validity_in_order GPUTexture.zero sampleFramebuffer sampleProgram []).2
    (by decide)).1

/-! ## Colour formats -/

/-- C7: `gpuColorFormatToGLFormat` is defined on every integer: 0 (RGB) gives
`GL_RGB`, 1 (RGBA) gives `GL_RGBA`, 2 (BGRA) gives `GL_BGRA`, every other
integer gives `GL_RGBA`, and the three recognised results are pairwise
distinct. -/
theorem colorFormat_mapping (colorFormat : Int) :
    gpuColorFormatToGLFormat GPUColorFormatRGB = GL_RGB
    ∧ gpuColorFormatToGLFormat GPUColorFormatRGBA = GL_RGBA
    ∧ gpuColorFormatToGLFormat GPUColorFormatBGRA = GL_BGRA
    ∧ (colorFormat ≠ 0 ∧ colorFormat ≠ 1 ∧ colorFormat ≠ 2 →
        gpuColorFormatToGLFormat colorFormat = GL_RGBA)
    ∧ gpuColorFormatToGLFormat GPUColorFormatRGB ≠ gpuColorFormatToGLFormat GPUColorFormatRGBA
    ∧ gpuColorFormatToGLFormat GPUColorFormatRGB ≠ gpuColorFormatToGLFormat GPUColorFormatBGRA
    ∧ gpuColorFormatToGLFormat GPUColorFormatRGBA ≠ gpuColorFormatToGLFormat GPUColorFormatBGRA := by
  refine ⟨by decide, by decide, by decide, ?_, by decide, by decide, by decide⟩
  rintro ⟨h0, h1, h2⟩
  simp [gpuColorFormatToGLFormat, GPUColorFormatRGB, GPUColorFormatRGBA, GPUColorFormatBGRA,
    h0, h1, h2]


/-- Witness for C7: the unrecognised value 7 maps to `GL_RGBA`. -/
theorem colorFormat_mapping_witness : gpuColorFormatToGLFormat 7 = GL_RGBA :=
  (colorFormat_mapping 7).2.2.2.1 ⟨by decide, by decide, by decide⟩

/-! ## Uniform setters -/

theorem gpuSetFloatForProgram_run (d : Driver) (name : String) (value : GLfloat)
    (program : GPUProgram) (h : List Event) :
    gpuSetFloatForProgram d name value program h
      = setterOutcome program name (d.glGetUniformLocation h program.programId name)
          (.glUniform1f (d.glGetUniformLocation h program.programId name) value) := by
  by_cases hv : program.valid = 0
  · simp [gpuSetFloatForProgram, setterOutcome, hv]
  · by_cases hl : d.glGetUniformLocation h program.programId name = -1
    · simp [gpuSetFloatForProgram, setterOutcome, hv, hl]
    · simp [gpuSetFloatForProgram, setterOutcome, hv, hl]

theorem gpuSset2FloatsForProgram_run (d : Driver) (name : String) (value0 : GLfloat) (value1 : GLfloat)
    (program : GPUProgram) (h : List Event) :
    gpuSset2FloatsForProgram d name value0 value1 program h
      = setterOutcome program name (d.glGetUniformLocation h program.programId name)
          (.glUniform2f (d.glGetUniformLocation h program.programId name) value0 value1) := by
  by_cases hv : program.valid = 0
  · simp [gpuSset2FloatsForProgram, setterOutcome, hv]
  · by_cases hl : d.glGetUniformLocation h program.programId name = -1
    · simp [gpuSset2FloatsForProgram, setterOutcome, hv, hl]
    · simp [gpuSset2FloatsForProgram, setterOutcome, hv, hl]

theorem gpuSet3FloatsForProgram_run (d : Driver) (name : String) (value0 : GLfloat) (value1 : GLfloat) (value2 : GLfloat)
    (program : GPUProgram) (h : List Event) :
    gpuSet3FloatsForProgram d name value0 value1 value2 program h
      = setterOutcome program name (d.glGetUniformLocation h program.programId name)
          (.glUniform3f (d.glGetUniformLocation h program.programId name) value0 value1 value2) := by
  by_cases hv : program.valid = 0
  · simp [gpuSet3FloatsForProgram, setterOutcome, hv]
  · by_cases hl : d.glGetUniformLocation h program.programId name = -1
    · simp [gpuSet3FloatsForProgram, setterOutcome, hv, hl]
    · simp [gpuSet3FloatsForProgram, setterOutcome, hv, hl]

theorem gpuSet4FloatsForProgram_run (d : Driver) (name : String) (value0 : GLfloat) (value1 : GLfloat) (value2 : GLfloat) (value3 : GLfloat)
    (program : GPUProgram) (h : List Event) :
    gpuSet4FloatsForProgram d name value0 value1 value2 value3 program h
      = setterOutcome program name (d.glGetUniformLocation h program.programId name)
          (.glUniform4f (d.glGetUniformLocation h program.programId name) value0 value1 value2 value3) := by
  by_cases hv : program.valid = 0
  · simp [gpuSet4FloatsForProgram, setterOutcome, hv]
  · by_cases hl : d.glGetUniformLocation h program.programId name = -1
    · simp [gpuSet4FloatsForProgram, setterOutcome, hv, hl]
    · simp [gpuSet4FloatsForProgram, setterOutcome, hv, hl]

theorem gpuSetIntForProgram_run (d : Driver) (name : String) (value : Int)
    (program : GPUProgram) (h : List Event) :
    gpuSetIntForProgram d name value program h
      = setterOutcome program name (d.glGetUniformLocation h program.programId name)
          (.glUniform1i (d.glGetUniformLocation h program.programId name) value) := by
  by_cases hv : program.valid = 0
  · simp [gpuSetIntForProgram, setterOutcome, hv]
  · by_cases hl : d.glGetUniformLocation h program.programId name = -1
    · simp [gpuSetIntForProgram, setterOutcome, hv, hl]
    · simp [gpuSetIntForProgram, setterOutcome, hv, hl]

theorem gpuSet2IntsForProgram_run (d : Driver) (name : String) (value0 : Int) (value1 : Int)
    (program : GPUProgram) (h : List Event) :
    gpuSet2IntsForProgram d name value0 value1 program h
      = setterOutcome program name (d.glGetUniformLocation h program.programId name)
          (.glUniform2i (d.glGetUniformLocation h program.programId name) value0 value1) := by
  by_cases hv : program.valid = 0
  · simp [gpuSet2IntsForProgram, setterOutcome, hv]
  · by_cases hl : d.glGetUniformLocation h program.programId name = -1
    · simp [gpuSet2IntsForProgram, setterOutcome, hv, hl]
    · simp [gpuSet2IntsForProgram, setterOutcome, hv, hl]

theorem gpuSet3IntsForProgram_run (d : Driver) (name : String) (value0 : Int) (value1 : Int) (value2 : Int)
    (program : GPUProgram) (h : List Event) :
    gpuSet3IntsForProgram d name value0 value1 value2 program h
      = setterOutcome program name (d.glGetUniformLocation h program.programId name)
          (.glUniform3i (d.glGetUniformLocation h program.programId name) value0 value1 value2) := by
  by_cases hv : program.valid = 0
  · simp [gpuSet3IntsForProgram, setterOutcome, hv]
  · by_cases hl : d.glGetUniformLocation h program.programId name = -1
    · simp [gpuSet3IntsForProgram, setterOutcome, hv, hl]
    · simp [gpuSet3IntsForProgram, setterOutcome, hv, hl]

theorem gpuSet4IntsForProgram_run (d : Driver) (name : String) (value0 : Int) (value1 : Int) (value2 : Int) (value3 : Int)
    (program : GPUProgram) (h : List Event) :
    gpuSet4IntsForProgram d name value0 value1 value2 value3 program h
      = setterOutcome program name (d.glGetUniformLocation h program.programId name)
          (.glUniform4i (d.glGetUniformLocation h program.programId name) value0 value1 value2 value3) := by
  by_cases hv : program.valid = 0
  · simp [gpuSet4IntsForProgram, setterOutcome, hv]
  · by_cases hl : d.glGetUniformLocation h program.programId name = -1
    · simp [gpuSet4IntsForProgram, setterOutcome, hv, hl]
    · simp [gpuSet4IntsForProgram, setterOutcome, hv, hl]

theorem gpuSetVector2ForProgram_run (d : Driver) (name : String) (values : List GLfloat)
    (program : GPUProgram) (h : List Event) :
    gpuSetVector2ForProgram d name values program h
      = setterOutcome program name (d.glGetUniformLocation h program.programId name)
          (.glUniform2fv (d.glGetUniformLocation h program.programId name) 1 values) := by
  by_cases hv : program.valid = 0
  · simp [gpuSetVector2ForProgram, setterOutcome, hv]
  · by_cases hl : d.glGetUniformLocation h program.programId name = -1
    · simp [gpuSetVector2ForProgram, setterOutcome, hv, hl]
    · simp [gpuSetVector2ForProgram, setterOutcome, hv, hl]

theorem gpuSetVector3ForProgram_run (d : Driver) (name : String) (values : List GLfloat)
    (program : GPUProgram) (h : List Event) :
    gpuSetVector3ForProgram d name values program h
      = setterOutcome program name (d.glGetUniformLocation h program.programId name)
          (.glUniform3fv (d.glGetUniformLocation h program.programId name) 1 values) := by
  by_cases hv : program.valid = 0
  · simp [gpuSetVector3ForProgram, setterOutcome, hv]
  · by_cases hl : d.glGetUniformLocation h program.programId name = -1
    · simp [gpuSetVector3ForProgram, setterOutcome, hv, hl]
    · simp [gpuSetVector3ForProgram, setterOutcome, hv, hl]

theorem gpuSetVector4ForProgram_run (d : Driver) (name : String) (values : List GLfloat)
    (program : GPUProgram) (h : List Event) :
    gpuSetVector4ForProgram d name values program h
      = setterOutcome program name (d.glGetUniformLocation h program.programId name)
          (.glUniform4fv (d.glGetUniformLocation h program.programId name) 1 values) := by
  by_cases hv : program.valid = 0
  · simp [gpuSetVector4ForProgram, setterOutcome, hv]
  · by_cases hl : d.glGetUniformLocation h program.programId name = -1
    · simp [gpuSetVector4ForProgram, setterOutcome, hv, hl]
    · simp [gpuSetVector4ForProgram, setterOutcome, hv, hl]

theorem gpuSetFloatArrayForProgram_run (d : Driver) (name : String) (count : Nat) (values : List GLfloat)
    (program : GPUProgram) (h : List Event) :
    gpuSetFloatArrayForProgram d name count values program h
      = setterOutcome program name (d.glGetUniformLocation h program.programId name)
          (.glUniform1fv (d.glGetUniformLocation h program.programId name) count values) := by
  by_cases hv : program.valid = 0
  · simp [gpuSetFloatArrayForProgram, setterOutcome, hv]
  · by_cases hl : d.glGetUniformLocation h program.programId name = -1
    · simp [gpuSetFloatArrayForProgram, setterOutcome, hv, hl]
    · simp [gpuSetFloatArrayForProgram, setterOutcome, hv, hl]

theorem gpuSetVector2ArrayForProgram_run (d : Driver) (name : String) (count : Nat) (values : List GLfloat)
    (program : GPUProgram) (h : List Event) :
    gpuSetVector2ArrayForProgram d name count values program h
      = setterOutcome program name (d.glGetUniformLocation h program.programId name)
          (.glUniform2fv (d.glGetUniformLocation h program.programId name) count values) := by
  by_cases hv : program.valid = 0
  · simp [gpuSetVector2ArrayForProgram, setterOutcome, hv]
  · by_cases hl : d.glGetUniformLocation h program.programId name = -1
    · simp [gpuSetVector2ArrayForProgram, setterOutcome, hv, hl]
    · simp [gpuSetVector2ArrayForProgram, setterOutcome, hv, hl]

theorem gpuSetVector3ArrayForProgram_run (d : Driver) (name : String) (count : Nat) (values : List GLfloat)
    (program : GPUProgram) (h : List Event) :
    gpuSetVector3ArrayForProgram d name count values program h
      = setterOutcome program name (d.glGetUniformLocation h program.programId name)
          (.glUniform3fv (d.glGetUniformLocation h program.programId name) count values) := by
  by_cases hv : program.valid = 0
  · simp [gpuSetVector3ArrayForProgram, setterOutcome, hv]
  · by_cases hl : d.glGetUniformLocation h program.programId name = -1
    · simp [gpuSetVector3ArrayForProgram, setterOutcome, hv, hl]
    · simp [gpuSetVector3ArrayForProgram, setterOutcome, hv, hl]

theorem gpuSetVector4ArrayForProgram_run (d : Driver) (name : String) (count : Nat) (values : List GLfloat)
    (program : GPUProgram) (h : List Event) :
    gpuSetVector4ArrayForProgram d name count values program h
      = setterOutcome program name (d.glGetUniformLocation h program.programId name)
          (.glUniform4fv (d.glGetUniformLocation h program.programId name) count values) := by
  by_cases hv : program.valid = 0
  · simp [gpuSetVector4ArrayForProgram, setterOutcome, hv]
  · by_cases hl : d.glGetUniformLocation h program.programId name = -1
    · simp [gpuSetVector4ArrayForProgram, setterOutcome, hv, hl]
    · simp [gpuSetVector4ArrayForProgram, setterOutcome, hv, hl]

theorem gpuSetIntArrayForProgram_run (d : Driver) (name : String) (count : Nat) (values : List Int)
    (program : GPUProgram) (h : List Event) :
    gpuSetIntArrayForProgram d name count values program h
      = setterOutcome program name (d.glGetUniformLocation h program.programId name)
          (.glUniform1iv (d.glGetUniformLocation h program.programId name) count values) := by
  by_cases hv : program.valid = 0
  · simp [gpuSetIntArrayForProgram, setterOutcome, hv]
  · by_cases hl : d.glGetUniformLocation h program.programId name = -1
    · simp [gpuSetIntArrayForProgram, setterOutcome, hv, hl]
    · simp [gpuSetIntArrayForProgram, setterOutcome, hv, hl]

theorem gpuSetIntVector2ArrayForProgram_run (d : Driver) (name : String) (count : Nat) (values : List Int)
    (program : GPUProgram) (h : List Event) :
    gpuSetIntVector2ArrayForProgram d name count values program h
      = setterOutcome program name (d.glGetUniformLocation h program.programId name)
          (.glUniform2iv (d.glGetUniformLocation h program.programId name) count values) := by
  by_cases hv : program.valid = 0
  · simp [gpuSetIntVector2ArrayForProgram, setterOutcome, hv]
  · by_cases hl : d.glGetUniformLocation h program.programId name = -1
    · simp [gpuSetIntVector2ArrayForProgram, setterOutcome, hv, hl]
    · simp [gpuSetIntVector2ArrayForProgram, setterOutcome, hv, hl]

theorem gpuSetIntVector3ArrayForProgram_run (d : Driver) (name : String) (count : Nat) (values : List Int)
    (program : GPUProgram) (h : List Event) :
    gpuSetIntVector3ArrayForProgram d name count values program h
      = setterOutcome program name (d.glGetUniformLocation h program.programId name)
          (.glUniform3iv (d.glGetUniformLocation h program.programId name) count values) := by
  by_cases hv : program.valid = 0
  · simp [gpuSetIntVector3ArrayForProgram, setterOutcome, hv]
  · by_cases hl : d.glGetUniformLocation h program.programId name = -1
    · simp [gpuSetIntVector3ArrayForProgram, setterOutcome, hv, hl]
    · simp [gpuSetIntVector3ArrayForProgram, setterOutcome, hv, hl]

theorem gpuSetIntVector4ArrayForProgram_run (d : Driver) (name : String) (count : Nat) (values : List Int)
    (program : GPUProgram) (h : List Event) :
    gpuSetIntVector4ArrayForProgram d name count values program h
      = setterOutcome program name (d.glGetUniformLocation h program.programId name)
          (.glUniform4iv (d.glGetUniformLocation h program.programId name) count values) := by
  by_cases hv : program.valid = 0
  · simp [gpuSetIntVector4ArrayForProgram, setterOutcome, hv]
  · by_cases hl : d.glGetUniformLocation h program.programId name = -1
    · simp [gpuSetIntVector4ArrayForProgram, setterOutcome, hv, hl]
    · simp [gpuSetIntVector4ArrayForProgram, setterOutcome, hv, hl]

theorem gpuSsetMatrix2x2ForProgram_run (d : Driver) (name : String) (values : List GLfloat)
    (program : GPUProgram) (h : List Event) :
    gpuSsetMatrix2x2ForProgram d name values program h
      = setterOutcome program name (d.glGetUniformLocation h program.programId name)
          (.glUniformMatrix2fv (d.glGetUniformLocation h program.programId name) 1 GL_FALSE values) := by
  by_cases hv : program.valid = 0
  · simp [gpuSsetMatrix2x2ForProgram, setterOutcome, hv]
  · by_cases hl : d.glGetUniformLocation h program.programId name = -1
    · simp [gpuSsetMatrix2x2ForProgram, setterOutcome, hv, hl]
    · simp [gpuSsetMatrix2x2ForProgram, setterOutcome, hv, hl]

theorem gpuSetMatrix3x3ForProgram_run (d : Driver) (name : String) (values : List GLfloat)
    (program : GPUProgram) (h : List Event) :
    gpuSetMatrix3x3ForProgram d name values program h
      = setterOutcome program name (d.glGetUniformLocation h program.programId name)
          (.glUniformMatrix3fv (d.glGetUniformLocation h program.programId name) 1 GL_FALSE values) := by
  by_cases hv : program.valid = 0
  · simp [gpuSetMatrix3x3ForProgram, setterOutcome, hv]
  · by_cases hl : d.glGetUniformLocation h program.programId name = -1
    · simp [gpuSetMatrix3x3ForProgram, setterOutcome, hv, hl]
    · simp [gpuSetMatrix3x3ForProgram, setterOutcome, hv, hl]

theorem gpuSetMatrix4x4ForProgram_run (d : Driver) (name : String) (values : List GLfloat)
    (program : GPUProgram) (h : List Event) :
    gpuSetMatrix4x4ForProgram d name values program h
      = setterOutcome program name (d.glGetUniformLocation h program.programId name)
          (.glUniformMatrix4fv (d.glGetUniformLocation h program.programId name) 1 GL_FALSE values) := by
  by_cases hv : program.valid = 0
  · simp [gpuSetMatrix4x4ForProgram, setterOutcome, hv]
  · by_cases hl : d.glGetUniformLocation h program.programId name = -1
    · simp [gpuSetMatrix4x4ForProgram, setterOutcome, hv, hl]
    · simp [gpuSetMatrix4x4ForProgram, setterOutcome, hv, hl]

theorem gpuSetMatrix2x2ArrayForProgram_run (d : Driver) (name : String) (count : Nat) (values : List GLfloat)
    (program : GPUProgram) (h : List Event) :
    gpuSetMatrix2x2ArrayForProgram d name count values program h
      = setterOutcome program name (d.glGetUniformLocation h program.programId name)
          (.glUniformMatrix2fv (d.glGetUniformLocation h program.programId name) count GL_FALSE values) := by
  by_cases hv : program.valid = 0
  · simp [gpuSetMatrix2x2ArrayForProgram, setterOutcome, hv]
  · by_cases hl : d.glGetUniformLocation h program.programId name = -1
    · simp [gpuSetMatrix2x2ArrayForProgram, setterOutcome, hv, hl]
    · simp [gpuSetMatrix2x2ArrayForProgram, setterOutcome, hv, hl]

theorem gpuSetMatrix3x3ArrayForProgram_run (d : Driver) (name : String) (count : Nat) (values : List GLfloat)
    (program : GPUProgram) (h : List Event) :
    gpuSetMatrix3x3ArrayForProgram d name count values program h
      = setterOutcome program name (d.glGetUniformLocation h program.programId name)
          (.glUniformMatrix3fv (d.glGetUniformLocation h program.programId name) count GL_FALSE values) := by
  by_cases hv : program.valid = 0
  · simp [gpuSetMatrix3x3ArrayForProgram, setterOutcome, hv]
  · by_cases hl : d.glGetUniformLocation h program.programId name = -1
    · simp [gpuSetMatrix3x3ArrayForProgram, setterOutcome, hv, hl]
    · simp [gpuSetMatrix3x3ArrayForProgram, setterOutcome, hv, hl]

theorem gpuSetMatrix4x4ArrayForProgram_run (d : Driver) (name : String) (count : Nat) (values : List GLfloat)
    (program : GPUProgram) (h : List Event) :
    gpuSetMatrix4x4ArrayForProgram d name count values program h
      = setterOutcome program name (d.glGetUniformLocation h program.programId name)
          (.glUniformMatrix4fv (d.glGetUniformLocation h program.programId name) count GL_FALSE values) := by
  by_cases hv : program.valid = 0
  · simp [gpuSetMatrix4x4ArrayForProgram, setterOutcome, hv]
  · by_cases hl : d.glGetUniformLocation h program.programId name = -1
    · simp [gpuSetMatrix4x4ArrayForProgram, setterOutcome, hv, hl]
    · simp [gpuSetMatrix4x4ArrayForProgram, setterOutcome, hv, hl]

/-- What `setterOutcome` says, case by case. -/
theorem setterOutcome_cases (program : GPUProgram) (name : String) (location : Int)
    (push : Event) (data : UniformData) (r : (GPUStatus × GPUProgram) × List Event)
    (hr : r = setterOutcome program name location push)
    (hp : push.uniformPush = some (location, data)) :
    (program.valid = 0 → r = ((GPUStatusInvalidProgram, program), []))
    ∧ (program.valid ≠ 0 → location = -1 →
        r = ((GPUStatusNoSuchParameter, program),
             [.glGetUniformLocation program.programId name (-1)]))
    ∧ (program.valid ≠ 0 → location ≠ -1 →
        r.1 = (GPUStatusOK, program)
        ∧ ∃ e : Event,
            r.2 = [.glGetUniformLocation program.programId name location, e]
            ∧ e.uniformPush = some (location, data))
    ∧ (r.1.1 = GPUStatusInvalidProgram ∨ r.1.1 = GPUStatusNoSuchParameter
        ∨ r.1.1 = GPUStatusOK) := by
  subst hr
  by_cases hv : program.valid = 0
  · simp [setterOutcome, hv]
  · by_cases hl : location = -1
    · simp [setterOutcome, hv, hl]
    · simp [setterOutcome, hv, hl, hp]

/-- C2: every uniform setter, for every name, value and program, behaves in one
of three ways.  With `program.valid = 0` it returns InvalidProgram and issues
no event (the name is not resolved).  Otherwise it resolves the name once; if
the driver answers -1 it returns NoSuchParameter and the resolution is the
only event.  Otherwise it returns OK and issues, after the resolution, exactly
one `glUniform*` call, at the resolved location and with the values the caller
passed.  The program handle is never changed, and no other status occurs. -/
theorem uniform_setter_contract (d : Driver) (call : UniformCall) (name : String)
    (program : GPUProgram) (h : List Event) :
    (program.valid = 0 →
        call.run d name program h = ((GPUStatusInvalidProgram, program), []))
    ∧ (program.valid ≠ 0 → d.glGetUniformLocation h program.programId name = -1 →
        call.run d name program h
          = ((GPUStatusNoSuchParameter, program),
             [.glGetUniformLocation program.programId name (-1)]))
    ∧ (program.valid ≠ 0 → d.glGetUniformLocation h program.programId name ≠ -1 →
        (call.run d name program h).1 = (GPUStatusOK, program)
        ∧ ∃ e : Event,
            (call.run d name program h).2
              = [.glGetUniformLocation program.programId name
                    (d.glGetUniformLocation h program.programId name), e]
            ∧ e.uniformPush
                = some (d.glGetUniformLocation h program.programId name, call.values))
    ∧ ((call.run d name program h).1.1 = GPUStatusInvalidProgram
        ∨ (call.run d name program h).1.1 = GPUStatusNoSuchParameter
        ∨ (call.run d name program h).1.1 = GPUStatusOK) := by
  cases call
  · exact setterOutcome_cases _ _ _ _ _ _ (gpuSetFloatForProgram_run ..) rfl
  · exact setterOutcome_cases _ _ _ _ _ _ (gpuSset2FloatsForProgram_run ..) rfl
  · exact setterOutcome_cases _ _ _ _ _ _ (gpuSet3FloatsForProgram_run ..) rfl
  · exact setterOutcome_cases _ _ _ _ _ _ (gpuSet4FloatsForProgram_run ..) rfl
  · exact setterOutcome_cases _ _ _ _ _ _ (gpuSetIntForProgram_run ..) rfl
  · exact setterOutcome_cases _ _ _ _ _ _ (gpuSet2IntsForProgram_run ..) rfl
  · exact setterOutcome_cases _ _ _ _ _ _ (gpuSet3IntsForProgram_run ..) rfl
  · exact setterOutcome_cases _ _ _ _ _ _ (gpuSet4IntsForProgram_run ..) rfl
  · exact setterOutcome_cases _ _ _ _ _ _ (gpuSetVector2ForProgram_run ..) rfl
  · exact setterOutcome_cases _ _ _ _ _ _ (gpuSetVector3ForProgram_run ..) rfl
  · exact setterOutcome_cases _ _ _ _ _ _ (gpuSetVector4ForProgram_run ..) rfl
  · exact setterOutcome_cases _ _ _ _ _ _ (gpuSetFloatArrayForProgram_run ..) rfl
  · exact setterOutcome_cases _ _ _ _ _ _ (gpuSetVector2ArrayForProgram_run ..) rfl
  · exact setterOutcome_cases _ _ _ _ _ _ (gpuSetVector3ArrayForProgram_run ..) rfl
  · exact setterOutcome_cases _ _ _ _ _ _ (gpuSetVector4ArrayForProgram_run ..) rfl
  · exact setterOutcome_cases _ _ _ _ _ _ (gpuSetIntArrayForProgram_run ..) rfl
  · exact setterOutcome_cases _ _ _ _ _ _ (gpuSetIntVector2ArrayForProgram_run ..) rfl
  · exact setterOutcome_cases _ _ _ _ _ _ (gpuSetIntVector3ArrayForProgram_run ..) rfl
  · exact setterOutcome_cases _ _ _ _ _ _ (gpuSetIntVector4ArrayForProgram_run ..) rfl
  · exact setterOutcome_cases _ _ _ _ _ _ (gpuSsetMatrix2x2ForProgram_run ..) rfl
  · exact setterOutcome_cases _ _ _ _ _ _ (gpuSetMatrix3x3ForProgram_run ..) rfl
  · exact setterOutcome_cases _ _ _ _ _ _ (gpuSetMatrix4x4ForProgram_run ..) rfl
  · exact setterOutcome_cases _ _ _ _ _ _ (gpuSetMatrix2x2ArrayForProgram_run ..) rfl
  · exact setterOutcome_cases _ _ _ _ _ _ (gpuSetMatrix3x3ArrayForProgram_run ..) rfl
  · exact setterOutcome_cases _ _ _ _ _ _ (gpuSetMatrix4x4ArrayForProgram_run ..) rfl

/-- Witness for C2 on the sample driver: an invalid program is rejected
unresolved, the unknown name `gamma` gives NoSuchParameter, and the known name
`radius` gives OK with one push at location 3. -/
theorem uniform_setter_contract_witness :
    UniformCall.run sampleDriver "radius" GPUProgram.zero (.SetIntForProgram 4) []
        = ((GPUStatusInvalidProgram, GPUProgram.zero), [])
    ∧ UniformCall.run sampleDriver "gamma" sampleProgram (.SetIntForProgram 4) []
        = ((GPUStatusNoSuchParameter, sampleProgram), [.glGetUniformLocation 11 "gamma" (-1)])
    ∧ (UniformCall.run sampleDriver "radius" sampleProgram (.SetIntForProgram 4) []).1
        = (GPUStatusOK, sampleProgram) :=
  ⟨(uniform_setter_contract sampleDriver (.SetIntForProgram 4) "radius" GPUProgram.zero []).1 rfl,
   (uniform_setter_contract sampleDriver (.SetIntForProgram 4) "gamma" sampleProgram []).2.1
      (by decide) (by decide),
   ((uniform_setter_contract sampleDriver (.SetIntForProgram 4) "radius" sampleProgram []).2.2.1
      (by decide) (by decide)).1⟩

/-! ## Invalid handles -/

theorem UniformCall.run_invalid (d : Driver) (call : UniformCall) (name : String)
    (program : GPUProgram) (h : List Event) (hv : program.valid = 0) :
    call.run d name program h = ((GPUStatusInvalidProgram, program), []) := by
  cases call <;> simp [UniformCall.run, gpuSetFloatForProgram_run, gpuSset2FloatsForProgram_run, gpuSet3FloatsForProgram_run, gpuSet4FloatsForProgram_run, gpuSetIntForProgram_run, gpuSet2IntsForProgram_run, gpuSet3IntsForProgram_run, gpuSet4IntsForProgram_run, gpuSetVector2ForProgram_run, gpuSetVector3ForProgram_run, gpuSetVector4ForProgram_run, gpuSetFloatArrayForProgram_run, gpuSetVector2ArrayForProgram_run, gpuSetVector3ArrayForProgram_run, gpuSetVector4ArrayForProgram_run, gpuSetIntArrayForProgram_run, gpuSetIntVector2ArrayForProgram_run, gpuSetIntVector3ArrayForProgram_run, gpuSetIntVector4ArrayForProgram_run, gpuSsetMatrix2x2ForProgram_run, gpuSetMatrix3x3ForProgram_run, gpuSetMatrix4x4ForProgram_run, gpuSetMatrix2x2ArrayForProgram_run, gpuSetMatrix3x3ArrayForProgram_run, gpuSetMatrix4x4ArrayForProgram_run, setterOutcome, hv]

theorem setNthTexture_events (k : Fin 7) (texture : GPUTexture) (program : GPUProgram)
    (h : List Event) : (setNthTexture k texture program h).2 = [] := by
  fin_cases k <;> rfl

/-- C3, as amended: every operation rejects invalid handles with respect to the
flags its code tests.  These are all handle arguments for render, upload,
get-framebuffer-contents and the uniform setters; for
render-framebuffer-to-framebuffer the source is tested through the valid flag
of its embedded texture and reported as InvalidTexture.  The size query and
the set-Nth-texture functions test no flag and return no status; they issue no
event on any handle. -/
theorem invalid_handle_rejected_where_tested (d : Driver) (h : List Event) (op : Op) :
    op.rejectsInvalid d h op.tested
    ∧ (∀ framebuffer : GPUFramebuffer, Op.run d h (.getSize framebuffer) = (none, []))
    ∧ (∀ (k : Fin 7) (texture : GPUTexture) (program : GPUProgram),
        Op.run d h (.setTexture k texture program) = (none, [])) := by
  refine ⟨?_, ?_, ?_⟩
  · intro s hs
    cases op with
    | render texture framebuffer program =>
        simp only [Op.tested, firstInvalid] at hs
        split_ifs at hs with h1 h2 h3 <;>
          simp_all [Op.run, gpuRenderTextureToFramebufferUsingProgram]
    | renderFramebuffer source target program =>
        simp only [Op.tested, firstInvalid] at hs
        split_ifs at hs with h1 h2 h3 <;>
          simp_all [Op.run, gpuRenderFramebufferToFramebufferUsingProgram,
            gpuRenderTextureToFramebufferUsingProgram]
    | upload width height colorFormat pixelData texture =>
        simp only [Op.tested, firstInvalid] at hs
        split_ifs at hs with h1
        simp_all [Op.run, gpuUploadImageToTexture]
    | getContents framebuffer rgbaData colorFormat =>
        simp only [Op.tested, firstInvalid] at hs
        split_ifs at hs with h1
        simp_all [Op.run, gpuGetFramebufferContents]
    | getSize framebuffer => simp [Op.tested, firstInvalid] at hs
    | setUniform call name program =>
        simp only [Op.tested, firstInvalid] at hs
        split_ifs at hs with h1
        simp_all [Op.run, UniformCall.run_invalid]
    | setTexture k texture program => simp [Op.tested, firstInvalid] at hs
  · intro framebuffer
    simp [Op.run, gpuGetFramebufferSizeInBytes]
  · intro k texture program
    simp [Op.run, setNthTexture_events]

/-- Witness for C3 as amended: render on a cleared texture handle returns
InvalidTexture and issues nothing. -/
theorem invalid_handle_rejected_where_tested_witness :
    Op.run sampleDriver [] (.render GPUTexture.zero sampleFramebuffer sampleProgram)
      = (some GPUStatusInvalidTexture, []) :=
  (invalid_handle_rejected_where_tested sampleDriver []
    (.render GPUTexture.zero sampleFramebuffer sampleProgram)).1 GPUStatusInvalidTexture rfl

/-- C3 as stated fails: measured against all handle arguments, three
operations do not reject an invalid handle.  Filling slot 0 of a cleared
program handle returns no status; the size query on a cleared framebuffer
handle returns no status; and render-framebuffer-to-framebuffer from a source
whose own flag is 0 but whose texture is valid returns OK. -/
theorem invalid_handle_not_always_rejected :
    ¬ Op.rejectsInvalid sampleDriver [] (.setTexture 0 sampleTexture GPUProgram.zero)
        (Op.handles (.setTexture 0 sampleTexture GPUProgram.zero))
    ∧ ¬ Op.rejectsInvalid sampleDriver [] (.getSize GPUFramebuffer.zero)
        (Op.handles (.getSize GPUFramebuffer.zero))
    ∧ ¬ Op.rejectsInvalid sampleDriver []
        (.renderFramebuffer halfValidFramebuffer sampleFramebuffer sampleProgram)
        (Op.handles (.renderFramebuffer halfValidFramebuffer sampleFramebuffer sampleProgram)) := by
  refine ⟨?_, ?_, ?_⟩
  · intro H
    exact absurd (congrArg Prod.fst (H GPUStatusInvalidProgram rfl)) (by decide)
  · intro H
    exact absurd (congrArg Prod.fst (H GPUStatusInvalidFramebuffer rfl)) (by decide)
  · intro H
    exact absurd (congrArg Prod.fst (H GPUStatusInvalidFramebuffer rfl)) (by decide)

/-! ## Destroy -/

/-- C4: destroy is idempotent for the three handle types.  On a handle with
`valid = 0` it returns the handle unchanged and issues nothing; on a handle
with `valid ≠ 0` it clears `valid` (for a framebuffer also the flag of the
embedded texture) and issues one delete call for each driver object of the
handle; and destroy followed by destroy leaves the same handle and the same
events as one destroy. -/
theorem destroy_idempotent (texture : GPUTexture) (framebuffer : GPUFramebuffer)
    (program : GPUProgram) (h : List Event) :
    (texture.valid = 0 → gpuDestroyTexture texture h = (texture, []))
    ∧ (texture.valid ≠ 0 →
        gpuDestroyTexture texture h
          = ({ texture with valid := 0 }, [.glDeleteTextures 1 texture.textureId]))
    ∧ (gpuDestroyTexture texture >>= gpuDestroyTexture) h = gpuDestroyTexture texture h
    ∧ (framebuffer.valid = 0 → gpuDestroyFramebuffer framebuffer h = (framebuffer, []))
    ∧ (framebuffer.valid ≠ 0 →
        gpuDestroyFramebuffer framebuffer h
          = ({ framebuffer with valid := 0, texture := { framebuffer.texture with valid := 0 } },
             [.glDeleteFramebuffers 1 framebuffer.framebufferId,
              .glDeleteTextures 1 framebuffer.texture.textureId]))
    ∧ (gpuDestroyFramebuffer framebuffer >>= gpuDestroyFramebuffer) h
        = gpuDestroyFramebuffer framebuffer h
    ∧ (program.valid = 0 → gpuDestroyProgram program h = (program, []))
    ∧ (program.valid ≠ 0 →
        gpuDestroyProgram program h
          = ({ program with valid := 0 }, [.glDeleteProgram program.programId]))
    ∧ (gpuDestroyProgram program >>= gpuDestroyProgram) h = gpuDestroyProgram program h := by
  refine ⟨?_, ?_, ?_, ?_, ?_, ?_, ?_, ?_, ?_⟩
  · intro hv; simp [gpuDestroyTexture, hv]
  · intro hv; simp [gpuDestroyTexture, hv]
  · by_cases hv : texture.valid = 0 <;> simp [gpuDestroyTexture, hv]
  · intro hv; simp [gpuDestroyFramebuffer, hv]
  · intro hv; simp [gpuDestroyFramebuffer, hv]
  · by_cases hv : framebuffer.valid = 0 <;> simp [gpuDestroyFramebuffer, hv]
  · intro hv; simp [gpuDestroyProgram, hv]
  · intro hv; simp [gpuDestroyProgram, hv]
  · by_cases hv : program.valid = 0 <;> simp [gpuDestroyProgram, hv]

/-- Witness for C4: destroying the sample framebuffer deletes framebuffer 9 and
texture 6 once each, and a cleared handle is left alone. -/
theorem destroy_idempotent_witness :
    gpuDestroyFramebuffer sampleFramebuffer []
        = ({ valid := 0, framebufferId := 9,
             texture := { valid := 0, textureId := 6, width := 4, height := 4 } },
           [.glDeleteFramebuffers 1 9, .glDeleteTextures 1 6])
    ∧ gpuDestroyTexture GPUTexture.zero [] = (GPUTexture.zero, []) :=
  ⟨(destroy_idempotent sampleTexture sampleFramebuffer sampleProgram []).2.2.2.2.1 (by decide),
   (destroy_idempotent GPUTexture.zero sampleFramebuffer sampleProgram []).1 rfl⟩

/-! ## Texture upload -/

/-- C5: on an invalid texture `gpuUploadImageToTexture` returns InvalidTexture,
issues nothing and leaves the handle (so its width and height) unchanged.  On
a valid texture the handle afterwards has the given width and height and its
old `valid` and `textureId`, whatever the driver answers; the call ends with
one `glGetError` query, and the status is UnknownError exactly when that query
does not answer `GL_NO_ERROR` and OK exactly when it does. -/
theorem upload_sets_size (d : Driver) (width height : Nat) (colorFormat : Int)
    (pixelData : Option (List Nat)) (texture : GPUTexture) (h : List Event) :
    (texture.valid = 0 →
        gpuUploadImageToTexture d width height colorFormat pixelData texture h
          = ((GPUStatusInvalidTexture, texture), []))
    ∧ (texture.valid ≠ 0 →
        (gpuUploadImageToTexture d width height colorFormat pixelData texture h).1.2
          = { valid := texture.valid, textureId := texture.textureId,
              width := width, height := height }
        ∧ ∃ error : Nat,
            (gpuUploadImageToTexture d width height colorFormat pixelData texture h).2
              = [.glActiveTexture GL_TEXTURE0,
                 .glBindTexture GL_TEXTURE_2D texture.textureId,
                 .glTexImage2D GL_TEXTURE_2D 0 (gpuColorFormatToGLFormat colorFormat)
                    width height 0 GL_RGBA GL_UNSIGNED_BYTE pixelData,
                 .glGetError error]
            ∧ ((gpuUploadImageToTexture d width height colorFormat pixelData texture h).1.1
                  = GPUStatusUnknownError ↔ error ≠ GL_NO_ERROR)
            ∧ ((gpuUploadImageToTexture d width height colorFormat pixelData texture h).1.1
                  = GPUStatusOK ↔ error = GL_NO_ERROR)) := by
  constructor
  · intro hv; simp [gpuUploadImageToTexture, hv]
  · intro hv
    by_cases he : d.glGetError (h ++ [Event.glActiveTexture GL_TEXTURE0,
        Event.glBindTexture GL_TEXTURE_2D texture.textureId,
        Event.glTexImage2D GL_TEXTURE_2D 0 (gpuColorFormatToGLFormat colorFormat)
              width height 0 GL_RGBA GL_UNSIGNED_BYTE pixelData]) = GL_NO_ERROR
    · simp [gpuUploadImageToTexture, hv, he]
    · simp [gpuUploadImageToTexture, hv, he]

/-- Witness for C5: when the driver rejects the upload the sample texture still
takes the new size 8 x 8 and keeps its flag and its name. -/
theorem upload_sets_size_witness :
    (gpuUploadImageToTexture rejectingDriver 8 8 GPUColorFormatRGBA none sampleTexture []).1.2
        = { valid := 1, textureId := 5, width := 8, height := 8 }
    ∧ gpuUploadImageToTexture sampleDriver 8 8 GPUColorFormatRGBA none GPUTexture.zero []
        = ((GPUStatusInvalidTexture, GPUTexture.zero), []) :=
  ⟨((upload_sets_size rejectingDriver 8 8 GPUColorFormatRGBA none sampleTexture []).2
      (by decide)).1,
   (upload_sets_size sampleDriver 8 8 GPUColorFormatRGBA none GPUTexture.zero []).1 rfl⟩

/-- C6 fails on the code: uploading with colour format RGB (and likewise BGRA)
to the valid sample texture issues `glTexImage2D` with internal format `GL_RGB`
(`GL_BGRA`), not `GL_RGBA`, while the source pixel layout argument is `GL_RGBA`
in both calls.  The colour format reaches the internal-format argument and the
source layout is constant, the reverse of the claim. -/
theorem upload_internal_format_follows_colorFormat :
    (gpuUploadImageToTexture sampleDriver 1 1 GPUColorFormatRGB (some [10, 20, 30])
        sampleTexture []).2
      = [.glActiveTexture GL_TEXTURE0, .glBindTexture GL_TEXTURE_2D 5,
         .glTexImage2D GL_TEXTURE_2D 0 GL_RGB 1 1 0 GL_RGBA GL_UNSIGNED_BYTE
            (some [10, 20, 30]),
         .glGetError 0]
    ∧ (gpuUploadImageToTexture sampleDriver 1 1 GPUColorFormatBGRA (some [30, 20, 10, 255])
        sampleTexture []).2
      = [.glActiveTexture GL_TEXTURE0, .glBindTexture GL_TEXTURE_2D 5,
         .glTexImage2D GL_TEXTURE_2D 0 GL_BGRA 1 1 0 GL_RGBA GL_UNSIGNED_BYTE
            (some [30, 20, 10, 255]),
         .glGetError 0]
    ∧ GL_RGB ≠ GL_RGBA ∧ GL_BGRA ≠ GL_RGBA := by
  refine ⟨rfl, rfl, by decide, by decide⟩

/-! ## Framebuffer creation -/

/-- C8: `gpuCreateFramebuffer` always queries the framebuffer status, and the
first answer decides the outcome for every width, height and prior handle
content.  The status is FailedToMakeFramebufferObjectError exactly when that
answer is not `GL_FRAMEBUFFER_COMPLETE`, and then `valid = 0` and
`texture.valid = 0`; it is OK exactly when the answer is
`GL_FRAMEBUFFER_COMPLETE`, and then `valid = 1`, `texture.valid = 1` and the
texture has the given width and height.  No third status occurs. -/
theorem createFramebuffer_status (d : Driver) (width height : Nat)
    (framebuffer : GPUFramebuffer) (h : List Event) :
    ((gpuCreateFramebuffer d width height framebuffer h).2.findSome? Event.framebufferStatus).isSome
    ∧ ((gpuCreateFramebuffer d width height framebuffer h).1.1
          = GPUStatusFailedToMakeFramebufferObjectError
        ↔ (gpuCreateFramebuffer d width height framebuffer h).2.findSome? Event.framebufferStatus
            ≠ some GL_FRAMEBUFFER_COMPLETE)
    ∧ ((gpuCreateFramebuffer d width height framebuffer h).1.1 = GPUStatusOK
        ↔ (gpuCreateFramebuffer d width height framebuffer h).2.findSome? Event.framebufferStatus
            = some GL_FRAMEBUFFER_COMPLETE)
    ∧ ((gpuCreateFramebuffer d width height framebuffer h).1.1
          = GPUStatusFailedToMakeFramebufferObjectError →
        (gpuCreateFramebuffer d width height framebuffer h).1.2.valid = 0
        ∧ (gpuCreateFramebuffer d width height framebuffer h).1.2.texture.valid = 0)
    ∧ ((gpuCreateFramebuffer d width height framebuffer h).1.1 = GPUStatusOK →
        (gpuCreateFramebuffer d width height framebuffer h).1.2.valid = 1
        ∧ (gpuCreateFramebuffer d width height framebuffer h).1.2.texture.valid = 1
        ∧ (gpuCreateFramebuffer d width height framebuffer h).1.2.texture.width = width
        ∧ (gpuCreateFramebuffer d width height framebuffer h).1.2.texture.height = height) := by
  simp only [gpuCreateFramebuffer, bind_run, emit_run, query_run, pure_run, ite_run]
  split_ifs with hc <;> simp at hc <;>
    simp [Event.framebufferStatus, List.findSome?, hc, GPUTexture.zero]

/-- Witness for C8: on the rejecting driver a previously valid handle comes
back with both flags 0; on the sample driver it comes back valid with the
requested size. -/
theorem createFramebuffer_status_witness :
    ((gpuCreateFramebuffer rejectingDriver 16 9 sampleFramebuffer []).1.2.valid = 0
      ∧ (gpuCreateFramebuffer rejectingDriver 16 9 sampleFramebuffer []).1.2.texture.valid = 0)
    ∧ ((gpuCreateFramebuffer sampleDriver 16 9 GPUFramebuffer.zero []).1.2.valid = 1
      ∧ (gpuCreateFramebuffer sampleDriver 16 9 GPUFramebuffer.zero []).1.2.texture.valid = 1
      ∧ (gpuCreateFramebuffer sampleDriver 16 9 GPUFramebuffer.zero []).1.2.texture.width = 16
      ∧ (gpuCreateFramebuffer sampleDriver 16 9 GPUFramebuffer.zero []).1.2.texture.height = 9) :=
  ⟨(createFramebuffer_status rejectingDriver 16 9 sampleFramebuffer []).2.2.2.1 (by decide),
   (createFramebuffer_status sampleDriver 16 9 GPUFramebuffer.zero []).2.2.2.2 (by decide)⟩

/-! ## Program compilation: failure paths -/

theorem gpuCompileShader_traffic (d : Driver) (type : Nat) (sourceCode : String)
    (logFunc : Option Nat) (h : List Event) :
    ((gpuCompileShader d type sourceCode logFunc h).1.1 = 0
      ∧ (gpuCompileShader d type sourceCode logFunc h).2.filterMap Event.deletedShader
          = [(gpuCompileShader d type sourceCode logFunc h).1.2]
      ∧ (gpuCompileShader d type sourceCode logFunc h).2.any Event.compileFailed = true
     ∨ (gpuCompileShader d type sourceCode logFunc h).1.1 = 1
      ∧ (gpuCompileShader d type sourceCode logFunc h).2.filterMap Event.deletedShader = []
      ∧ (gpuCompileShader d type sourceCode logFunc h).2.any Event.compileFailed = false)
    ∧ (gpuCompileShader d type sourceCode logFunc h).2.filterMap Event.createdShader
        = [(gpuCompileShader d type sourceCode logFunc h).1.2]
    ∧ (gpuCompileShader d type sourceCode logFunc h).2.filterMap Event.createdProgram = []
    ∧ (gpuCompileShader d type sourceCode logFunc h).2.filterMap Event.deletedProgram = []
    ∧ (gpuCompileShader d type sourceCode logFunc h).2.any Event.isLink = false
    ∧ (gpuCompileShader d type sourceCode logFunc h).2.any Event.linkFailed = false := by
  simp only [gpuCompileShader, bind_run, emit_run, query_run, pure_run, ite_run]
  split_ifs with h1 h2 <;> simp at h1 <;> cases logFunc <;>
    simp [Event.createdShader, Event.deletedShader, Event.createdProgram,
      Event.deletedProgram, Event.isLink, Event.compileFailed, Event.linkFailed, h1]

theorem gpuLinkProgram_traffic (d : Driver) (program : Nat) (h : List Event) :
    ((gpuLinkProgram d program h).1 = 0
      ∧ (gpuLinkProgram d program h).2.any Event.linkFailed = true
     ∨ (gpuLinkProgram d program h).1 = 1
      ∧ (gpuLinkProgram d program h).2.any Event.linkFailed = false)
    ∧ (gpuLinkProgram d program h).2.filterMap Event.createdShader = []
    ∧ (gpuLinkProgram d program h).2.filterMap Event.deletedShader = []
    ∧ (gpuLinkProgram d program h).2.filterMap Event.createdProgram = []
    ∧ (gpuLinkProgram d program h).2.filterMap Event.deletedProgram = []
    ∧ (gpuLinkProgram d program h).2.any Event.compileFailed = false := by
  simp only [gpuLinkProgram, bind_run, emit_run, query_run, pure_run, ite_run]
  split_ifs with h1 h2 <;> simp at h1 <;>
    simp [Event.createdShader, Event.deletedShader, Event.createdProgram,
      Event.deletedProgram, Event.isLink, Event.compileFailed, Event.linkFailed, h1]

/-- Trace-level form of the failure contract: the outcome of
`gpuCompileProgram` satisfies `ReleasesOnFailure` for every driver. -/
theorem compile_failure_trace (d : Driver) (vertexShaderCode fragmentShaderCode : String)
    (program : GPUProgram) (logFunc : Option Nat) (h : List Event) :
    ReleasesOnFailure
      (gpuCompileProgram d vertexShaderCode fragmentShaderCode program logFunc h) := by
  have hV := gpuCompileShader_traffic d GL_VERTEX_SHADER vertexShaderCode logFunc
    (h ++ [Event.glCreateProgram (d.glCreateProgram h)])
  rcases hVeq : gpuCompileShader d GL_VERTEX_SHADER vertexShaderCode logFunc
    (h ++ [Event.glCreateProgram (d.glCreateProgram h)]) with ⟨⟨vok, vsh⟩, vev⟩
  rw [hVeq] at hV
  have hF := gpuCompileShader_traffic d GL_FRAGMENT_SHADER fragmentShaderCode logFunc
    (h ++ [Event.glCreateProgram (d.glCreateProgram h)] ++ vev)
  rcases hFeq : gpuCompileShader d GL_FRAGMENT_SHADER fragmentShaderCode logFunc
    (h ++ [Event.glCreateProgram (d.glCreateProgram h)] ++ vev) with ⟨⟨fok, fsh⟩, fev⟩
  rw [hFeq] at hF
  have hL := gpuLinkProgram_traffic d (d.glCreateProgram h)
    (h ++ [Event.glCreateProgram (d.glCreateProgram h)] ++ vev ++ fev
      ++ [Event.glAttachShader (d.glCreateProgram h) vsh]
      ++ [Event.glAttachShader (d.glCreateProgram h) fsh]
      ++ [Event.glBindAttribLocation (d.glCreateProgram h) 0 "inputPosition"]
      ++ [Event.glBindAttribLocation (d.glCreateProgram h) 1 "inputUV"])
  rcases hLeq : gpuLinkProgram d (d.glCreateProgram h)
    (h ++ [Event.glCreateProgram (d.glCreateProgram h)] ++ vev ++ fev
      ++ [Event.glAttachShader (d.glCreateProgram h) vsh]
      ++ [Event.glAttachShader (d.glCreateProgram h) fsh]
      ++ [Event.glBindAttribLocation (d.glCreateProgram h) 0 "inputPosition"]
      ++ [Event.glBindAttribLocation (d.glCreateProgram h) 1 "inputUV"]) with ⟨lok, lev⟩
  rw [hLeq] at hL
  simp only at hV hF hL
  obtain ⟨hV1, hVc, hVcp, hVdp, hVl, hVlf⟩ := hV
  obtain ⟨hF1, hFc, hFcp, hFdp, hFl, hFlf⟩ := hF
  obtain ⟨hL1, hLcs, hLds, hLcp, hLdp, hLcf⟩ := hL
  unfold ReleasesOnFailure
  simp only [gpuCompileProgram, bind_run, emit_run, query_run, pure_run, ite_run, hVeq, hFeq,
    hLeq]
  rcases hV1 with ⟨hv, hVd, hVf⟩ | ⟨hv, hVd, hVf⟩
  · simp [hv, hVd, hVf, hVc, hVcp, hVdp, hVl, hVlf, Event.createdShader, Event.deletedShader,
      Event.createdProgram, Event.deletedProgram, Event.isLink, Event.compileFailed,
      Event.linkFailed]
  · rcases hF1 with ⟨hf, hFd, hFf⟩ | ⟨hf, hFd, hFf⟩
    · simp [hv, hVd, hVf, hVc, hVcp, hVdp, hVl, hVlf, hf, hFd, hFf, hFc, hFcp, hFdp, hFl, hFlf,
        Event.createdShader, Event.deletedShader,
        Event.createdProgram, Event.deletedProgram, Event.isLink, Event.compileFailed,
        Event.linkFailed]
      exact List.Perm.swap _ _ _
    · rcases hL1 with ⟨hl, hLf⟩ | ⟨hl, hLf⟩
      · simp [hv, hVd, hVf, hVc, hVcp, hVdp, hVl, hVlf, hf, hFd, hFf, hFc, hFcp, hFdp, hFl, hFlf,
          hl, hLf, hLcs, hLds, hLcp, hLdp, hLcf,
          Event.createdShader, Event.deletedShader,
          Event.createdProgram, Event.deletedProgram, Event.isLink, Event.compileFailed,
          Event.linkFailed]
      · simp [hv, hVd, hVf, hVc, hVcp, hVdp, hVl, hVlf, hf, hFd, hFf, hFc, hFcp, hFdp, hFl, hFlf,
          hl, hLf, hLcs, hLds, hLcp, hLdp, hLcf,
          Event.createdShader, Event.deletedShader,
          Event.createdProgram, Event.deletedProgram, Event.isLink, Event.compileFailed,
          Event.linkFailed]

theorem gpuCompileShader_answer (d : Driver) (type : Nat) (sourceCode : String)
    (logFunc : Option Nat) (h : List Event) :
    (gpuCompileShader d type sourceCode logFunc h).1
        = (if (d.glGetShaderiv
          (h ++ [Event.glCreateShader type (d.glCreateShader h type),
            Event.glShaderSource (d.glCreateShader h type) 1 sourceCode,
            Event.glCompileShader (d.glCreateShader h type)])
          (d.glCreateShader h type) GL_COMPILE_STATUS) = 0 then 0 else 1,
           (d.glCreateShader h type))
    ∧ (gpuCompileShader d type sourceCode logFunc h).2.filterMap Event.createdShader
        = [(d.glCreateShader h type)]
    ∧ (gpuCompileShader d type sourceCode logFunc h).2.filterMap Event.deletedShader
        = (if (d.glGetShaderiv
          (h ++ [Event.glCreateShader type (d.glCreateShader h type),
            Event.glShaderSource (d.glCreateShader h type) 1 sourceCode,
            Event.glCompileShader (d.glCreateShader h type)])
          (d.glCreateShader h type) GL_COMPILE_STATUS) = 0
           then [(d.glCreateShader h type)] else [])
    ∧ (gpuCompileShader d type sourceCode logFunc h).2.filterMap Event.compileStatus
        = [((d.glCreateShader h type), (d.glGetShaderiv
          (h ++ [Event.glCreateShader type (d.glCreateShader h type),
            Event.glShaderSource (d.glCreateShader h type) 1 sourceCode,
            Event.glCompileShader (d.glCreateShader h type)])
          (d.glCreateShader h type) GL_COMPILE_STATUS))]
    ∧ (gpuCompileShader d type sourceCode logFunc h).2.filterMap Event.createdProgram = []
    ∧ (gpuCompileShader d type sourceCode logFunc h).2.filterMap Event.deletedProgram = []
    ∧ (gpuCompileShader d type sourceCode logFunc h).2.filterMap Event.linkedProgram = []
    ∧ (gpuCompileShader d type sourceCode logFunc h).2.filterMap Event.linkStatus = []
    ∧ ((d.glGetShaderiv
          (h ++ [Event.glCreateShader type (d.glCreateShader h type),
            Event.glShaderSource (d.glCreateShader h type) 1 sourceCode,
            Event.glCompileShader (d.glCreateShader h type)])
          (d.glCreateShader h type) GL_COMPILE_STATUS) ≠ 0 →
        (gpuCompileShader d type sourceCode logFunc h).2
          = [Event.glCreateShader type (d.glCreateShader h type),
             Event.glShaderSource (d.glCreateShader h type) 1 sourceCode,
             Event.glCompileShader (d.glCreateShader h type),
             Event.glGetShaderiv (d.glCreateShader h type) GL_COMPILE_STATUS
               (d.glGetShaderiv
          (h ++ [Event.glCreateShader type (d.glCreateShader h type),
            Event.glShaderSource (d.glCreateShader h type) 1 sourceCode,
            Event.glCompileShader (d.glCreateShader h type)])
          (d.glCreateShader h type) GL_COMPILE_STATUS)]) := by
  by_cases hst : (d.glGetShaderiv
          (h ++ [Event.glCreateShader type (d.glCreateShader h type),
            Event.glShaderSource (d.glCreateShader h type) 1 sourceCode,
            Event.glCompileShader (d.glCreateShader h type)])
          (d.glCreateShader h type) GL_COMPILE_STATUS) = 0
  · simp only [gpuCompileShader, bind_run, emit_run, query_run, pure_run, ite_run]
    split_ifs with h1 h2 <;> simp at h1 <;> cases logFunc <;>
      simp_all [Event.createdShader, Event.deletedShader, Event.createdProgram,
        Event.deletedProgram, Event.linkedProgram, Event.compileStatus, Event.linkStatus, GL_COMPILE_STATUS, GL_INFO_LOG_LENGTH]
  · simp [gpuCompileShader, hst, Event.createdShader, Event.deletedShader, Event.createdProgram,
        Event.deletedProgram, Event.linkedProgram, Event.compileStatus, Event.linkStatus]

theorem gpuLinkProgram_answer (d : Driver) (program : Nat) (h : List Event) :
    (gpuLinkProgram d program h).1
        = (if d.glGetProgramiv (h ++ [Event.glLinkProgram program]) program GL_LINK_STATUS = 0
           then 0 else 1)
    ∧ (gpuLinkProgram d program h).2.filterMap Event.linkedProgram = [program]
    ∧ (gpuLinkProgram d program h).2.filterMap Event.linkStatus
        = [(program,
            d.glGetProgramiv (h ++ [Event.glLinkProgram program]) program GL_LINK_STATUS)]
    ∧ (gpuLinkProgram d program h).2.filterMap Event.createdShader = []
    ∧ (gpuLinkProgram d program h).2.filterMap Event.deletedShader = []
    ∧ (gpuLinkProgram d program h).2.filterMap Event.compileStatus = []
    ∧ (gpuLinkProgram d program h).2.filterMap Event.createdProgram = []
    ∧ (gpuLinkProgram d program h).2.filterMap Event.deletedProgram = [] := by
  by_cases hst : d.glGetProgramiv (h ++ [Event.glLinkProgram program]) program GL_LINK_STATUS = 0
  · simp only [gpuLinkProgram, bind_run, emit_run, query_run, pure_run, ite_run]
    split_ifs with h1 <;> simp at h1 <;>
      simp_all [Event.createdShader, Event.deletedShader, Event.createdProgram,
        Event.deletedProgram, Event.linkedProgram, Event.compileStatus, Event.linkStatus, GL_LINK_STATUS, GL_INFO_LOG_LENGTH]
  · simp [gpuLinkProgram, hst, Event.createdShader, Event.deletedShader, Event.createdProgram,
        Event.deletedProgram, Event.linkedProgram, Event.compileStatus, Event.linkStatus]

theorem compile_failure_by_answers (d : Driver) (vertexShaderCode fragmentShaderCode : String)
    (program : GPUProgram) (logFunc : Option Nat) (h : List Event) :
    FailsWithDriver (compileAnswers d h vertexShaderCode fragmentShaderCode)
      (gpuCompileProgram d vertexShaderCode fragmentShaderCode program logFunc h) := by
  have hV := gpuCompileShader_answer d GL_VERTEX_SHADER vertexShaderCode logFunc
    (h ++ [Event.glCreateProgram (d.glCreateProgram h)])
  rcases hVeq : gpuCompileShader d GL_VERTEX_SHADER vertexShaderCode logFunc
    (h ++ [Event.glCreateProgram (d.glCreateProgram h)]) with ⟨⟨vok, vsh⟩, vev⟩
  rw [hVeq] at hV
  have hF := gpuCompileShader_answer d GL_FRAGMENT_SHADER fragmentShaderCode logFunc
    (h ++ [Event.glCreateProgram (d.glCreateProgram h)] ++ vev)
  rcases hFeq : gpuCompileShader d GL_FRAGMENT_SHADER fragmentShaderCode logFunc
    (h ++ [Event.glCreateProgram (d.glCreateProgram h)] ++ vev) with ⟨⟨fok, fsh⟩, fev⟩
  rw [hFeq] at hF
  have hL := gpuLinkProgram_answer d (d.glCreateProgram h)
    (h ++ [Event.glCreateProgram (d.glCreateProgram h)] ++ vev ++ fev
      ++ [Event.glAttachShader (d.glCreateProgram h) vsh]
      ++ [Event.glAttachShader (d.glCreateProgram h) fsh]
      ++ [Event.glBindAttribLocation (d.glCreateProgram h) 0 "inputPosition"]
      ++ [Event.glBindAttribLocation (d.glCreateProgram h) 1 "inputUV"])
  rcases hLeq : gpuLinkProgram d (d.glCreateProgram h)
    (h ++ [Event.glCreateProgram (d.glCreateProgram h)] ++ vev ++ fev
      ++ [Event.glAttachShader (d.glCreateProgram h) vsh]
      ++ [Event.glAttachShader (d.glCreateProgram h) fsh]
      ++ [Event.glBindAttribLocation (d.glCreateProgram h) 0 "inputPosition"]
      ++ [Event.glBindAttribLocation (d.glCreateProgram h) 1 "inputUV"]) with ⟨lok, lev⟩
  rw [hLeq] at hL
  simp only at hV hF hL
  obtain ⟨hVr, hVc, hVd, hVs, hVcp, hVdp, hVl, hVls, hVe⟩ := hV
  obtain ⟨hvok, hvsh⟩ := Prod.mk.inj hVr
  subst hvsh
  unfold FailsWithDriver
  simp only [compileAnswers]
  refine ⟨?_, ?_, ?_, ?_⟩
  · intro hvs
    rw [if_pos hvs] at hvok hVd
    rw [hvs] at hVs
    subst hvok
    simp only [gpuCompileProgram, bind_run, emit_run, query_run, pure_run, ite_run, hVeq,
      after_fst, after_snd, after_mk, after_ite]
    simp [hVc, hVd, hVs, hVcp, hVdp, hVl, hVls, Event.createdShader, Event.deletedShader, Event.createdProgram,
        Event.deletedProgram, Event.linkedProgram, Event.compileStatus, Event.linkStatus]
  · intro hvs hfs
    rw [if_neg hvs] at hvok hVd
    subst hvok
    have hVe2 := hVe hvs
    subst hVe2
    obtain ⟨hFr, hFc, hFd, hFs, hFcp, hFdp, hFl, hFls, hFe⟩ := hF
    obtain ⟨hfok, hfsh⟩ := Prod.mk.inj hFr
    subst hfsh
    rw [if_pos hfs] at hfok hFd
    rw [hfs] at hFs
    subst hfok
    simp only [gpuCompileProgram, bind_run, emit_run, query_run, pure_run, ite_run, hVeq, hFeq,
      after_fst, after_snd, after_mk, after_ite]
    simp [hFc, hFd, hFs, hFcp, hFdp, hFl, hFls, Event.createdShader, Event.deletedShader, Event.createdProgram,
        Event.deletedProgram, Event.linkedProgram, Event.compileStatus, Event.linkStatus, GL_COMPILE_STATUS]
  · intro hvs hfs hls
    rw [if_neg hvs] at hvok hVd
    subst hvok
    have hVe2 := hVe hvs
    subst hVe2
    obtain ⟨hFr, hFc, hFd, hFs, hFcp, hFdp, hFl, hFls, hFe⟩ := hF
    obtain ⟨hfok, hfsh⟩ := Prod.mk.inj hFr
    subst hfsh
    rw [if_neg hfs] at hfok hFd
    subst hfok
    have hFe2 := hFe hfs
    subst hFe2
    obtain ⟨hLr, hLl, hLls, hLc, hLd, hLs, hLcp, hLdp⟩ := hL
    rw [if_pos hls] at hLr
    rw [hls] at hLls
    subst hLr
    simp only [gpuCompileProgram, bind_run, emit_run, query_run, pure_run, ite_run, hVeq, hFeq,
      hLeq, after_fst, after_snd, after_mk, after_ite]
    simp [hLl, hLls, hLc, hLd, hLs, hLcp, hLdp, Event.createdShader, Event.deletedShader, Event.createdProgram,
        Event.deletedProgram, Event.linkedProgram, Event.compileStatus, Event.linkStatus, GL_COMPILE_STATUS]
  · intro hvs hfs hls
    rw [if_neg hvs] at hvok hVd
    subst hvok
    have hVe2 := hVe hvs
    subst hVe2
    obtain ⟨hFr, hFc, hFd, hFs, hFcp, hFdp, hFl, hFls, hFe⟩ := hF
    obtain ⟨hfok, hfsh⟩ := Prod.mk.inj hFr
    subst hfsh
    rw [if_neg hfs] at hfok hFd
    subst hfok
    have hFe2 := hFe hfs
    subst hFe2
    obtain ⟨hLr, hLl, hLls, hLc, hLd, hLs, hLcp, hLdp⟩ := hL
    rw [if_neg hls] at hLr
    subst hLr
    simp only [gpuCompileProgram, bind_run, emit_run, query_run, pure_run, ite_run, hVeq, hFeq,
      hLeq, after_fst, after_snd, after_mk, after_ite]
    simp

/-- C9: for every pair of shader sources, prior handle content, log callback,
history and driver, the outcome of `gpuCompileProgram` satisfies
`FailsWithDriver` for the answers of that driver and `ReleasesOnFailure`.
When the driver answers 0 to the compile-status query of the vertex stage, or
of the fragment stage, or to the link-status query, the function returns
UnknownError with `valid = 0`; the program and every shader it created are
each deleted exactly once; `glLinkProgram` is not issued when a stage failed
to compile; and UnknownError is returned only when the trace holds a status
query answered 0. -/
theorem compile_failure_releases (d : Driver) (vertexShaderCode fragmentShaderCode : String)
    (program : GPUProgram) (logFunc : Option Nat) (h : List Event) :
    FailsWithDriver (compileAnswers d h vertexShaderCode fragmentShaderCode)
      (gpuCompileProgram d vertexShaderCode fragmentShaderCode program logFunc h)
    ∧ ReleasesOnFailure
      (gpuCompileProgram d vertexShaderCode fragmentShaderCode program logFunc h) :=
  ⟨compile_failure_by_answers d vertexShaderCode fragmentShaderCode program logFunc h,
   compile_failure_trace d vertexShaderCode fragmentShaderCode program logFunc h⟩

/-- Witness for C9: on the driver whose first shader (name 2) compiles and
whose second shader (name 6) does not, the outcome is UnknownError with
`valid = 0`; program 1 is created and deleted; shaders 2 and 6 are created and
both deleted; both compile-status queries are in the trace; and neither
`glLinkProgram` nor a link-status query is issued. -/
theorem compile_failure_releases_witness :
    (compileAnswers fragmentFailDriver [] "void main() {}" "void main() { oops }").vertexStatus ≠ 0
    ∧ (compileAnswers fragmentFailDriver [] "void main() {}" "void main() { oops }").fragmentStatus = 0
    ∧ (gpuCompileProgram fragmentFailDriver "void main() {}" "void main() { oops }"
        sampleProgram (some 1) []).1.1 = GPUStatusUnknownError
    ∧ (gpuCompileProgram fragmentFailDriver "void main() {}" "void main() { oops }"
        sampleProgram (some 1) []).1.2.valid = 0
    ∧ (gpuCompileProgram fragmentFailDriver "void main() {}" "void main() { oops }"
        sampleProgram (some 1) []).2.filterMap Event.createdProgram = [1]
    ∧ (gpuCompileProgram fragmentFailDriver "void main() {}" "void main() { oops }"
        sampleProgram (some 1) []).2.filterMap Event.deletedProgram = [1]
    ∧ (gpuCompileProgram fragmentFailDriver "void main() {}" "void main() { oops }"
        sampleProgram (some 1) []).2.filterMap Event.createdShader = [2, 6]
    ∧ (gpuCompileProgram fragmentFailDriver "void main() {}" "void main() { oops }"
        sampleProgram (some 1) []).2.filterMap Event.deletedShader = [6, 2]
    ∧ (gpuCompileProgram fragmentFailDriver "void main() {}" "void main() { oops }"
        sampleProgram (some 1) []).2.filterMap Event.compileStatus = [(2, 1), (6, 0)]
    ∧ (gpuCompileProgram fragmentFailDriver "void main() {}" "void main() { oops }"
        sampleProgram (some 1) []).2.filterMap Event.linkedProgram = []
    ∧ (gpuCompileProgram fragmentFailDriver "void main() {}" "void main() { oops }"
        sampleProgram (some 1) []).2.filterMap Event.linkStatus = [] :=
  ⟨by decide, by decide,
   (compile_failure_releases fragmentFailDriver "void main() {}" "void main() { oops }"
      sampleProgram (some 1) []).1.2.1 (by decide) (by decide)⟩

/-! ## Additional textures -/

/-- C10: for every slot `k` in 0..6 the matching set-Nth-texture function sets
`textureShouldBeUsed = 1` and a copy of the given texture in slot `k`, keeps
the `uniformLocation` of slot `k`, every other slot, `valid`, `programId` and
`textureUniformLocation`, leaves the source texture as it was, and issues no
event. -/
theorem setNthTexture_frame (k : Fin 7) (texture : GPUTexture) (program : GPUProgram)
    (h : List Event) :
    (setNthTexture k texture program h).2 = []
    ∧ (setNthTexture k texture program h).1.1 = texture
    ∧ ((setNthTexture k texture program h).1.2.additionalTextures k).textureShouldBeUsed = 1
    ∧ ((setNthTexture k texture program h).1.2.additionalTextures k).texture = texture
    ∧ ((setNthTexture k texture program h).1.2.additionalTextures k).uniformLocation
        = (program.additionalTextures k).uniformLocation
    ∧ (∀ j : Fin 7, j ≠ k →
        (setNthTexture k texture program h).1.2.additionalTextures j
          = program.additionalTextures j)
    ∧ (setNthTexture k texture program h).1.2.valid = program.valid
    ∧ (setNthTexture k texture program h).1.2.programId = program.programId
    ∧ (setNthTexture k texture program h).1.2.textureUniformLocation
        = program.textureUniformLocation := by
  fin_cases k <;>
    simp [setNthTexture, gpuSetSecondTextureForProgram, gpuSetThirdTextureForProgram,
      gpuSetFourthTextureForProgram, gpuSsetFifthTextureForProgram,
      gpuSetSixthTextureForProgram, gpuSetSeventhTextureForProgram,
      gpuSetEigthTextureForProgram, GPUProgram.setTexture, GPUProgram.setTextureShouldBeUsed] <;>
    intro j hj <;> simp [Function.update, hj]

/-- Witness for C10: filling slot 2 leaves slot 0 of the sample program as it
was. -/
theorem setNthTexture_frame_witness :
    (setNthTexture 2 sampleTexture sampleProgram []).1.2.additionalTextures 0
      = sampleProgram.additionalTextures 0 :=
  (setNthTexture_frame 2 sampleTexture sampleProgram []).2.2.2.2.2.1 0 (by decide)

/-! ## Render: texture bindings -/

set_option maxHeartbeats 1000000 in
theorem render_trace (texture : GPUTexture) (framebuffer : GPUFramebuffer)
    (program : GPUProgram) (h : List Event) (unit : Nat)
    (ht : texture.valid ≠ 0) (hf : framebuffer.valid ≠ 0) (hp : program.valid ≠ 0) :
    textureBindings unit
        (gpuRenderTextureToFramebufferUsingProgram texture framebuffer program h).2
      = (GL_TEXTURE0, texture.textureId)
          :: (usedSlots program).map
              (fun i => (GL_TEXTURE0 + i.val + 1, (program.additionalTextures i).texture.textureId))
    ∧ (gpuRenderTextureToFramebufferUsingProgram texture framebuffer program h).2.filterMap
          Event.samplerUniform
      = (program.textureUniformLocation, 0)
          :: (usedSlots program).map
              (fun i => ((program.additionalTextures i).uniformLocation, (i.val : Int) + 1))
    ∧ drawCalls unit (gpuRenderTextureToFramebufferUsingProgram texture framebuffer program h).2
      = [(GL_TRIANGLE_STRIP, 0, 4, GL_TEXTURE0)] := by
  simp only [gpuRenderTextureToFramebufferUsingProgram, renderAdditionalTexture, ht, hf, hp,
    if_false, bind_run, emit_run, pure_run, ite_run, after_snd, after_fst, after_mk, after_ite]
  by_cases h0 : (program.additionalTextures 0).textureShouldBeUsed = 0 <;>
  by_cases h1 : (program.additionalTextures 1).textureShouldBeUsed = 0 <;>
  by_cases h2 : (program.additionalTextures 2).textureShouldBeUsed = 0 <;>
  by_cases h3 : (program.additionalTextures 3).textureShouldBeUsed = 0 <;>
  by_cases h4 : (program.additionalTextures 4).textureShouldBeUsed = 0 <;>
  by_cases h5 : (program.additionalTextures 5).textureShouldBeUsed = 0 <;>
  by_cases h6 : (program.additionalTextures 6).textureShouldBeUsed = 0 <;>
  simp [h0, h1, h2, h3, h4, h5, h6, usedSlots, textureBindings, drawCalls, Event.unitAfter,
    Event.bindingAt, Event.drawAt, Event.samplerUniform]

theorem render_frame (texture : GPUTexture) (framebuffer : GPUFramebuffer)
    (program : GPUProgram) (h : List Event) :
    (gpuRenderTextureToFramebufferUsingProgram texture framebuffer program h).1.texture = texture
    ∧ (gpuRenderTextureToFramebufferUsingProgram texture framebuffer program h).1.framebuffer
        = framebuffer
    ∧ (gpuRenderTextureToFramebufferUsingProgram texture framebuffer program h).1.program
        = program := by
  simp only [gpuRenderTextureToFramebufferUsingProgram, ite_run, pure_run, bind_run, after_fst]
  split_ifs <;> simp

theorem render_status_ok (texture : GPUTexture) (framebuffer : GPUFramebuffer)
    (program : GPUProgram) (h : List Event)
    (ht : texture.valid ≠ 0) (hf : framebuffer.valid ≠ 0) (hp : program.valid ≠ 0) :
    (gpuRenderTextureToFramebufferUsingProgram texture framebuffer program h).1.status
      = GPUStatusOK := by
  simp [gpuRenderTextureToFramebufferUsingProgram, ht, hf, hp]

theorem mem_usedSlots (program : GPUProgram) (i : Fin 7) :
    i ∈ usedSlots program ↔ (program.additionalTextures i).textureShouldBeUsed ≠ 0 := by
  unfold usedSlots
  rw [List.mem_filter]
  constructor
  · intro hi; simpa using hi.2
  · intro hi
    refine ⟨?_, by simpa using hi⟩
    fin_cases i <;> simp

theorem usedSlots_all (program : GPUProgram)
    (hall : ∀ i : Fin 7, (program.additionalTextures i).textureShouldBeUsed ≠ 0) :
    usedSlots program = [0, 1, 2, 3, 4, 5, 6] := by
  unfold usedSlots
  simp [hall]

/-- C11: for valid texture, framebuffer and program the render returns OK and
its texture bindings are, in order, the source texture on unit `GL_TEXTURE0`
and then, for each slot `i` in use in increasing order, the texture recorded
in slot `i` on unit `GL_TEXTURE0 + i + 1`; slots not in use bind nothing.  The
`glUniform1i` calls set the primary location to 0 and the location of each
slot in use to `i + 1`, in the same order.  The number of bindings is 1 plus
the number of slots in use, the units are 0 to 7 in order when all seven are
in use, and there is exactly one draw call, a triangle strip of 4 vertices
from 0, issued while unit `GL_TEXTURE0` is selected.  Nothing depends on the
unit selected before the call. -/
theorem render_binds_textures_in_unit_order (texture : GPUTexture)
    (framebuffer : GPUFramebuffer) (program : GPUProgram) (h : List Event) (unit : Nat)
    (ht : texture.valid ≠ 0) (hf : framebuffer.valid ≠ 0) (hp : program.valid ≠ 0) :
    (gpuRenderTextureToFramebufferUsingProgram texture framebuffer program h).1.status
      = GPUStatusOK
    ∧ textureBindings unit
        (gpuRenderTextureToFramebufferUsingProgram texture framebuffer program h).2
      = (GL_TEXTURE0, texture.textureId)
          :: (usedSlots program).map
              (fun i => (GL_TEXTURE0 + i.val + 1, (program.additionalTextures i).texture.textureId))
    ∧ (gpuRenderTextureToFramebufferUsingProgram texture framebuffer program h).2.filterMap
          Event.samplerUniform
      = (program.textureUniformLocation, 0)
          :: (usedSlots program).map
              (fun i => ((program.additionalTextures i).uniformLocation, (i.val : Int) + 1))
    ∧ (textureBindings unit
        (gpuRenderTextureToFramebufferUsingProgram texture framebuffer program h).2).length
      = 1 + (usedSlots program).length
    ∧ ((∀ i : Fin 7, (program.additionalTextures i).textureShouldBeUsed ≠ 0) →
        (textureBindings unit
          (gpuRenderTextureToFramebufferUsingProgram texture framebuffer program h).2).map
            Prod.fst
          = [GL_TEXTURE0, GL_TEXTURE0 + 1, GL_TEXTURE0 + 2, GL_TEXTURE0 + 3, GL_TEXTURE0 + 4,
             GL_TEXTURE0 + 5, GL_TEXTURE0 + 6, GL_TEXTURE0 + 7])
    ∧ drawCalls unit (gpuRenderTextureToFramebufferUsingProgram texture framebuffer program h).2
      = [(GL_TRIANGLE_STRIP, 0, 4, GL_TEXTURE0)] := by
  obtain ⟨hb, hu, hd⟩ := render_trace texture framebuffer program h unit ht hf hp
  refine ⟨render_status_ok texture framebuffer program h ht hf hp, hb, hu, ?_, ?_, hd⟩
  · rw [hb]; simp; omega
  · intro hall
    rw [hb, usedSlots_all program hall]
    rfl

/-- Witness for C11: with all seven slots in use the eight bindings are the
source texture 5 on unit 0 and textures 21 to 27 on units 1 to 7. -/
theorem render_binds_textures_in_unit_order_witness :
    textureBindings GL_TEXTURE0
        (gpuRenderTextureToFramebufferUsingProgram sampleTexture sampleFramebuffer fullProgram
          []).2
      = [(GL_TEXTURE0, 5), (GL_TEXTURE0 + 1, 21), (GL_TEXTURE0 + 2, 22), (GL_TEXTURE0 + 3, 23),
         (GL_TEXTURE0 + 4, 24), (GL_TEXTURE0 + 5, 25), (GL_TEXTURE0 + 6, 26),
         (GL_TEXTURE0 + 7, 27)] :=
  (render_binds_textures_in_unit_order sampleTexture sampleFramebuffer fullProgram []
    GL_TEXTURE0 (by decide) (by decide) (by decide)).2.1.trans (by decide)

/-! ## Blank textures -/

theorem blankTexture_general (d : Driver) (width height : Nat) (texture : GPUTexture)
    (h : List Event) :
    (d.malloc h (width * height * 4 % 2 ^ 32) = false →
        gpuCreateBlankTexture d width height texture h
          = ((GPUStatusOutOfMemory, texture),
             [.malloc (width * height * 4 % 2 ^ 32) false]))
    ∧ (d.malloc h (width * height * 4 % 2 ^ 32) = true →
        (gpuCreateBlankTexture d width height texture h).2.filterMap Event.uploadedImage
          = [(width, height, GL_RGBA, GL_RGBA,
              some (List.replicate (width * height * 4 % 2 ^ 32) 0xff))]) := by
  constructor
  · intro hm
    simp at hm
    simp [gpuCreateBlankTexture, hm]
  · intro hm
    simp at hm
    simp only [gpuCreateBlankTexture, gpuCreateTextureFromImage, gpuCreateTexture,
      gpuUploadImageToTexture, bind_run, emit_run, query_run,
      pure_run, ite_run, after_snd, after_fst, after_mk, after_ite]
    simp [Event.uploadedImage, gpuColorFormatToGLFormat, GPUColorFormatRGBA, GPUColorFormatRGB,
      hm]
    split_ifs <;> simp [Event.uploadedImage]

/-- C12 fails on the code for sizes with `4 * width * height ≥ 2 ^ 32`: for a
blank texture of 32768 x 32769 pixels the allocation succeeds and the upload
is issued as RGBA with these dimensions, but the buffer handed to
`glTexImage2D` holds 131072 bytes, not the `4 * 32768 * 32769 = 4295098368`
bytes of the image, because `width * height * 4` is computed in `uint32_t`. -/
theorem blankTexture_buffer_wraps :
    (gpuCreateBlankTexture sampleDriver 32768 32769 GPUTexture.zero []).2.filterMap
        Event.uploadedImage
      = [(32768, 32769, GL_RGBA, GL_RGBA, some (List.replicate 131072 0xff))]
    ∧ (List.replicate 131072 0xff).length < 4 * 32768 * 32769 := by
  constructor
  · have hg := (blankTexture_general sampleDriver 32768 32769 GPUTexture.zero []).2 rfl
    rw [hg]; norm_num
  · rw [List.length_replicate]; norm_num

/-! ## Uniform setters: unresolved names -/

theorem UniformCall.run_outcome (d : Driver) (call : UniformCall) (name : String)
    (program : GPUProgram) (h : List Event) :
    ∃ push : Event, call.run d name program h
      = setterOutcome program name (d.glGetUniformLocation h program.programId name) push := by
  cases call
  · exact ⟨_, gpuSetFloatForProgram_run ..⟩
  · exact ⟨_, gpuSset2FloatsForProgram_run ..⟩
  · exact ⟨_, gpuSet3FloatsForProgram_run ..⟩
  · exact ⟨_, gpuSet4FloatsForProgram_run ..⟩
  · exact ⟨_, gpuSetIntForProgram_run ..⟩
  · exact ⟨_, gpuSet2IntsForProgram_run ..⟩
  · exact ⟨_, gpuSet3IntsForProgram_run ..⟩
  · exact ⟨_, gpuSet4IntsForProgram_run ..⟩
  · exact ⟨_, gpuSetVector2ForProgram_run ..⟩
  · exact ⟨_, gpuSetVector3ForProgram_run ..⟩
  · exact ⟨_, gpuSetVector4ForProgram_run ..⟩
  · exact ⟨_, gpuSetFloatArrayForProgram_run ..⟩
  · exact ⟨_, gpuSetVector2ArrayForProgram_run ..⟩
  · exact ⟨_, gpuSetVector3ArrayForProgram_run ..⟩
  · exact ⟨_, gpuSetVector4ArrayForProgram_run ..⟩
  · exact ⟨_, gpuSetIntArrayForProgram_run ..⟩
  · exact ⟨_, gpuSetIntVector2ArrayForProgram_run ..⟩
  · exact ⟨_, gpuSetIntVector3ArrayForProgram_run ..⟩
  · exact ⟨_, gpuSetIntVector4ArrayForProgram_run ..⟩
  · exact ⟨_, gpuSsetMatrix2x2ForProgram_run ..⟩
  · exact ⟨_, gpuSetMatrix3x3ForProgram_run ..⟩
  · exact ⟨_, gpuSetMatrix4x4ForProgram_run ..⟩
  · exact ⟨_, gpuSetMatrix2x2ArrayForProgram_run ..⟩
  · exact ⟨_, gpuSetMatrix3x3ArrayForProgram_run ..⟩
  · exact ⟨_, gpuSetMatrix4x4ArrayForProgram_run ..⟩

/-- C13: for every valid program and every pair of uniform setters, a call
whose name the driver resolves to -1 returns NoSuchParameter and returns the
program record as it was, having issued only the resolution; a following call
on that program whose name resolves returns OK. -/
theorem unresolved_name_keeps_program (d : Driver) (first second : UniformCall)
    (missing present : String) (program : GPUProgram) (h : List Event)
    (hv : program.valid ≠ 0)
    (hmissing : d.glGetUniformLocation h program.programId missing = -1)
    (hpresent : d.glGetUniformLocation
        (h ++ [.glGetUniformLocation program.programId missing (-1)])
        program.programId present ≠ -1) :
    first.run d missing program h
        = ((GPUStatusNoSuchParameter, program),
           [.glGetUniformLocation program.programId missing (-1)])
    ∧ ((first.run d missing program >>= fun r => second.run d present r.2) h).1.1
        = GPUStatusOK := by
  obtain ⟨p1, h1⟩ := UniformCall.run_outcome d first missing program h
  have e1 : first.run d missing program h
        = ((GPUStatusNoSuchParameter, program),
           [.glGetUniformLocation program.programId missing (-1)]) := by
    rw [h1]; simp [setterOutcome, hv, hmissing]
  refine ⟨e1, ?_⟩
  obtain ⟨p2, h2⟩ := UniformCall.run_outcome d second present program
    (h ++ [.glGetUniformLocation program.programId missing (-1)])
  simp only [bind_run, e1, after_fst]
  rw [h2]
  simp [setterOutcome, hv, hpresent]

/-- Witness for C13: on the sample program `gamma` is unknown and `radius`
resolves, so setting `gamma` and then `radius` ends with OK. -/
theorem unresolved_name_keeps_program_witness :
    ((UniformCall.run sampleDriver "gamma" sampleProgram
          (.SetFloatForProgram ⟨1065353216⟩)
        >>= fun r => UniformCall.run sampleDriver "radius" r.2 (.SetIntForProgram 4)) []).1.1
      = GPUStatusOK :=
  (unresolved_name_keeps_program sampleDriver (.SetFloatForProgram ⟨1065353216⟩)
    (.SetIntForProgram 4) "gamma" "radius" sampleProgram [] (by decide) (by decide)
    (by decide)).2

/-! ## Render from a framebuffer -/

/-- C14: `gpuRenderFramebufferToFramebufferUsingProgram source target program`
has the status and the events of `gpuRenderTextureToFramebufferUsingProgram`
applied to `source.texture`, `target` and `program`, and leaves the same
handle states: the texture of `source` as the texture argument is left, the
rest of `source` untouched, and `target` and `program` as the callee leaves
them. -/
theorem renderFramebuffer_is_render (source target : GPUFramebuffer) (program : GPUProgram)
    (h : List Event) :
    (gpuRenderFramebufferToFramebufferUsingProgram source target program h).1.1
        = (gpuRenderTextureToFramebufferUsingProgram source.texture target program h).1.status
    ∧ (gpuRenderFramebufferToFramebufferUsingProgram source target program h).2
        = (gpuRenderTextureToFramebufferUsingProgram source.texture target program h).2
    ∧ (gpuRenderFramebufferToFramebufferUsingProgram source target program h).1.2.1.texture
        = (gpuRenderTextureToFramebufferUsingProgram source.texture target program h).1.texture
    ∧ (gpuRenderFramebufferToFramebufferUsingProgram source target program h).1.2.1 = source
    ∧ (gpuRenderFramebufferToFramebufferUsingProgram source target program h).1.2.2.1
        = (gpuRenderTextureToFramebufferUsingProgram source.texture target program h).1.framebuffer
    ∧ (gpuRenderFramebufferToFramebufferUsingProgram source target program h).1.2.2.2
        = (gpuRenderTextureToFramebufferUsingProgram source.texture target program h).1.program := by
  refine ⟨?_, ?_, ?_, ?_, ?_, ?_⟩ <;>
    simp [gpuRenderFramebufferToFramebufferUsingProgram, render_frame]

/-! ## Program compilation: success path -/

theorem splitAtLink_append (a b : List Event) (ha : a.any Event.isLink = false) :
    splitAtLink (a ++ b) = (a ++ (splitAtLink b).1, (splitAtLink b).2) := by
  induction a with
  | nil => simp
  | cons e rest ih =>
      simp only [List.any_cons, Bool.or_eq_false_iff] at ha
      simp [splitAtLink, ha.1, ih ha.2]

theorem setUniformLocation_programId (program : GPUProgram) (j : Fin 7) (location : Int) :
    (program.setUniformLocation j location).programId = program.programId := rfl

theorem setUniformLocation_used (program : GPUProgram) (j i : Fin 7) (location : Int) :
    ((program.setUniformLocation j location).additionalTextures i).textureShouldBeUsed
      = (program.additionalTextures i).textureShouldBeUsed := by
  unfold GPUProgram.setUniformLocation
  by_cases hij : i = j
  · subst hij; simp
  · simp [Function.update, hij]

theorem gpuCompileShader_success (d : Driver) (type : Nat) (sourceCode : String)
    (logFunc : Option Nat) (h : List Event)
    (hok : (gpuCompileShader d type sourceCode logFunc h).1.1 ≠ 0) :
    (gpuCompileShader d type sourceCode logFunc h).2.filterMap Event.createdShader
        = [(gpuCompileShader d type sourceCode logFunc h).1.2]
    ∧ (gpuCompileShader d type sourceCode logFunc h).2.filterMap Event.deletedShader = []
    ∧ (gpuCompileShader d type sourceCode logFunc h).2.filterMap Event.detachedShader = []
    ∧ (gpuCompileShader d type sourceCode logFunc h).2.filterMap Event.boundAttribute = []
    ∧ (gpuCompileShader d type sourceCode logFunc h).2.filterMap Event.createdProgram = []
    ∧ (gpuCompileShader d type sourceCode logFunc h).2.filterMap Event.deletedProgram = []
    ∧ (gpuCompileShader d type sourceCode logFunc h).2.any Event.isLink = false
    ∧ (gpuCompileShader d type sourceCode logFunc h).2.filterMap Event.linkedProgram = [] := by
  revert hok
  simp only [gpuCompileShader, bind_run, emit_run, query_run, pure_run, ite_run]
  split_ifs with h1 h2 <;> simp at h1 <;> cases logFunc <;>
    simp [Event.createdShader, Event.deletedShader, Event.createdProgram,
      Event.deletedProgram, Event.isLink, Event.detachedShader, Event.boundAttribute,
      Event.linkedProgram, h1]

theorem gpuLinkProgram_events (d : Driver) (program : Nat) (h : List Event) :
    ∃ rest : List Event,
      (gpuLinkProgram d program h).2 = Event.glLinkProgram program :: rest
      ∧ rest.filterMap Event.linkedProgram = []
      ∧ rest.filterMap Event.createdShader = []
      ∧ rest.filterMap Event.deletedShader = []
      ∧ rest.filterMap Event.detachedShader = []
      ∧ rest.filterMap Event.createdProgram = []
      ∧ rest.filterMap Event.deletedProgram = [] := by
  simp only [gpuLinkProgram, bind_run, emit_run, query_run, pure_run, ite_run]
  split_ifs with h1 h2 <;>
    simp [Event.createdShader, Event.deletedShader, Event.createdProgram,
      Event.deletedProgram, Event.linkedProgram, Event.detachedShader]

/-- C15: whenever `gpuCompileProgram` returns OK its outcome satisfies
`LinksThenReleases`: `inputPosition` is bound to index 0 and `inputUV` to
index 1 before the single link call, both shaders are detached and deleted
once each after it, the program is never deleted, and the handle holds the
created program with `valid = 1` and no additional-texture slot in use. -/
theorem compile_success_order (d : Driver) (vertexShaderCode fragmentShaderCode : String)
    (program : GPUProgram) (logFunc : Option Nat) (h : List Event)
    (hok : (gpuCompileProgram d vertexShaderCode fragmentShaderCode program logFunc h).1.1
      = GPUStatusOK) :
    LinksThenReleases
      (gpuCompileProgram d vertexShaderCode fragmentShaderCode program logFunc h) := by
  have hV := gpuCompileShader_success d GL_VERTEX_SHADER vertexShaderCode logFunc
    (h ++ [Event.glCreateProgram (d.glCreateProgram h)])
  rcases hVeq : gpuCompileShader d GL_VERTEX_SHADER vertexShaderCode logFunc
    (h ++ [Event.glCreateProgram (d.glCreateProgram h)]) with ⟨⟨vok, vsh⟩, vev⟩
  rw [hVeq] at hV
  have hF := gpuCompileShader_success d GL_FRAGMENT_SHADER fragmentShaderCode logFunc
    (h ++ [Event.glCreateProgram (d.glCreateProgram h)] ++ vev)
  rcases hFeq : gpuCompileShader d GL_FRAGMENT_SHADER fragmentShaderCode logFunc
    (h ++ [Event.glCreateProgram (d.glCreateProgram h)] ++ vev) with ⟨⟨fok, fsh⟩, fev⟩
  rw [hFeq] at hF
  have hL := gpuLinkProgram_events d (d.glCreateProgram h)
    (h ++ [Event.glCreateProgram (d.glCreateProgram h)] ++ vev ++ fev
      ++ [Event.glAttachShader (d.glCreateProgram h) vsh]
      ++ [Event.glAttachShader (d.glCreateProgram h) fsh]
      ++ [Event.glBindAttribLocation (d.glCreateProgram h) 0 "inputPosition"]
      ++ [Event.glBindAttribLocation (d.glCreateProgram h) 1 "inputUV"])
  rcases hLeq : gpuLinkProgram d (d.glCreateProgram h)
    (h ++ [Event.glCreateProgram (d.glCreateProgram h)] ++ vev ++ fev
      ++ [Event.glAttachShader (d.glCreateProgram h) vsh]
      ++ [Event.glAttachShader (d.glCreateProgram h) fsh]
      ++ [Event.glBindAttribLocation (d.glCreateProgram h) 0 "inputPosition"]
      ++ [Event.glBindAttribLocation (d.glCreateProgram h) 1 "inputUV"]) with ⟨lok, lev⟩
  rw [hLeq] at hL
  obtain ⟨l0, hq0⟩ : ∃ l, d.glGetUniformLocation
      (h ++ [Event.glCreateProgram (d.glCreateProgram h)] ++ vev ++ fev
      ++ [Event.glAttachShader (d.glCreateProgram h) vsh]
      ++ [Event.glAttachShader (d.glCreateProgram h) fsh]
      ++ [Event.glBindAttribLocation (d.glCreateProgram h) 0 "inputPosition"]
      ++ [Event.glBindAttribLocation (d.glCreateProgram h) 1 "inputUV"] ++ lev
      ++ [Event.glDetachShader (d.glCreateProgram h) vsh] ++ [Event.glDeleteShader vsh]
      ++ [Event.glDetachShader (d.glCreateProgram h) fsh] ++ [Event.glDeleteShader fsh])
      (d.glCreateProgram h) "texture" = l := ⟨_, rfl⟩
  obtain ⟨l1, hq1⟩ : ∃ l, d.glGetUniformLocation
      (h ++ [Event.glCreateProgram (d.glCreateProgram h)] ++ vev ++ fev
      ++ [Event.glAttachShader (d.glCreateProgram h) vsh]
      ++ [Event.glAttachShader (d.glCreateProgram h) fsh]
      ++ [Event.glBindAttribLocation (d.glCreateProgram h) 0 "inputPosition"]
      ++ [Event.glBindAttribLocation (d.glCreateProgram h) 1 "inputUV"] ++ lev
      ++ [Event.glDetachShader (d.glCreateProgram h) vsh] ++ [Event.glDeleteShader vsh]
      ++ [Event.glDetachShader (d.glCreateProgram h) fsh] ++ [Event.glDeleteShader fsh]
      ++ [Event.glGetUniformLocation (d.glCreateProgram h) "texture" l0])
      (d.glCreateProgram h) "texture2" = l := ⟨_, rfl⟩
  obtain ⟨l2, hq2⟩ : ∃ l, d.glGetUniformLocation
      (h ++ [Event.glCreateProgram (d.glCreateProgram h)] ++ vev ++ fev
      ++ [Event.glAttachShader (d.glCreateProgram h) vsh]
      ++ [Event.glAttachShader (d.glCreateProgram h) fsh]
      ++ [Event.glBindAttribLocation (d.glCreateProgram h) 0 "inputPosition"]
      ++ [Event.glBindAttribLocation (d.glCreateProgram h) 1 "inputUV"] ++ lev
      ++ [Event.glDetachShader (d.glCreateProgram h) vsh] ++ [Event.glDeleteShader vsh]
      ++ [Event.glDetachShader (d.glCreateProgram h) fsh] ++ [Event.glDeleteShader fsh]
      ++ [Event.glGetUniformLocation (d.glCreateProgram h) "texture" l0]
      ++ [Event.glGetUniformLocation (d.glCreateProgram h) "texture2" l1])
      (d.glCreateProgram h) "texture3" = l := ⟨_, rfl⟩
  obtain ⟨l3, hq3⟩ : ∃ l, d.glGetUniformLocation
      (h ++ [Event.glCreateProgram (d.glCreateProgram h)] ++ vev ++ fev
      ++ [Event.glAttachShader (d.glCreateProgram h) vsh]
      ++ [Event.glAttachShader (d.glCreateProgram h) fsh]
      ++ [Event.glBindAttribLocation (d.glCreateProgram h) 0 "inputPosition"]
      ++ [Event.glBindAttribLocation (d.glCreateProgram h) 1 "inputUV"] ++ lev
      ++ [Event.glDetachShader (d.glCreateProgram h) vsh] ++ [Event.glDeleteShader vsh]
      ++ [Event.glDetachShader (d.glCreateProgram h) fsh] ++ [Event.glDeleteShader fsh]
      ++ [Event.glGetUniformLocation (d.glCreateProgram h) "texture" l0]
      ++ [Event.glGetUniformLocation (d.glCreateProgram h) "texture2" l1]
      ++ [Event.glGetUniformLocation (d.glCreateProgram h) "texture3" l2])
      (d.glCreateProgram h) "texture4" = l := ⟨_, rfl⟩
  obtain ⟨l4, hq4⟩ : ∃ l, d.glGetUniformLocation
      (h ++ [Event.glCreateProgram (d.glCreateProgram h)] ++ vev ++ fev
      ++ [Event.glAttachShader (d.glCreateProgram h) vsh]
      ++ [Event.glAttachShader (d.glCreateProgram h) fsh]
      ++ [Event.glBindAttribLocation (d.glCreateProgram h) 0 "inputPosition"]
      ++ [Event.glBindAttribLocation (d.glCreateProgram h) 1 "inputUV"] ++ lev
      ++ [Event.glDetachShader (d.glCreateProgram h) vsh] ++ [Event.glDeleteShader vsh]
      ++ [Event.glDetachShader (d.glCreateProgram h) fsh] ++ [Event.glDeleteShader fsh]
      ++ [Event.glGetUniformLocation (d.glCreateProgram h) "texture" l0]
      ++ [Event.glGetUniformLocation (d.glCreateProgram h) "texture2" l1]
      ++ [Event.glGetUniformLocation (d.glCreateProgram h) "texture3" l2]
      ++ [Event.glGetUniformLocation (d.glCreateProgram h) "texture4" l3])
      (d.glCreateProgram h) "texture5" = l := ⟨_, rfl⟩
  obtain ⟨l5, hq5⟩ : ∃ l, d.glGetUniformLocation
      (h ++ [Event.glCreateProgram (d.glCreateProgram h)] ++ vev ++ fev
      ++ [Event.glAttachShader (d.glCreateProgram h) vsh]
      ++ [Event.glAttachShader (d.glCreateProgram h) fsh]
      ++ [Event.glBindAttribLocation (d.glCreateProgram h) 0 "inputPosition"]
      ++ [Event.glBindAttribLocation (d.glCreateProgram h) 1 "inputUV"] ++ lev
      ++ [Event.glDetachShader (d.glCreateProgram h) vsh] ++ [Event.glDeleteShader vsh]
      ++ [Event.glDetachShader (d.glCreateProgram h) fsh] ++ [Event.glDeleteShader fsh]
      ++ [Event.glGetUniformLocation (d.glCreateProgram h) "texture" l0]
      ++ [Event.glGetUniformLocation (d.glCreateProgram h) "texture2" l1]
      ++ [Event.glGetUniformLocation (d.glCreateProgram h) "texture3" l2]
      ++ [Event.glGetUniformLocation (d.glCreateProgram h) "texture4" l3]
      ++ [Event.glGetUniformLocation (d.glCreateProgram h) "texture5" l4])
      (d.glCreateProgram h) "texture6" = l := ⟨_, rfl⟩
  obtain ⟨l6, hq6⟩ : ∃ l, d.glGetUniformLocation
      (h ++ [Event.glCreateProgram (d.glCreateProgram h)] ++ vev ++ fev
      ++ [Event.glAttachShader (d.glCreateProgram h) vsh]
      ++ [Event.glAttachShader (d.glCreateProgram h) fsh]
      ++ [Event.glBindAttribLocation (d.glCreateProgram h) 0 "inputPosition"]
      ++ [Event.glBindAttribLocation (d.glCreateProgram h) 1 "inputUV"] ++ lev
      ++ [Event.glDetachShader (d.glCreateProgram h) vsh] ++ [Event.glDeleteShader vsh]
      ++ [Event.glDetachShader (d.glCreateProgram h) fsh] ++ [Event.glDeleteShader fsh]
      ++ [Event.glGetUniformLocation (d.glCreateProgram h) "texture" l0]
      ++ [Event.glGetUniformLocation (d.glCreateProgram h) "texture2" l1]
      ++ [Event.glGetUniformLocation (d.glCreateProgram h) "texture3" l2]
      ++ [Event.glGetUniformLocation (d.glCreateProgram h) "texture4" l3]
      ++ [Event.glGetUniformLocation (d.glCreateProgram h) "texture5" l4]
      ++ [Event.glGetUniformLocation (d.glCreateProgram h) "texture6" l5])
      (d.glCreateProgram h) "texture7" = l := ⟨_, rfl⟩
  obtain ⟨l7, hq7⟩ : ∃ l, d.glGetUniformLocation
      (h ++ [Event.glCreateProgram (d.glCreateProgram h)] ++ vev ++ fev
      ++ [Event.glAttachShader (d.glCreateProgram h) vsh]
      ++ [Event.glAttachShader (d.glCreateProgram h) fsh]
      ++ [Event.glBindAttribLocation (d.glCreateProgram h) 0 "inputPosition"]
      ++ [Event.glBindAttribLocation (d.glCreateProgram h) 1 "inputUV"] ++ lev
      ++ [Event.glDetachShader (d.glCreateProgram h) vsh] ++ [Event.glDeleteShader vsh]
      ++ [Event.glDetachShader (d.glCreateProgram h) fsh] ++ [Event.glDeleteShader fsh]
      ++ [Event.glGetUniformLocation (d.glCreateProgram h) "texture" l0]
      ++ [Event.glGetUniformLocation (d.glCreateProgram h) "texture2" l1]
      ++ [Event.glGetUniformLocation (d.glCreateProgram h) "texture3" l2]
      ++ [Event.glGetUniformLocation (d.glCreateProgram h) "texture4" l3]
      ++ [Event.glGetUniformLocation (d.glCreateProgram h) "texture5" l4]
      ++ [Event.glGetUniformLocation (d.glCreateProgram h) "texture6" l5]
      ++ [Event.glGetUniformLocation (d.glCreateProgram h) "texture7" l6])
      (d.glCreateProgram h) "texture8" = l := ⟨_, rfl⟩
  simp only at hV hF hL
  obtain ⟨rest, hrest, hLl, hLcs, hLds, hLdt, hLcp, hLdp⟩ := hL
  unfold LinksThenReleases
  revert hok
  simp only [gpuCompileProgram, bind_run, emit_run, query_run, pure_run, ite_run, hVeq, hFeq,
    hLeq, after_fst, after_snd, after_mk, after_ite, setUniformLocation_programId, hq0, hq1, hq2, hq3, hq4, hq5, hq6, hq7]
  by_cases hv : vok = 0
  · simp [hv]
  · by_cases hf : fok = 0
    · simp [hv, hf]
    · by_cases hl : lok = 0
      · simp [hv, hf, hl]
      · obtain ⟨hVc, hVd, hVt, hVb, hVcp, hVdp, hVl, hVlp⟩ := hV hv
        obtain ⟨hFc, hFd, hFt, hFb, hFcp, hFdp, hFl, hFlp⟩ := hF hf
        intro _
        subst hrest
        simp [hv, hf, hl, hVc, hVd, hVt, hVb, hVcp, hVdp, hVl, hVlp, hFc, hFd, hFt, hFb, hFcp,
          hFdp, hFl, hFlp, hLl, hLcs, hLds, hLdt, hLcp, hLdp, setUniformLocation_used,
          splitAtLink, splitAtLink_append,
          Event.createdShader, Event.deletedShader, Event.createdProgram,
          Event.deletedProgram, Event.isLink, Event.detachedShader, Event.boundAttribute,
          Event.linkedProgram, AdditionalTexture.zero]

/-- Witness for C15: on the sample driver both stages compile, the link
succeeds, and the outcome satisfies the success contract. -/
theorem compile_success_order_witness :
    LinksThenReleases
      (gpuCompileProgram sampleDriver "void main() {}" "void main() {}" GPUProgram.zero
        none []) :=
  compile_success_order sampleDriver "void main() {}" "void main() {}" GPUProgram.zero
    none [] (by decide)

/-! ## Additional textures are not validated -/

theorem setNthTexture_slot (i : Fin 7) (texture : GPUTexture) (program : GPUProgram)
    (h : List Event) :
    setNthTexture i texture program h
      = ((texture,
          { program with
            additionalTextures := Function.update program.additionalTextures i
              { textureShouldBeUsed := 1, texture := texture,
                uniformLocation := (program.additionalTextures i).uniformLocation } }), []) := by
  fin_cases i <;>
    simp [setNthTexture, gpuSetSecondTextureForProgram, gpuSetThirdTextureForProgram,
      gpuSetFourthTextureForProgram, gpuSsetFifthTextureForProgram,
      gpuSetSixthTextureForProgram, gpuSetSeventhTextureForProgram,
      gpuSetEigthTextureForProgram, GPUProgram.setTexture, GPUProgram.setTextureShouldBeUsed]

theorem textureBindings_append_delete (unit n name : Nat) (rest : List Event) :
    textureBindings unit (Event.glDeleteTextures n name :: rest) = textureBindings unit rest := by
  simp [textureBindings, Event.bindingAt, Event.unitAfter]

/-- C16: fill slot `i` of a valid program from any texture `bound` (valid or
never valid), destroy `bound`, then render a valid source texture to a valid
framebuffer.  The destroyed handle has `valid = 0`, the render returns OK, the
program still holds in slot `i` the copy of `bound` taken when the slot was
filled, marked in use, and the render binds the recorded `bound.textureId` on
unit `GL_TEXTURE0 + i + 1`. -/
theorem render_uses_recorded_texture (i : Fin 7) (bound texture : GPUTexture)
    (framebuffer : GPUFramebuffer) (program : GPUProgram) (h : List Event) (unit : Nat)
    (ht : texture.valid ≠ 0) (hf : framebuffer.valid ≠ 0) (hp : program.valid ≠ 0) :
    (bindDestroyRender i bound texture framebuffer program h).1.1.valid = 0
    ∧ (bindDestroyRender i bound texture framebuffer program h).1.2.status = GPUStatusOK
    ∧ (bindDestroyRender i bound texture framebuffer program h).1.2.program.additionalTextures i
        = { textureShouldBeUsed := 1, texture := bound,
            uniformLocation := (program.additionalTextures i).uniformLocation }
    ∧ (GL_TEXTURE0 + i.val + 1, bound.textureId)
        ∈ textureBindings unit (bindDestroyRender i bound texture framebuffer program h).2 := by
  have hp1 : ({ program with
      additionalTextures := Function.update program.additionalTextures i
        { textureShouldBeUsed := 1, texture := bound,
          uniformLocation := (program.additionalTextures i).uniformLocation } }
      : GPUProgram).valid ≠ 0 := hp
  have hmem : i ∈ usedSlots { program with
      additionalTextures := Function.update program.additionalTextures i
        { textureShouldBeUsed := 1, texture := bound,
          uniformLocation := (program.additionalTextures i).uniformLocation } } := by
    rw [mem_usedSlots]; simp
  by_cases hb : bound.valid = 0
  · have hT := render_trace texture framebuffer _ h unit ht hf hp1
    have hS := render_status_ok texture framebuffer _ h ht hf hp1
    have hF := render_frame texture framebuffer { program with
      additionalTextures := Function.update program.additionalTextures i
        { textureShouldBeUsed := 1, texture := bound,
          uniformLocation := (program.additionalTextures i).uniformLocation } } h
    simp only [bindDestroyRender, bind_run, pure_run, setNthTexture_slot, gpuDestroyTexture, hb,
      ite_run, ne_eq, not_true_eq_false, if_false, after_fst, after_snd, List.nil_append,
      List.append_nil]
    refine ⟨trivial, hS, ?_, ?_⟩
    · rw [hF.2.2]; simp
    · rw [hT.1]
      refine List.mem_cons_of_mem _ (List.mem_map.2 ⟨i, hmem, ?_⟩)
      simp
  · have hT := render_trace texture framebuffer _
      (h ++ [Event.glDeleteTextures 1 bound.textureId]) unit ht hf hp1
    have hS := render_status_ok texture framebuffer _
      (h ++ [Event.glDeleteTextures 1 bound.textureId]) ht hf hp1
    have hF := render_frame texture framebuffer { program with
      additionalTextures := Function.update program.additionalTextures i
        { textureShouldBeUsed := 1, texture := bound,
          uniformLocation := (program.additionalTextures i).uniformLocation } }
      (h ++ [Event.glDeleteTextures 1 bound.textureId])
    simp only [bindDestroyRender, bind_run, pure_run, emit_run, setNthTexture_slot,
      gpuDestroyTexture, hb, ite_run, ne_eq, not_false_eq_true, if_true, after_fst, after_snd,
      List.nil_append, List.append_nil, List.singleton_append, List.cons_append,
      textureBindings_append_delete]
    refine ⟨trivial, hS, ?_, ?_⟩
    · rw [hF.2.2]; simp
    · rw [hT.1]
      refine List.mem_cons_of_mem _ (List.mem_map.2 ⟨i, hmem, ?_⟩)
      simp

/-- Witness for C16: a texture handle that was never valid, put in slot 2, is
bound by the render on unit 3 under its recorded name 7. -/
theorem render_uses_recorded_texture_witness :
    (GL_TEXTURE0 + (2 : Fin 7).val + 1, staleTexture.textureId)
      ∈ textureBindings GL_TEXTURE0
          (bindDestroyRender 2 staleTexture sampleTexture sampleFramebuffer sampleProgram []).2 :=
  (render_uses_recorded_texture 2 staleTexture sampleTexture sampleFramebuffer sampleProgram []
    GL_TEXTURE0 (by decide) (by decide) (by decide)).2.2.2

/-! ## Incomplete framebuffers -/

theorem gpuCreateFramebuffer_names (d : Driver) (width height : Nat)
    (framebuffer : GPUFramebuffer) (h : List Event) :
    (gpuCreateFramebuffer d width height framebuffer h).2.filterMap Event.generatedFramebuffer
        = [(gpuCreateFramebuffer d width height framebuffer h).1.2.framebufferId]
    ∧ (gpuCreateFramebuffer d width height framebuffer h).2.filterMap Event.generatedTexture
        = [(gpuCreateFramebuffer d width height framebuffer h).1.2.texture.textureId]
    ∧ (gpuCreateFramebuffer d width height framebuffer h).2.filterMap Event.deletedFramebuffer
        = []
    ∧ (gpuCreateFramebuffer d width height framebuffer h).2.filterMap Event.deletedTexture
        = [] := by
  simp only [gpuCreateFramebuffer, bind_run, emit_run, query_run, pure_run, ite_run]
  split_ifs with hc <;>
    simp [Event.generatedFramebuffer, Event.generatedTexture, Event.deletedFramebuffer,
      Event.deletedTexture]

theorem runLifecycle_deletes (d : Driver) (calls : List LifecycleCall) :
    ∀ (framebuffer : GPUFramebuffer) (h : List Event),
      (∀ name ∈ (runLifecycle d calls framebuffer h).2.filterMap Event.deletedFramebuffer,
          name ∈ (runLifecycle d calls framebuffer h).2.filterMap Event.generatedFramebuffer
          ∨ (framebuffer.valid ≠ 0 ∧ name = framebuffer.framebufferId))
      ∧ (∀ name ∈ (runLifecycle d calls framebuffer h).2.filterMap Event.deletedTexture,
          name ∈ (runLifecycle d calls framebuffer h).2.filterMap Event.generatedTexture
          ∨ (framebuffer.valid ≠ 0 ∧ name = framebuffer.texture.textureId)) := by
  induction calls with
  | nil =>
      intro framebuffer h
      simp [runLifecycle]
  | cons call rest ih =>
      intro framebuffer h
      cases call with
      | create width height =>
          have hn := gpuCreateFramebuffer_names d width height framebuffer h
          rcases hc : gpuCreateFramebuffer d width height framebuffer h with ⟨⟨status, next⟩, ev⟩
          rw [hc] at hn
          simp only at hn
          obtain ⟨hgf, hgt, hdf, hdt⟩ := hn
          have ih' := ih next (h ++ ev)
          simp only [runLifecycle, LifecycleCall.run, bind_run, pure_run, hc, after_snd,
            after_fst, List.append_nil, List.filterMap_append, hgf, hgt, hdf, hdt,
            List.nil_append, List.mem_append, List.mem_singleton]
          constructor
          · intro name hname
            rcases ih'.1 name hname with hmem | ⟨_, heq⟩
            · exact Or.inl (Or.inr hmem)
            · exact Or.inl (Or.inl heq)
          · intro name hname
            rcases ih'.2 name hname with hmem | ⟨_, heq⟩
            · exact Or.inl (Or.inr hmem)
            · exact Or.inl (Or.inl heq)
      | destroy =>
          by_cases hv : framebuffer.valid = 0
          · have ih' := ih framebuffer h
            simp only [runLifecycle, LifecycleCall.run, gpuDestroyFramebuffer, hv, bind_run,
              pure_run, ite_run, ne_eq, not_true_eq_false, if_false, after_snd, after_fst,
              List.append_nil, List.nil_append]
            constructor
            · intro name hname
              rcases ih'.1 name hname with hmem | ⟨hne, _⟩
              · exact Or.inl hmem
              · exact absurd hv hne
            · intro name hname
              rcases ih'.2 name hname with hmem | ⟨hne, _⟩
              · exact Or.inl hmem
              · exact absurd hv hne
          · have hd : gpuDestroyFramebuffer framebuffer h
                = ({ framebuffer with
                      valid := 0, texture := { framebuffer.texture with valid := 0 } },
                   [Event.glDeleteFramebuffers 1 framebuffer.framebufferId,
                    Event.glDeleteTextures 1 framebuffer.texture.textureId]) := by
              simp [gpuDestroyFramebuffer, hv]
            have ih' := ih
              { framebuffer with valid := 0, texture := { framebuffer.texture with valid := 0 } }
              (h ++ [Event.glDeleteFramebuffers 1 framebuffer.framebufferId,
                     Event.glDeleteTextures 1 framebuffer.texture.textureId])
            simp only [runLifecycle, LifecycleCall.run, bind_run, hd, after_snd, after_fst,
              List.filterMap_append, List.filterMap_cons, List.filterMap_nil,
              Event.generatedFramebuffer, Event.generatedTexture, Event.deletedFramebuffer,
              Event.deletedTexture, List.nil_append, List.mem_append, List.mem_cons,
              List.singleton_append, List.not_mem_nil, false_or]
            constructor
            · intro name hname
              rcases hname with heq | hmem
              · exact Or.inr ⟨hv, heq⟩
              · rcases ih'.1 name hmem with hgen | ⟨hne, _⟩
                · exact Or.inl hgen
                · exact absurd rfl hne
            · intro name hname
              rcases hname with heq | hmem
              · exact Or.inr ⟨hv, heq⟩
              · rcases ih'.2 name hmem with hgen | ⟨hne, _⟩
                · exact Or.inl hgen
                · exact absurd rfl hne

/-- C17: when `gpuCreateFramebuffer` returns
FailedToMakeFramebufferObjectError it has generated one framebuffer name and
one texture name, both stored in the handle, and issued no delete call.  The
handle has `valid = 0`, so `gpuDestroyFramebuffer` on it issues nothing and
leaves it unchanged.  In every later sequence of create and destroy calls on
that handle, each name passed to a delete call was generated within that
sequence, so the two names of the failed create are released only if the
driver hands them out again. -/
theorem incomplete_framebuffer_not_released (d : Driver) (width height : Nat)
    (framebuffer : GPUFramebuffer) (h : List Event)
    (hfail : (gpuCreateFramebuffer d width height framebuffer h).1.1
      = GPUStatusFailedToMakeFramebufferObjectError) :
    (gpuCreateFramebuffer d width height framebuffer h).2.filterMap Event.generatedFramebuffer
        = [(gpuCreateFramebuffer d width height framebuffer h).1.2.framebufferId]
    ∧ (gpuCreateFramebuffer d width height framebuffer h).2.filterMap Event.generatedTexture
        = [(gpuCreateFramebuffer d width height framebuffer h).1.2.texture.textureId]
    ∧ (gpuCreateFramebuffer d width height framebuffer h).2.filterMap Event.deletedFramebuffer
        = []
    ∧ (gpuCreateFramebuffer d width height framebuffer h).2.filterMap Event.deletedTexture
        = []
    ∧ (gpuCreateFramebuffer d width height framebuffer h).1.2.valid = 0
    ∧ (∀ later : List Event,
        gpuDestroyFramebuffer (gpuCreateFramebuffer d width height framebuffer h).1.2 later
          = ((gpuCreateFramebuffer d width height framebuffer h).1.2, []))
    ∧ (∀ (calls : List LifecycleCall) (later : List Event),
        (∀ name ∈ (runLifecycle d calls
              (gpuCreateFramebuffer d width height framebuffer h).1.2 later).2.filterMap
                Event.deletedFramebuffer,
            name ∈ (runLifecycle d calls
              (gpuCreateFramebuffer d width height framebuffer h).1.2 later).2.filterMap
                Event.generatedFramebuffer)
        ∧ (∀ name ∈ (runLifecycle d calls
              (gpuCreateFramebuffer d width height framebuffer h).1.2 later).2.filterMap
                Event.deletedTexture,
            name ∈ (runLifecycle d calls
              (gpuCreateFramebuffer d width height framebuffer h).1.2 later).2.filterMap
                Event.generatedTexture)) := by
  obtain ⟨hgf, hgt, hdf, hdt⟩ := gpuCreateFramebuffer_names d width height framebuffer h
  have hvalid : (gpuCreateFramebuffer d width height framebuffer h).1.2.valid = 0 := by
    revert hfail
    simp only [gpuCreateFramebuffer, bind_run, emit_run, query_run, pure_run, ite_run]
    split_ifs with hc <;> simp
  refine ⟨hgf, hgt, hdf, hdt, hvalid, ?_, ?_⟩
  · intro later
    simp [gpuDestroyFramebuffer, hvalid]
  · intro calls later
    have hl := runLifecycle_deletes d calls
      (gpuCreateFramebuffer d width height framebuffer h).1.2 later
    constructor
    · intro name hname
      rcases hl.1 name hname with hmem | ⟨hne, _⟩
      · exact hmem
      · exact absurd hvalid hne
    · intro name hname
      rcases hl.2 name hname with hmem | ⟨hne, _⟩
      · exact hmem
      · exact absurd hvalid hne

/-- Witness for C17: on the flaky driver the first create fails and leaves
names 1 and 3 in an invalid handle; a following destroy, successful create
and destroy delete only the names 16 and 18 of the second create. -/
theorem incomplete_framebuffer_not_released_witness :
    (gpuCreateFramebuffer flakyDriver 4 4 GPUFramebuffer.zero []).1.2.valid = 0
    ∧ (gpuCreateFramebuffer flakyDriver 4 4 GPUFramebuffer.zero []).2.filterMap
        Event.generatedFramebuffer = [1]
    ∧ (gpuCreateFramebuffer flakyDriver 4 4 GPUFramebuffer.zero []).2.filterMap
        Event.generatedTexture = [3]
    ∧ (runLifecycle flakyDriver [.destroy, .create 4 4, .destroy]
          (gpuCreateFramebuffer flakyDriver 4 4 GPUFramebuffer.zero []).1.2
          (gpuCreateFramebuffer flakyDriver 4 4 GPUFramebuffer.zero []).2).2.filterMap
        Event.deletedFramebuffer = [16]
    ∧ (∀ name ∈ (runLifecycle flakyDriver [.destroy, .create 4 4, .destroy]
          (gpuCreateFramebuffer flakyDriver 4 4 GPUFramebuffer.zero []).1.2
          (gpuCreateFramebuffer flakyDriver 4 4 GPUFramebuffer.zero []).2).2.filterMap
            Event.deletedFramebuffer,
        name ∈ (runLifecycle flakyDriver [.destroy, .create 4 4, .destroy]
          (gpuCreateFramebuffer flakyDriver 4 4 GPUFramebuffer.zero []).1.2
          (gpuCreateFramebuffer flakyDriver 4 4 GPUFramebuffer.zero []).2).2.filterMap
            Event.generatedFramebuffer) :=
  ⟨(incomplete_framebuffer_not_released flakyDriver 4 4 GPUFramebuffer.zero []
      (by decide)).2.2.2.2.1,
   by decide, by decide, by decide,
   ((incomplete_framebuffer_not_released flakyDriver 4 4 GPUFramebuffer.zero []
      (by decide)).2.2.2.2.2.2 [.destroy, .create 4 4, .destroy]
      (gpuCreateFramebuffer flakyDriver 4 4 GPUFramebuffer.zero []).2).1⟩

/-! ## Framebuffer size -/

/-- A `uint32_t` value is negative as a `GLsizei` exactly when its low 32 bits
are `2 ^ 31` or more. -/
theorem toGLsizei_neg_iff (n : Nat) : toGLsizei n < 0 ↔ 2 ^ 31 ≤ n % 2 ^ 32 := by
  unfold toGLsizei
  have hlt : n % 2 ^ 32 < 2 ^ 32 := Nat.mod_lt _ (by norm_num)
  split_ifs with hc
  · constructor
    · intro hneg
      have : (0 : Int) ≤ ((n % 2 ^ 32 : Nat) : Int) := Int.natCast_nonneg _
      omega
    · intro hge; omega
  · constructor
    · intro _; omega
    · intro _
      have : ((n % 2 ^ 32 : Nat) : Int) < 2 ^ 32 := by exact_mod_cast hlt
      omega

/-- Bytes that `gpuGetFramebufferContents` asks the driver to write for a valid
handle: none when the width or the height is negative as a `GLsizei`, and
`width * height * components` otherwise. -/
theorem gpuGetFramebufferContents_request (d : Driver) (framebuffer : GPUFramebuffer)
    (rgbaData : List Nat) (colorFormat : Int) (h : List Event) (hv : framebuffer.valid ≠ 0) :
    requestedBytes (gpuGetFramebufferContents d framebuffer rgbaData colorFormat h).2
      = if toGLsizei framebuffer.texture.width < 0 ∨ toGLsizei framebuffer.texture.height < 0
        then 0
        else framebuffer.texture.width * framebuffer.texture.height
              * componentsOf (gpuColorFormatToGLFormat colorFormat) := by
  simp only [gpuGetFramebufferContents, hv, if_false, bind_run, emit_run, query_run, pure_run,
    ite_run]
  split_ifs <;> simp_all [requestedBytes, Event.readPixelsBytes]

/-- C18, as amended: for every framebuffer handle, valid or not,
`gpuGetFramebufferSizeInBytes` returns `4 * width * height` modulo `2 ^ 32`,
which equals `4 * width * height` exactly when that product is below `2 ^ 32`.
For a valid handle whose width and height are both below `2 ^ 31` and have
`4 * width * height ≥ 2 ^ 32`, the returned size is strictly smaller than the
number of bytes that `gpuGetFramebufferContents` asks the driver to write, for
every colour format.  For a valid handle whose width or height is `2 ^ 31` or
more (within `uint32_t`), the dimension is negative as a `GLsizei` and the
driver is asked to write nothing.  For an invalid handle
`gpuGetFramebufferContents` returns InvalidFramebuffer with the handle and the
buffer unchanged and issues no driver call. -/
theorem framebufferSize_wraps (d : Driver) (framebuffer : GPUFramebuffer) (rgbaData : List Nat)
    (colorFormat : Int) (h h' : List Event) :
    (gpuGetFramebufferSizeInBytes framebuffer h).1.1
        = (4 * framebuffer.texture.width * framebuffer.texture.height) % 2 ^ 32
    ∧ ((gpuGetFramebufferSizeInBytes framebuffer h).1.1
          = 4 * framebuffer.texture.width * framebuffer.texture.height
        ↔ 4 * framebuffer.texture.width * framebuffer.texture.height < 2 ^ 32)
    ∧ (framebuffer.valid ≠ 0 →
        framebuffer.texture.width < 2 ^ 31 → framebuffer.texture.height < 2 ^ 31 →
        2 ^ 32 ≤ 4 * framebuffer.texture.width * framebuffer.texture.height →
        (gpuGetFramebufferSizeInBytes framebuffer h).1.1
          < requestedBytes (gpuGetFramebufferContents d framebuffer rgbaData colorFormat h').2)
    ∧ (framebuffer.valid ≠ 0 →
        framebuffer.texture.width < 2 ^ 32 → framebuffer.texture.height < 2 ^ 32 →
        (2 ^ 31 ≤ framebuffer.texture.width ∨ 2 ^ 31 ≤ framebuffer.texture.height) →
        requestedBytes (gpuGetFramebufferContents d framebuffer rgbaData colorFormat h').2 = 0)
    ∧ (framebuffer.valid = 0 →
        gpuGetFramebufferContents d framebuffer rgbaData colorFormat h'
          = ((GPUStatusInvalidFramebuffer, framebuffer, rgbaData), [])
        ∧ requestedBytes (gpuGetFramebufferContents d framebuffer rgbaData colorFormat h').2
          = 0) := by
  have hsize : (gpuGetFramebufferSizeInBytes framebuffer h).1.1
        = (4 * framebuffer.texture.width * framebuffer.texture.height) % 2 ^ 32 := by
    simp [gpuGetFramebufferSizeInBytes, Nat.mod_mul_mod]
  refine ⟨hsize, ?_, ?_, ?_, ?_⟩
  · rw [hsize]
    constructor
    · intro he
      by_contra hlt
      have := Nat.mod_lt (4 * framebuffer.texture.width * framebuffer.texture.height)
        (show 0 < 2 ^ 32 by norm_num)
      omega
    · intro hlt
      exact Nat.mod_eq_of_lt hlt
  · intro hv hw hh hbig
    rw [hsize, gpuGetFramebufferContents_request d framebuffer rgbaData colorFormat h' hv]
    have hwn : ¬ toGLsizei framebuffer.texture.width < 0 := by
      rw [toGLsizei_neg_iff]
      have := Nat.mod_le framebuffer.texture.width (2 ^ 32)
      omega
    have hhn : ¬ toGLsizei framebuffer.texture.height < 0 := by
      rw [toGLsizei_neg_iff]
      have := Nat.mod_le framebuffer.texture.height (2 ^ 32)
      omega
    rw [if_neg (by tauto)]
    have hc : 3 ≤ componentsOf (gpuColorFormatToGLFormat colorFormat) := by
      unfold componentsOf; split_ifs <;> omega
    have hmod := Nat.mod_add_div (4 * framebuffer.texture.width * framebuffer.texture.height)
      (2 ^ 32)
    have hdiv : 1 ≤ 4 * framebuffer.texture.width * framebuffer.texture.height / 2 ^ 32 :=
      (Nat.one_le_div_iff (by norm_num)).2 hbig
    have h3 : framebuffer.texture.width * framebuffer.texture.height * 3
        ≤ framebuffer.texture.width * framebuffer.texture.height
            * componentsOf (gpuColorFormatToGLFormat colorFormat) :=
      Nat.mul_le_mul_left _ hc
    have hlt := Nat.mod_lt (4 * framebuffer.texture.width * framebuffer.texture.height)
        (show 0 < 2 ^ 32 by norm_num)
    set x := framebuffer.texture.width * framebuffer.texture.height with hx
    have h4 : 4 * framebuffer.texture.width * framebuffer.texture.height = 4 * x := by
      rw [hx]; ring
    rw [h4] at hmod hdiv hlt ⊢
    set q := 4 * x / 2 ^ 32
    set r := 4 * x % 2 ^ 32
    nlinarith
  · intro hv hw hh hwide
    rw [gpuGetFramebufferContents_request d framebuffer rgbaData colorFormat h' hv]
    have hneg : toGLsizei framebuffer.texture.width < 0
        ∨ toGLsizei framebuffer.texture.height < 0 := by
      rcases hwide with h1 | h1
      · left; rw [toGLsizei_neg_iff, Nat.mod_eq_of_lt hw]; exact h1
      · right; rw [toGLsizei_neg_iff, Nat.mod_eq_of_lt hh]; exact h1
    rw [if_pos hneg]
  · intro hv
    simp [gpuGetFramebufferContents, hv, requestedBytes]

/-- Witness for C18 as amended: for the valid 32768 x 32769 framebuffer the
reported size is below the bytes requested by a read back as RGBA; for the
valid framebuffer of width `2 ^ 31` the read back requests no bytes; and for
the destroyed framebuffer the read back returns InvalidFramebuffer with the
handle and the buffer unchanged and issues no driver call. -/
theorem framebufferSize_wraps_witness :
    (gpuGetFramebufferSizeInBytes largeFramebuffer []).1.1
      < requestedBytes
          (gpuGetFramebufferContents sampleDriver largeFramebuffer [] GPUColorFormatRGBA []).2
    ∧ requestedBytes
        (gpuGetFramebufferContents sampleDriver wideFramebuffer [] GPUColorFormatRGBA []).2 = 0
    ∧ gpuGetFramebufferContents sampleDriver destroyedLargeFramebuffer [] GPUColorFormatRGBA []
        = ((GPUStatusInvalidFramebuffer, destroyedLargeFramebuffer, []), []) :=
  ⟨(framebufferSize_wraps sampleDriver largeFramebuffer [] GPUColorFormatRGBA [] []).2.2.1
      (by decide) (by decide) (by decide) (by decide),
   (framebufferSize_wraps sampleDriver wideFramebuffer [] GPUColorFormatRGBA [] []).2.2.2.1
      (by decide) (by decide) (by decide) (Or.inl (by decide)),
   ((framebufferSize_wraps sampleDriver destroyedLargeFramebuffer [] GPUColorFormatRGBA [] []
      ).2.2.2.2 (by decide)).1⟩

/-- C18 as stated fails in two ways.  The destroyed 32768 x 32769 framebuffer
has `4 * width * height ≥ 2 ^ 32` and a reported size of 131072, while
`gpuGetFramebufferContents` returns InvalidFramebuffer and asks the driver to
write 0 bytes.  The valid framebuffer of width `2 ^ 31` and height 1 has
`4 * width * height = 2 ^ 33` and a reported size of 0, while its width reaches
`glReadPixels` as the `GLsizei` value `-2147483648`, so the driver is asked to
write 0 bytes.  In neither case is the size strictly smaller. -/
theorem framebufferSize_not_below_request_when_invalid :
    (2 ^ 32 ≤ 4 * destroyedLargeFramebuffer.texture.width
        * destroyedLargeFramebuffer.texture.height
      ∧ (gpuGetFramebufferSizeInBytes destroyedLargeFramebuffer []).1.1 = 131072
      ∧ (gpuGetFramebufferContents sampleDriver destroyedLargeFramebuffer []
          GPUColorFormatRGBA []).1.1 = GPUStatusInvalidFramebuffer
      ∧ requestedBytes (gpuGetFramebufferContents sampleDriver destroyedLargeFramebuffer []
          GPUColorFormatRGBA []).2 = 0
      ∧ ¬ ((gpuGetFramebufferSizeInBytes destroyedLargeFramebuffer []).1.1
          < requestedBytes (gpuGetFramebufferContents sampleDriver destroyedLargeFramebuffer []
              GPUColorFormatRGBA []).2))
    ∧ (2 ^ 32 ≤ 4 * wideFramebuffer.texture.width * wideFramebuffer.texture.height
      ∧ wideFramebuffer.valid = 1
      ∧ toGLsizei wideFramebuffer.texture.width = -2147483648
      ∧ (gpuGetFramebufferSizeInBytes wideFramebuffer []).1.1 = 0
      ∧ requestedBytes (gpuGetFramebufferContents sampleDriver wideFramebuffer []
          GPUColorFormatRGBA []).2 = 0
      ∧ ¬ ((gpuGetFramebufferSizeInBytes wideFramebuffer []).1.1
          < requestedBytes (gpuGetFramebufferContents sampleDriver wideFramebuffer []
              GPUColorFormatRGBA []).2)) := by
  refine ⟨⟨by decide, by decide, by decide, by decide, by decide⟩,
    ⟨by decide, by decide, by decide, by decide, by decide, by decide⟩⟩

end GPUFilter
